import Mathlib

/-!
Verification development for the cockpit demo risk engine
(`apps/terminal/src/lib/simEngine.ts` and `app/api/control/route.ts`).

Shallow embedding conventions:
* JavaScript numbers are modelled as exact rationals (`ℚ`); every constant in
  the source is a short decimal literal, and every claim is threshold logic
  that is insensitive to floating-point rounding.
* Wall-clock `now()` is modelled by passing the current time (in milliseconds,
  as a rational) into each operation; all `now()` calls inside one tick or one
  control operation observe the same instant.
* `Math.random()` is modelled by an oracle `rand : ℕ → ℚ`; each call site in a
  tick reads a distinct index (draws happen only when no scenario is active).
* Presentational string fields (alert id/title/detail/tags, pillar headline
  and display name, signal `valueText`, `scenarioName`, position `reason`,
  `updatedAt` timestamps) carry no logic and are omitted from the model;
  alert events keep their timestamp and severity, which is all any claim
  inspects.
* `setPhase(phase as any)` can store an unrecognized phase string; every such
  string behaves identically (no `switch` case matches), so they are
  quotiented to `none` in `EngineState.phase : Option Phase`.  Likewise an
  unrecognized scenario id behaves uniformly (it falls through to the S3
  timeline in `scenarioPhaseFor` but fails every `=== 'S3'` test), modelled by
  the constructor `ScenarioId.OTHER`.
* The engine's `timer` field is modelled as a `running : Bool` flag
  (`start` sets it, `stop` clears it); tick scheduling itself is external.
* The optional `score`/`confidence` fields of a pillar summary are set at
  initialization and never deleted by this engine, so they are modelled as
  plain rationals.
-/

set_option maxRecDepth 20000
set_option maxHeartbeats 2000000

inductive Regime
  | RISK_ON | NEUTRAL | DEFENSIVE | CRASH
deriving DecidableEq

inductive StressSource
  | CRYPTO | EQUITY | GENERAL | CORRELATED
deriving DecidableEq

inductive Sleeve
  | EQUITY | CRYPTO | DEFENSE | CASH_OPTIONS
deriving DecidableEq

inductive Severity
  | info | watch | critical
deriving DecidableEq

inductive SignalLevel
  | OK | WATCH | RISK
deriving DecidableEq

inductive PillarStatus
  | OK | ACTIVE | SUSPENDED | TRIGGERED | DEGRADED
deriving DecidableEq

inductive PillarId
  | ARAS | MACRO | MASTER | KEVLAR | PERM | SLOF | ARES
deriving DecidableEq

inductive Phase
  | CALM | BUILD_STRESS | CIRCUIT_BREAK | DELEVERAGE | STABILIZE | ARES_GATES | REENTRY
deriving DecidableEq

/-- Scenario identifiers.  `OTHER` stands for any unrecognized id smuggled in
through the `scenarioId as any` cast in the control route: such an id falls
through to the S3 timeline in `scenarioPhaseFor` but fails every
`=== 'S3'` comparison. -/
inductive ScenarioId
  | S1 | S2 | S3 | OTHER
deriving DecidableEq

inductive SourceBucket
  | CRYPTO | EQUITY | MIXED
deriving DecidableEq

inductive GateState
  | PASS | FAIL | WAIT
deriving DecidableEq

structure ARASModuleSignal where
  risk_score : ℚ
  stress_flag : Bool
  confidence : ℚ
  source_bucket : SourceBucket
deriving DecidableEq

/-- One entry of the `Partial<ARASModuleSignal>[]` patch applied by a phase
handler; `none` fields are absent keys (a no-op for that field). -/
structure ModulePatch where
  risk_score : Option ℚ
  stress_flag : Option Bool
  confidence : Option ℚ
deriving DecidableEq

structure ARESGateStatus where
  gate1_stress : GateState
  gate2_conviction : GateState
  gate3_confirmation : GateState
deriving DecidableEq

/-- A partial update of the gate status, as passed to the tick's `setGates`. -/
structure GatePatch where
  gate1_stress : Option GateState
  gate2_conviction : Option GateState
  gate3_confirmation : Option GateState
deriving DecidableEq

structure PillarSignal where
  name : String
  score : ℚ
  confidence : ℚ
  level : SignalLevel
deriving DecidableEq

/-- Input to `setSignals`: a sub-signal whose `level` may be omitted
(all call sites in the source omit it). -/
structure SignalInput where
  name : String
  score : ℚ
  confidence : ℚ
  level : Option SignalLevel
deriving DecidableEq

structure PillarSummary where
  status : PillarStatus
  score : ℚ
  confidence : ℚ
deriving DecidableEq

/-- A partial update of one pillar summary, as passed to `setPillar`
(headline-only patches are identities in this model and are omitted at the
call sites). -/
structure PillarPatch where
  status : Option PillarStatus
  score : Option ℚ
  confidence : Option ℚ
deriving DecidableEq

structure Pillars where
  ARAS : PillarSummary
  MACRO : PillarSummary
  MASTER : PillarSummary
  KEVLAR : PillarSummary
  PERM : PillarSummary
  SLOF : PillarSummary
  ARES : PillarSummary
deriving DecidableEq

def getPillar (id : PillarId) (p : Pillars) : PillarSummary :=
  match id with
  | .ARAS => p.ARAS
  | .MACRO => p.MACRO
  | .MASTER => p.MASTER
  | .KEVLAR => p.KEVLAR
  | .PERM => p.PERM
  | .SLOF => p.SLOF
  | .ARES => p.ARES

def putPillar (id : PillarId) (v : PillarSummary) (p : Pillars) : Pillars :=
  match id with
  | .ARAS => { p with ARAS := v }
  | .MACRO => { p with MACRO := v }
  | .MASTER => { p with MASTER := v }
  | .KEVLAR => { p with KEVLAR := v }
  | .PERM => { p with PERM := v }
  | .SLOF => { p with SLOF := v }
  | .ARES => { p with ARES := v }

structure AlertEvent where
  ts : ℚ
  severity : Severity
deriving DecidableEq

structure SleeveWeights where
  equity : ℚ
  crypto : ℚ
  defense : ℚ
  cashOptions : ℚ
deriving DecidableEq

structure PortfolioPosition where
  ticker : String
  sleeve : Sleeve
  conviction : Option ℕ
  slofEligible : Option Bool
  tranche : Option ℕ
  targetPct : ℚ
  currentPct : ℚ
deriving DecidableEq

structure ReentryState where
  pmApproved : Bool
  tranche : ℕ
  trancheCeiling : ℚ
deriving DecidableEq

structure PortfolioSnapshot where
  targetSleeves : SleeveWeights
  sleeves : SleeveWeights
  eqCryptoCeiling : ℚ
  slofMax : ℚ
  reentry : Option ReentryState
  positions : List PortfolioPosition
deriving DecidableEq

structure SystemSnapshot where
  ts : ℚ
  scenarioId : Option ScenarioId
  scenarioT : Option ℚ
  scenarioStep : Option Phase
  regime : Regime
  exposureCeilingGross : ℚ
  stressSource : StressSource
  portfolio : Option PortfolioSnapshot
  arasModules : Option (List ARASModuleSignal)
  aresGates : Option ARESGateStatus
  macroSignals : Option (List PillarSignal)
  masterSignals : Option (List PillarSignal)
  kevlarSignals : Option (List PillarSignal)
  permSignals : Option (List PillarSignal)
  slofSignals : Option (List PillarSignal)
  pillars : Pillars
  alerts : List AlertEvent
deriving DecidableEq

structure EngineState where
  snapshot : SystemSnapshot
  phase : Option Phase
  phaseT0 : ℚ
  scenarioId : Option ScenarioId
  scenarioT0 : ℚ
  scenarioLastStep : Option Phase
  pmReentryApproved : Bool
  pmReentryApprovedAt : Option ℚ
  running : Bool
deriving DecidableEq

/-! ## Constants (`SPEC_*` tables and target lists) -/

def SPEC_EQCR_CEILINGS : Regime → ℚ
  | .RISK_ON => 1.0
  | .NEUTRAL => 0.70
  | .DEFENSIVE => 0.40
  | .CRASH => 0.15

def SPEC_CEILINGS : Regime → ℚ
  | .RISK_ON => 1.10
  | .NEUTRAL => 0.70
  | .DEFENSIVE => 0.40
  | .CRASH => 0.15

def SPEC_SLOF_MAX_BY_REGIME : Regime → ℚ
  | .RISK_ON => 0.20
  | .NEUTRAL => 0.10
  | .DEFENSIVE => 0.0
  | .CRASH => 0.0

structure CutSpec where
  cryptoCut : ℚ
  equityCut : ℚ
  defenseCut : ℚ
deriving DecidableEq

def SPEC_SOURCE_TARGETED_CUTS : StressSource → CutSpec
  | .CRYPTO => ⟨0.80, 0.40, 0.0⟩
  | .EQUITY => ⟨0.30, 0.80, 0.0⟩
  | .GENERAL => ⟨0.70, 0.70, 0.0⟩
  | .CORRELATED => ⟨0.80, 0.70, 0.0⟩

def ARCH_AB_TARGET_SLEEVES : SleeveWeights :=
  { equity := 0.58, crypto := 0.20, defense := 0.14, cashOptions := 0.08 }

/-- An entry of one of the fixed target-weight tables. -/
structure TargetEntry where
  ticker : String
  pct : ℚ
  conviction : Option ℕ
  slofEligible : Option Bool
  tranche : Option ℕ
deriving DecidableEq

def TARGET_EQUITY : List TargetEntry :=
  [ ⟨"TSLA", 0.088, some 10, some true, some 1⟩,
    ⟨"NVDA", 0.088, some 10, some true, some 1⟩,
    ⟨"AMD", 0.072, some 9, some false, some 2⟩,
    ⟨"MU", 0.057, some 8, some false, some 2⟩,
    ⟨"PLTR", 0.057, some 8, some false, some 2⟩,
    ⟨"ALAB", 0.057, some 8, some false, some 2⟩,
    ⟨"MRVL", 0.043, some 7, some false, some 3⟩,
    ⟨"ANET", 0.043, some 7, some false, some 3⟩,
    ⟨"AVGO", 0.043, some 7, some false, some 3⟩,
    ⟨"ARM", 0.032, some 6, some false, some 3⟩ ]

def TARGET_CRYPTO : List TargetEntry :=
  [ ⟨"IBIT", 0.16, none, none, some 1⟩,
    ⟨"BSOL", 0.04, none, none, some 3⟩ ]

def TARGET_DEFENSE : List TargetEntry :=
  [ ⟨"TLT", 0.07, none, none, none⟩,
    ⟨"SGOL", 0.04, none, none, none⟩,
    ⟨"DBMF", 0.03, none, none, none⟩ ]

/-! ## Small helpers -/

def sumPct (xs : List TargetEntry) : ℚ :=
  xs.foldl (fun a x => a + x.pct) 0

def normalizeTo (xs : List TargetEntry) (total : ℚ) : List TargetEntry :=
  let s0 := sumPct xs
  let s := if s0 = 0 then 1 else s0
  xs.map (fun x => { x with pct := (x.pct / s) * total })

def bySleeveWeights (_regime : Regime) (eqCrCeiling : ℚ) : SleeveWeights :=
  let eqShare := ARCH_AB_TARGET_SLEEVES.equity /
    (ARCH_AB_TARGET_SLEEVES.equity + ARCH_AB_TARGET_SLEEVES.crypto)
  let crShare := 1 - eqShare
  { equity := eqCrCeiling * eqShare,
    crypto := eqCrCeiling * crShare,
    defense := ARCH_AB_TARGET_SLEEVES.defense,
    cashOptions := max 0 (1 - (eqCrCeiling + ARCH_AB_TARGET_SLEEVES.defense)) }

def clamp01 (x : ℚ) : ℚ := max 0 (min 1 x)

/-- Exposure ceilings can exceed 100% gross in RISK_ON; clamp to the demo max
1.2 rather than 1.0. -/
def clampCeiling (x : ℚ) : ℚ := max 0 (min 1.2 x)

def levelFromScore (score : ℚ) : SignalLevel :=
  if 0.7 ≤ score then .RISK
  else if 0.45 ≤ score then .WATCH
  else .OK

/-! ## Portfolio allocator (`buildPositions` / `buildPortfolioSnapshot`) -/

def applyCut (stressSource : StressSource) (regime : Regime)
    (sleeve : Sleeve) (base : ℚ) : ℚ :=
  let cuts := SPEC_SOURCE_TARGETED_CUTS stressSource
  match sleeve with
  | .CRYPTO =>
      base * (if regime = .CRASH ∨ regime = .DEFENSIVE then 1 - cuts.cryptoCut else 1)
  | .EQUITY =>
      base * (if regime = .CRASH ∨ regime = .DEFENSIVE then 1 - cuts.equityCut else 1)
  | _ => base

def trancheAllows (reentry : Option ReentryState) (pTranche : Option ℕ) : Bool :=
  match pTranche with
  | none => true
  | some pt =>
    match reentry with
    | none => true
    | some re => re.pmApproved && pt ≤ re.tranche

/-- Stable insertion into a list sorted by descending `currentPct`.  Together
with `sortPositionsDesc` this is extensionally the source's stable
`positions.sort((a, b) => b.currentPct - a.currentPct)`. -/
def insertPosDesc (x : PortfolioPosition) :
    List PortfolioPosition → List PortfolioPosition
  | [] => [x]
  | y :: ys =>
      if x.currentPct ≤ y.currentPct then y :: insertPosDesc x ys
      else x :: y :: ys

def sortPositionsDesc (l : List PortfolioPosition) : List PortfolioPosition :=
  l.foldl (fun acc x => insertPosDesc x acc) []

def buildPositions (regime : Regime) (stressSource : StressSource)
    (eqCrCeiling : ℚ) (reentry : Option ReentryState) : List PortfolioPosition :=
  let effEqCr := match reentry with
    | some re => re.trancheCeiling
    | none => eqCrCeiling
  let sleeves := bySleeveWeights regime effEqCr
  let eqTargets := normalizeTo TARGET_EQUITY sleeves.equity
  let crTargets := normalizeTo TARGET_CRYPTO sleeves.crypto
  let eq := eqTargets.map (fun x =>
    ({ ticker := x.ticker, sleeve := .EQUITY, conviction := x.conviction,
       slofEligible := x.slofEligible, tranche := x.tranche,
       targetPct := x.pct,
       currentPct := if trancheAllows reentry x.tranche then
           applyCut stressSource regime .EQUITY x.pct else 0 } : PortfolioPosition))
  let cr := crTargets.map (fun x =>
    ({ ticker := x.ticker, sleeve := .CRYPTO, conviction := none,
       slofEligible := none, tranche := x.tranche,
       targetPct := x.pct,
       currentPct := if trancheAllows reentry x.tranche then
           applyCut stressSource regime .CRYPTO x.pct else 0 } : PortfolioPosition))
  let defp := TARGET_DEFENSE.map (fun x =>
    ({ ticker := x.ticker, sleeve := .DEFENSE, conviction := none,
       slofEligible := none, tranche := none,
       targetPct := x.pct, currentPct := x.pct } : PortfolioPosition))
  let cash : List PortfolioPosition :=
    [ { ticker := "CASH+OPT", sleeve := .CASH_OPTIONS, conviction := none,
        slofEligible := none, tranche := none,
        targetPct := ARCH_AB_TARGET_SLEEVES.cashOptions,
        currentPct := (bySleeveWeights regime effEqCr).cashOptions } ]
  sortPositionsDesc (eq ++ cr ++ defp ++ cash)

def buildPortfolioSnapshot (regime : Regime) (stressSource : StressSource)
    (reentry : Option ReentryState) : PortfolioSnapshot :=
  let eqCrCeiling := match reentry with
    | some re => re.trancheCeiling
    | none => SPEC_EQCR_CEILINGS regime
  let sleeves := bySleeveWeights regime eqCrCeiling
  { targetSleeves := ARCH_AB_TARGET_SLEEVES,
    sleeves := sleeves,
    eqCryptoCeiling := eqCrCeiling,
    slofMax := SPEC_SLOF_MAX_BY_REGIME regime,
    reentry := reentry,
    positions := buildPositions regime stressSource eqCrCeiling reentry }

/-! ## Alert log, regime resolver, module aggregator, signal aggregator -/

/-- `pushAlert`: prepend the new alert and truncate the log to 200 entries.
The alert's id/title/detail/tags are presentational and not modelled. -/
def pushAlert (t : ℚ) (sev : Severity) (snap : SystemSnapshot) : SystemSnapshot :=
  { snap with alerts := (({ ts := t, severity := sev } : AlertEvent) :: snap.alerts).take 200 }

def setRegime (regime : Regime) (ceiling : ℚ) (stressSource : StressSource)
    (snap : SystemSnapshot) : SystemSnapshot :=
  { snap with regime := regime,
              exposureCeilingGross := clampCeiling ceiling,
              stressSource := stressSource }

def applyModulePatch (m : ARASModuleSignal) (p : ModulePatch) : ARASModuleSignal :=
  { m with risk_score := p.risk_score.getD m.risk_score,
           stress_flag := p.stress_flag.getD m.stress_flag,
           confidence := p.confidence.getD m.confidence }

def emptyModulePatch : ModulePatch := ⟨none, none, none⟩

def mapIdxFrom (f : ℕ → ARASModuleSignal → ARASModuleSignal) :
    ℕ → List ARASModuleSignal → List ARASModuleSignal
  | _, [] => []
  | i, a :: as => f i a :: mapIdxFrom f (i + 1) as

/-- The index-for-index merge `arasModules.map((m, i) => ({...m, ...patch[i]}))`
performed by `updateARASModules`. -/
def mergedModules (patch : List ModulePatch) (prev : List ARASModuleSignal) :
    List ARASModuleSignal :=
  mapIdxFrom (fun i m => applyModulePatch m (patch.getD i emptyModulePatch)) 0 prev

/-- Stand-in for an out-of-range `arasModules![idx]` read.  The source assumes
at least 6 modules (true for every state this engine produces); reading past
the end would throw in JS and is modelled as a zero module here. -/
def zeroModule : ARASModuleSignal := ⟨0, false, 0, .MIXED⟩

def moduleAvg (ms : List ARASModuleSignal) (idxs : List ℕ) : ℚ :=
  (idxs.foldl (fun a i => a + (ms.getD i zeroModule).risk_score) 0) / (idxs.length : ℚ)

/-- The body of the per-module alert loop of `updateARASModules`: a
stress-flag flip emits one alert (watch on, info off) and a crossing of the
fixed 0.65 risk threshold independently emits another (critical up, info
down). -/
def moduleAlertStep (t : ℚ) (acc : SystemSnapshot)
    (pn : ARASModuleSignal × ARASModuleSignal) : SystemSnapshot :=
  let p := pn.1
  let n := pn.2
  let acc := if p.stress_flag ≠ n.stress_flag then
      pushAlert t (if n.stress_flag then .watch else .info) acc
    else acc
  let wasHigh := (0.65 : ℚ) ≤ p.risk_score
  let isHigh := (0.65 : ℚ) ≤ n.risk_score
  if wasHigh ≠ isHigh then
    pushAlert t (if isHigh then .critical else .info) acc
  else acc

def updateARASModules (t : ℚ) (patch : List ModulePatch)
    (snap : SystemSnapshot) : SystemSnapshot :=
  match snap.arasModules with
  | none => snap
  | some prev =>
    let next := mergedModules patch prev
    -- per-module stress_flag flip and 0.65-threshold-crossing alerts
    let snap := (prev.zip next).foldl (moduleAlertStep t) snap
    let snap := { snap with arasModules := some next }
    -- stress-source detection over the fixed crypto/equity index subsets
    let cryptoAvg := moduleAvg next [1, 5]
    let equityAvg := moduleAvg next [2, 3, 4]
    let prevSource := snap.stressSource
    let snap := { snap with stressSource :=
      if 0.5 < cryptoAvg ∧ 0.5 < equityAvg ∧ |cryptoAvg - equityAvg| ≤ 0.15 then
        .CORRELATED
      else if 0.15 < cryptoAvg - equityAvg then .CRYPTO
      else if 0.15 < equityAvg - cryptoAvg then .EQUITY
      else .GENERAL }
    let snap := if prevSource ≠ snap.stressSource then pushAlert t .watch snap else snap
    -- 3+ stress flags force CRASH (one-way regime override)
    let stressCount := (next.filter (fun x => x.stress_flag)).length
    let prevRegime := snap.regime
    let prevCeil := snap.exposureCeilingGross
    let snap := if 3 ≤ stressCount then
        { snap with regime := .CRASH,
                    exposureCeilingGross := min snap.exposureCeilingGross 0.15 }
      else snap
    let snap := if prevRegime ≠ snap.regime ∨ prevCeil ≠ snap.exposureCeilingGross then
        pushAlert t .critical snap
      else snap
    -- keep the ARAS pillar summary consistent
    let composite := clamp01
      ((next.foldl (fun a m =>
          a + m.risk_score * m.confidence * (if m.stress_flag then 1.5 else 1.0)) 0) /
        (next.foldl (fun a m => a + m.confidence) 0))
    let aras := snap.pillars.ARAS
    { snap with pillars := { snap.pillars with ARAS :=
        { aras with score := composite,
                    confidence := clamp01
                      ((next.foldl (fun a m => a + m.confidence) 0) / (next.length : ℚ)) } } }

def setPillar (id : PillarId) (patch : PillarPatch) (snap : SystemSnapshot) :
    SystemSnapshot :=
  let cur := getPillar id snap.pillars
  let v : PillarSummary :=
    { status := patch.status.getD cur.status,
      score := patch.score.getD cur.score,
      confidence := patch.confidence.getD cur.confidence }
  { snap with pillars := putPillar id v snap.pillars }

inductive SignalKey
  | macroSignals | masterSignals | kevlarSignals | permSignals | slofSignals
deriving DecidableEq

def pillarByKey : SignalKey → PillarId
  | .macroSignals => .MACRO
  | .masterSignals => .MASTER
  | .kevlarSignals => .KEVLAR
  | .permSignals => .PERM
  | .slofSignals => .SLOF

def getSignalList (key : SignalKey) (snap : SystemSnapshot) :
    Option (List PillarSignal) :=
  match key with
  | .macroSignals => snap.macroSignals
  | .masterSignals => snap.masterSignals
  | .kevlarSignals => snap.kevlarSignals
  | .permSignals => snap.permSignals
  | .slofSignals => snap.slofSignals

def putSignalList (key : SignalKey) (v : Option (List PillarSignal))
    (snap : SystemSnapshot) : SystemSnapshot :=
  match key with
  | .macroSignals => { snap with macroSignals := v }
  | .masterSignals => { snap with masterSignals := v }
  | .kevlarSignals => { snap with kevlarSignals := v }
  | .permSignals => { snap with permSignals := v }
  | .slofSignals => { snap with slofSignals := v }

/-- The worst level mapped to a pillar status
(RISK → TRIGGERED, WATCH → ACTIVE, OK → OK). -/
def statusOfLevel : SignalLevel → PillarStatus
  | .RISK => .TRIGGERED
  | .WATCH => .ACTIVE
  | .OK => .OK

/-- One step of the worst-level reduce: RISK beats WATCH beats OK. -/
def worstStep (acc : SignalLevel) (s : PillarSignal) : SignalLevel :=
  if acc = .RISK ∨ s.level = .RISK then .RISK
  else if acc = .WATCH ∨ s.level = .WATCH then .WATCH
  else .OK

def worstLevel (next : List PillarSignal) : SignalLevel :=
  next.foldl worstStep .OK

/-- Normalization of one `setSignals` input: clamp score and confidence and
derive the level from the clamped score when omitted. -/
def normalizeSignal (s : SignalInput) : PillarSignal :=
  let score := clamp01 s.score
  let confidence := clamp01 s.confidence
  { name := s.name, score := score, confidence := confidence,
    level := s.level.getD (levelFromScore score) }

/-- The body of the level-change alert loop of `setSignals`: a new signal is
matched to the previous list by name; a level change emits one alert whose
severity follows the new level. -/
def signalAlertStep (t : ℚ) (prev : List PillarSignal) (acc : SystemSnapshot)
    (s : PillarSignal) : SystemSnapshot :=
  match prev.find? (fun x => x.name == s.name) with
  | none => acc
  | some p =>
    if p.level = s.level then acc
    else pushAlert t
      (match s.level with
       | .RISK => .critical
       | .WATCH => .watch
       | .OK => .info) acc

def setSignals (t : ℚ) (key : SignalKey) (signals : List SignalInput)
    (snap : SystemSnapshot) : SystemSnapshot :=
  let pillar := pillarByKey key
  let prev := (getSignalList key snap).getD []
  -- normalize + derive level if omitted
  let next := signals.map normalizeSignal
  -- emit events when a signal's level changes (matched to previous by name)
  let snap := next.foldl (signalAlertStep t prev) snap
  let snap := putSignalList key (some next) snap
  -- recompute the pillar summary from its signals
  let worst := worstLevel next
  let scoreAgg := if next.length ≠ 0 then
      (next.foldl (fun a s => a + s.score * s.confidence) 0) /
        (next.foldl (fun a s => a + s.confidence) 0)
    else 0
  let confAgg := if next.length ≠ 0 then
      (next.foldl (fun a s => a + s.confidence) 0) / (next.length : ℚ)
    else 0
  let status : PillarStatus := statusOfLevel worst
  setPillar pillar
    { status := some status,
      score := some (clamp01 scoreAgg),
      confidence := some (clamp01 confAgg) } snap

def setGates (g : GatePatch) (snap : SystemSnapshot) : SystemSnapshot :=
  let cur := snap.aresGates.getD ⟨.WAIT, .WAIT, .WAIT⟩
  let v : ARESGateStatus :=
    { gate1_stress := g.gate1_stress.getD cur.gate1_stress,
      gate2_conviction := g.gate2_conviction.getD cur.gate2_conviction,
      gate3_confirmation := g.gate3_confirmation.getD cur.gate3_confirmation }
  { snap with aresGates := some v }

/-! ## Initial state (`makeInitial` / engine constructor) -/

/-- The `mk` helper of `makeInitial`; `valueText` is presentational and not
modelled.  Note the level is derived from the raw score, the stored score is
clamped. -/
def mkSignal (name : String) (score confidence : ℚ) : PillarSignal :=
  { name := name, score := clamp01 score, confidence := clamp01 confidence,
    level := levelFromScore score }

def initialPillar (id : PillarId) : PillarSummary :=
  { status := .OK, score := if id = .ARAS then 0.18 else 0.2, confidence := 0.82 }

/-- The six ARAS modules as initialized (names are presentational and not
modelled; order is the spec order 1..6). -/
def initialModules : List ARASModuleSignal :=
  [ ⟨0.18, false, 0.88, .MIXED⟩,
    ⟨0.16, false, 0.86, .CRYPTO⟩,
    ⟨0.14, false, 0.84, .EQUITY⟩,
    ⟨0.15, false, 0.83, .EQUITY⟩,
    ⟨0.17, false, 0.82, .EQUITY⟩,
    ⟨0.08, false, 0.80, .CRYPTO⟩ ]

def makeInitialSnapshot (t : ℚ) : SystemSnapshot :=
  { ts := t,
    scenarioId := none, scenarioT := none, scenarioStep := none,
    regime := .RISK_ON,
    exposureCeilingGross := SPEC_CEILINGS .RISK_ON,
    stressSource := .GENERAL,
    portfolio := none,
    arasModules := some initialModules,
    aresGates := some ⟨.WAIT, .WAIT, .WAIT⟩,
    macroSignals := some
      [ mkSignal ("Liquidity ROC") 0.22 0.78,
        mkSignal ("Vol regime") 0.18 0.82,
        mkSignal ("Rates impulse") 0.16 0.74 ],
    masterSignals := some
      [ mkSignal ("Execution mode") 0.20 0.84,
        mkSignal ("Slippage est.") 0.18 0.76,
        mkSignal ("Kill-switch") 0.12 0.92 ],
    kevlarSignals := some
      [ mkSignal ("Concentration caps") 0.18 0.86,
        mkSignal ("DD guard") 0.16 0.82,
        mkSignal ("Sector skew") 0.20 0.78 ],
    permSignals := some
      [ mkSignal ("Profit lock") 0.14 0.80,
        mkSignal ("Trail stops") 0.12 0.76,
        mkSignal ("TP ladder") 0.10 0.74 ],
    slofSignals := some
      [ mkSignal ("Overlay eligibility") 0.16 0.82,
        mkSignal ("Sizing envelope") 0.18 0.78,
        mkSignal ("Blocked reason") 0.05 0.90 ],
    pillars :=
      { ARAS := initialPillar .ARAS, MACRO := initialPillar .MACRO,
        MASTER := initialPillar .MASTER, KEVLAR := initialPillar .KEVLAR,
        PERM := initialPillar .PERM, SLOF := initialPillar .SLOF,
        ARES := initialPillar .ARES },
    alerts := [⟨t, .info⟩] }

def makeInitial (t : ℚ) : EngineState :=
  { snapshot := makeInitialSnapshot t,
    phase := some .CALM, phaseT0 := t,
    scenarioId := none, scenarioT0 := t, scenarioLastStep := none,
    pmReentryApproved := false, pmReentryApprovedAt := none,
    running := false }

/-! ## Control operations -/

def pushAlertE (t : ℚ) (sev : Severity) (s : EngineState) : EngineState :=
  { s with snapshot := pushAlert t sev s.snapshot }

/-- `setPhase`: force the free-running phase machine (an unrecognized phase
string from the control route is quotiented to `none`). -/
def setPhase (t : ℚ) (phase : Option Phase) (s : EngineState) : EngineState :=
  pushAlertE t .info { s with phase := phase, phaseT0 := t }

def setScenario (t : ℚ) (id : ScenarioId) (s : EngineState) : EngineState :=
  pushAlertE t .info
    { s with scenarioId := some id, scenarioT0 := t, scenarioLastStep := none,
             pmReentryApproved := false, pmReentryApprovedAt := none }

def clearScenario (t : ℚ) (s : EngineState) : EngineState :=
  pushAlertE t .info
    { s with scenarioId := none, scenarioLastStep := none,
             pmReentryApproved := false, pmReentryApprovedAt := none }

def autoDemo (t : ℚ) (s : EngineState) : EngineState :=
  pushAlertE t .info (setScenario t .S3 s)

def approveReentry (t : ℚ) (s : EngineState) : EngineState :=
  pushAlertE t .watch
    { s with pmReentryApproved := true, pmReentryApprovedAt := some t }

def start (s : EngineState) : EngineState := { s with running := true }

def stop (s : EngineState) : EngineState := { s with running := false }

/-! ## Scenario timelines -/

def scenarioPhaseFor (id : ScenarioId) (t : ℚ) : Phase :=
  match id with
  | .S1 =>
      if t < 15 then .CALM
      else if t < 45 then .BUILD_STRESS
      else if t < 60 then .DELEVERAGE
      else if t < 80 then .STABILIZE
      else if t < 95 then .ARES_GATES
      else .REENTRY
  | .S2 =>
      if t < 12 then .CALM
      else if t < 40 then .BUILD_STRESS
      else if t < 58 then .DELEVERAGE
      else if t < 78 then .STABILIZE
      else if t < 92 then .ARES_GATES
      else .REENTRY
  | _ =>
      -- S3 (and, by fallthrough, any unrecognized id)
      if t < 12 then .CALM
      else if t < 34 then .BUILD_STRESS
      else if t < 44 then .CIRCUIT_BREAK
      else if t < 64 then .DELEVERAGE
      else if t < 84 then .STABILIZE
      else if t < 104 then .ARES_GATES
      else .REENTRY

/-! ## Tick: scenario playback, drift, phase handlers, portfolio rebuild -/

def onSnap (f : SystemSnapshot → SystemSnapshot) (s : EngineState) : EngineState :=
  { s with snapshot := f s.snapshot }

def forcePhase (t : ℚ) (phase : Phase) (s : EngineState) : EngineState :=
  if s.phase = some phase then s
  else { s with phase := some phase, phaseT0 := t }

/-- Scenario playback at the start of a tick: publish scenario fields, compute
the phase from elapsed time, emit a step alert (plus S3 story beats) when the
step changes, and force the phase.  `scenarioName` is presentational and not
modelled. -/
def scenarioBlock (t : ℚ) (s : EngineState) : EngineState :=
  match s.scenarioId with
  | some id =>
    let age := (t - s.scenarioT0) / 1000
    let phase := scenarioPhaseFor id age
    let s := onSnap (fun snap =>
      { snap with scenarioId := some id, scenarioT := some age,
                  scenarioStep := some phase }) s
    let s :=
      if s.scenarioLastStep ≠ some phase then
        let s := { s with scenarioLastStep := some phase }
        let s := pushAlertE t .info s
        if id = .S3 then
          match phase with
          | .CIRCUIT_BREAK => pushAlertE t .critical s
          | .DELEVERAGE => pushAlertE t .critical s
          | .ARES_GATES => pushAlertE t .info s
          | .REENTRY => pushAlertE t .watch s
          | _ => s
        else s
      else s
    forcePhase t phase s
  | none =>
    onSnap (fun snap =>
      { snap with scenarioId := none, scenarioT := none, scenarioStep := none }) s

def PILLARS : List PillarId :=
  [.ARAS, .MACRO, .MASTER, .KEVLAR, .PERM, .SLOF, .ARES]

/-- Mild random drift of all pillar scores/confidences, applied only when no
scenario is active (scenario playback stays deterministic). -/
def driftBlock (rand : ℕ → ℚ) (s : EngineState) : EngineState :=
  if s.scenarioId.isSome then s
  else
    let snap := (PILLARS.foldl (fun (acc : SystemSnapshot × ℕ) pid =>
      let snapc := acc.1
      let i := acc.2
      let cur := getPillar pid snapc.pillars
      let drift := (rand (2 * i) - 0.5) * 0.01
      (setPillar pid
        ⟨none,
         some (clamp01 (cur.score + drift)),
         some (clamp01 (cur.confidence + (rand (2 * i + 1) - 0.5) * 0.01))⟩ snapc,
       i + 1)) (s.snapshot, 0)).1
    { s with snapshot := snap }

/-- Compressed tranche schedule for the demo:
0-10s = tranche 1, 10-20s = 2, 20-30s = 3, 30s+ = 4. -/
def reentryTranche (dt : ℚ) : ℕ :=
  if dt < 10 then 1 else if dt < 20 then 2 else if dt < 30 then 3 else 4

def reentryTrancheCeiling (tranche : ℕ) : ℚ :=
  if tranche = 1 then 0.25 else if tranche = 2 then 0.5
  else if tranche = 3 then 0.75 else 1.0

/-- The module patch applied every CALM tick. -/
def calmPatch : List ModulePatch :=
  [ ⟨some 0.18, some false, some 0.88⟩,
    ⟨some 0.16, some false, some 0.86⟩,
    ⟨some 0.14, some false, some 0.84⟩,
    ⟨some 0.15, some false, some 0.83⟩,
    ⟨some 0.17, some false, some 0.82⟩,
    ⟨some 0.08, some false, some 0.80⟩ ]

/-- The module patch applied every BUILD_STRESS tick (4 stress flags set). -/
def buildStressPatch : List ModulePatch :=
  [ ⟨some 0.46, some false, some 0.86⟩,
    ⟨some 0.56, some true, some 0.83⟩,
    ⟨some 0.54, some true, some 0.78⟩,
    ⟨some 0.51, some true, some 0.77⟩,
    ⟨some 0.49, some false, some 0.79⟩,
    ⟨some 0.53, some true, some 0.76⟩ ]

/-- The module patch applied every CIRCUIT_BREAK tick (all 6 flags set). -/
def circuitBreakPatch : List ModulePatch :=
  [ ⟨some 0.72, some true, some 0.78⟩,
    ⟨some 0.79, some true, some 0.74⟩,
    ⟨some 0.82, some true, some 0.70⟩,
    ⟨some 0.76, some true, some 0.69⟩,
    ⟨some 0.74, some true, some 0.71⟩,
    ⟨some 0.68, some true, some 0.68⟩ ]

/-- The module patch applied every DELEVERAGE tick (5 stress flags set). -/
def deleveragePatch : List ModulePatch :=
  [ ⟨some 0.58, some true, some 0.80⟩,
    ⟨some 0.62, some true, some 0.77⟩,
    ⟨some 0.60, some true, some 0.74⟩,
    ⟨some 0.57, some true, some 0.73⟩,
    ⟨some 0.52, some false, some 0.76⟩,
    ⟨some 0.55, some true, some 0.72⟩ ]

/-- The module patch applied every STABILIZE tick. -/
def stabilizePatch : List ModulePatch :=
  [ ⟨some 0.34, some false, some 0.86⟩,
    ⟨some 0.33, some false, some 0.85⟩,
    ⟨some 0.31, some false, some 0.83⟩,
    ⟨some 0.30, some false, some 0.82⟩,
    ⟨some 0.29, some false, some 0.83⟩,
    ⟨some 0.28, some false, some 0.82⟩ ]

/-- The module patch applied every ARES_GATES tick. -/
def aresGatesPatch : List ModulePatch :=
  [ ⟨some 0.26, some false, some 0.88⟩,
    ⟨some 0.25, some false, some 0.87⟩,
    ⟨some 0.22, some false, some 0.85⟩,
    ⟨some 0.23, some false, some 0.84⟩,
    ⟨some 0.24, some false, some 0.84⟩,
    ⟨some 0.20, some false, some 0.83⟩ ]

/-- `if (cond) this.pushAlert(...)` — a conditionally emitted alert.  The
conditions at these sites only read `scenarioId`, `age` and random draws,
none of which the phase handler mutates. -/
def alertIfE (c : Prop) [Decidable c] (t : ℚ) (sev : Severity)
    (s : EngineState) : EngineState :=
  if c then pushAlertE t sev s else s

/-- `if (cond) this.setPhase(p)` — the free-running dwell-time transition at
the end of a phase handler. -/
def transitionIf (c : Prop) [Decidable c] (t : ℚ) (p : Phase)
    (s : EngineState) : EngineState :=
  if c then setPhase t (some p) s else s

/-- `if (this.scenarioId) this.forcePhase(p); else this.setPhase(p)` — the
unconditional advance out of CIRCUIT_BREAK. -/
def advanceIf (c : Prop) [Decidable c] (t : ℚ) (p : Phase)
    (s : EngineState) : EngineState :=
  if c then forcePhase t p s else setPhase t (some p) s

def caseCALM (t age : ℚ) (s0 : EngineState) : EngineState :=
  let s := onSnap (setRegime .RISK_ON (SPEC_CEILINGS .RISK_ON) .GENERAL) s0
  let s := onSnap (updateARASModules t calmPatch) s
  let s := onSnap (setGates ⟨some .WAIT, some .WAIT, some .WAIT⟩) s
  let s := onSnap (setSignals t .macroSignals
    [ ⟨"Liquidity ROC", 0.22, 0.78, none⟩,
      ⟨"Vol regime", 0.18, 0.82, none⟩,
      ⟨"Rates impulse", 0.16, 0.74, none⟩,
      ⟨"Cross-asset corr", 0.20, 0.76, none⟩ ]) s
  let s := onSnap (setSignals t .masterSignals
    [ ⟨"Execution mode", 0.20, 0.84, none⟩,
      ⟨"Queue depth", 0.18, 0.80, none⟩,
      ⟨"Slippage est.", 0.18, 0.76, none⟩ ]) s
  let s := onSnap (setSignals t .kevlarSignals
    [ ⟨"Concentration caps", 0.18, 0.86, none⟩,
      ⟨"DD guard", 0.16, 0.82, none⟩,
      ⟨"Sector skew", 0.20, 0.78, none⟩ ]) s
  let s := onSnap (setSignals t .permSignals
    [ ⟨"Profit lock", 0.14, 0.80, none⟩,
      ⟨"Trail stops", 0.12, 0.76, none⟩,
      ⟨"TP ladder", 0.10, 0.74, none⟩ ]) s
  let s := onSnap (setSignals t .slofSignals
    [ ⟨"Overlay eligibility", 0.16, 0.82, none⟩,
      ⟨"Sizing envelope", 0.18, 0.78, none⟩,
      ⟨"Blocked reason", 0.05, 0.90, none⟩ ]) s
  let s := onSnap (setPillar .ARAS ⟨some .OK, none, none⟩) s
  let s := onSnap (setPillar .ARES ⟨some .SUSPENDED, none, none⟩) s
  transitionIf (s0.scenarioId = none ∧ 18 < age) t .BUILD_STRESS s

def caseBUILD_STRESS (t age : ℚ) (rand : ℕ → ℚ) (s0 : EngineState) : EngineState :=
  -- the source's stress source here is `scenarioId === 'S3' ? 'CORRELATED' :
  -- 'CORRELATED'`, i.e. CORRELATED on both branches
  let s := onSnap (setRegime .NEUTRAL (SPEC_CEILINGS .NEUTRAL) .CORRELATED) s0
  let s := onSnap (updateARASModules t buildStressPatch) s
  let s := onSnap (setSignals t .macroSignals
    [ ⟨"Liquidity ROC", 0.62, 0.76, none⟩,
      ⟨"Vol regime", 0.55, 0.74, none⟩,
      ⟨"Rates impulse", 0.48, 0.70, none⟩,
      ⟨"Cross-asset corr", 0.64, 0.72, none⟩ ]) s
  let s := onSnap (setSignals t .masterSignals
    [ ⟨"Execution mode", 0.46, 0.78, none⟩,
      ⟨"Queue depth", 0.52, 0.72, none⟩,
      ⟨"Slippage est.", 0.56, 0.70, none⟩ ]) s
  let s := onSnap (setSignals t .kevlarSignals
    [ ⟨"Concentration caps", 0.52, 0.80, none⟩,
      ⟨"DD guard", 0.48, 0.76, none⟩,
      ⟨"Sector skew", 0.50, 0.72, none⟩ ]) s
  let s := onSnap (setSignals t .permSignals
    [ ⟨"Profit lock", 0.40, 0.78, none⟩,
      ⟨"Trail stops", 0.38, 0.74, none⟩,
      ⟨"TP ladder", 0.34, 0.72, none⟩ ]) s
  let s := onSnap (setSignals t .slofSignals
    [ ⟨"Overlay eligibility", 0.52, 0.76, none⟩,
      ⟨"Sizing envelope", 0.56, 0.74, none⟩,
      ⟨"Blocked reason", 0.30, 0.82, none⟩ ]) s
  let s := onSnap (setGates ⟨some .WAIT, some .WAIT, some .WAIT⟩) s
  let s := onSnap (setPillar .ARAS ⟨some .ACTIVE, none, none⟩) s
  let s := alertIfE (s0.scenarioId = none ∧ rand 14 < 0.12) t .watch s
  let s := alertIfE (s0.scenarioId = none ∧ rand 15 < 0.10) t .watch s
  transitionIf (s0.scenarioId = none ∧ 25 < age) t .CIRCUIT_BREAK s

def caseCIRCUIT_BREAK (t : ℚ) (s0 : EngineState) : EngineState :=
  -- updateARASModules will enforce CRASH/ceiling if 3+ stress flags;
  -- note it runs BEFORE this phase's own setRegime below
  let s := onSnap (updateARASModules t circuitBreakPatch) s0
  let s := onSnap (setSignals t .macroSignals
    [ ⟨"Liquidity ROC", 0.82, 0.74, none⟩,
      ⟨"Vol regime", 0.86, 0.72, none⟩,
      ⟨"Rates impulse", 0.70, 0.66, none⟩,
      ⟨"Cross-asset corr", 0.88, 0.70, none⟩ ]) s
  let s := onSnap (setSignals t .masterSignals
    [ ⟨"Execution mode", 0.78, 0.80, none⟩,
      ⟨"Queue depth", 0.74, 0.72, none⟩,
      ⟨"Slippage est.", 0.82, 0.68, none⟩ ]) s
  let s := onSnap (setSignals t .kevlarSignals
    [ ⟨"Concentration caps", 0.76, 0.86, none⟩,
      ⟨"DD guard", 0.80, 0.82, none⟩,
      ⟨"Sector skew", 0.70, 0.70, none⟩ ]) s
  let s := onSnap (setSignals t .permSignals
    [ ⟨"Profit lock", 0.74, 0.78, none⟩,
      ⟨"Trail stops", 0.72, 0.74, none⟩,
      ⟨"TP ladder", 0.55, 0.70, none⟩ ]) s
  let s := onSnap (setSignals t .slofSignals
    [ ⟨"Overlay eligibility", 0.86, 0.84, none⟩,
      ⟨"Sizing envelope", 0.90, 0.86, none⟩,
      ⟨"Blocked reason", 0.70, 0.92, none⟩ ]) s
  let s :=
    if s0.scenarioId = some .S3 then
      onSnap (setRegime .CRASH (SPEC_CEILINGS .CRASH) .CORRELATED) s
    else
      onSnap (fun snap =>
        setRegime .DEFENSIVE (min snap.exposureCeilingGross (SPEC_CEILINGS .DEFENSIVE))
          snap.stressSource snap) s
  let s := onSnap (setPillar .ARAS ⟨some .TRIGGERED, none, none⟩) s
  let s := alertIfE (s0.scenarioId = none) t .critical s
  advanceIf s0.scenarioId.isSome t .DELEVERAGE s

def caseDELEVERAGE (t age : ℚ) (rand : ℕ → ℚ) (s0 : EngineState) : EngineState :=
  let s := onSnap (fun snap =>
    setRegime (if s0.scenarioId = some .S3 then .CRASH else .DEFENSIVE)
      (if s0.scenarioId = some .S3 then SPEC_CEILINGS .CRASH else 0.35)
      snap.stressSource snap) s0
  let s := onSnap (updateARASModules t deleveragePatch) s
  let s := onSnap (setSignals t .macroSignals
    [ ⟨"Liquidity ROC", 0.64, 0.74, none⟩,
      ⟨"Vol regime", 0.70, 0.72, none⟩,
      ⟨"Rates impulse", 0.56, 0.68, none⟩,
      ⟨"Cross-asset corr", 0.66, 0.70, none⟩ ]) s
  let s := onSnap (setSignals t .masterSignals
    [ ⟨"Execution mode", 0.66, 0.82, none⟩,
      ⟨"Queue depth", 0.54, 0.74, none⟩,
      ⟨"Slippage est.", 0.60, 0.72, none⟩ ]) s
  let s := onSnap (setSignals t .kevlarSignals
    [ ⟨"Concentration caps", 0.62, 0.86, none⟩,
      ⟨"DD guard", 0.58, 0.82, none⟩,
      ⟨"Sector skew", 0.50, 0.74, none⟩ ]) s
  let s := onSnap (setSignals t .permSignals
    [ ⟨"Profit lock", 0.54, 0.80, none⟩,
      ⟨"Trail stops", 0.50, 0.76, none⟩,
      ⟨"TP ladder", 0.38, 0.74, none⟩ ]) s
  let s := onSnap (setSignals t .slofSignals
    [ ⟨"Overlay eligibility", 0.70, 0.86, none⟩,
      ⟨"Sizing envelope", 0.60, 0.78, none⟩,
      ⟨"Blocked reason", 0.42, 0.84, none⟩ ]) s
  let s := alertIfE (s0.scenarioId = none ∧ rand 14 < 0.08) t .info s
  transitionIf (s0.scenarioId = none ∧ 18 < age) t .STABILIZE s

def caseSTABILIZE (t age : ℚ) (s0 : EngineState) : EngineState :=
  let s := onSnap (setRegime
    (if s0.scenarioId = some .S3 then .DEFENSIVE else .NEUTRAL)
    (if s0.scenarioId = some .S3 then SPEC_CEILINGS .DEFENSIVE else 0.55)
    .GENERAL) s0
  let s := onSnap (updateARASModules t stabilizePatch) s
  let s := onSnap (setSignals t .macroSignals
    [ ⟨"Liquidity ROC", 0.48, 0.78, none⟩,
      ⟨"Vol regime", 0.40, 0.76, none⟩,
      ⟨"Rates impulse", 0.30, 0.72, none⟩,
      ⟨"Cross-asset corr", 0.38, 0.74, none⟩ ]) s
  let s := onSnap (setSignals t .masterSignals
    [ ⟨"Execution mode", 0.36, 0.82, none⟩,
      ⟨"Queue depth", 0.34, 0.76, none⟩,
      ⟨"Slippage est.", 0.38, 0.74, none⟩ ]) s
  let s := onSnap (setSignals t .kevlarSignals
    [ ⟨"Concentration caps", 0.40, 0.84, none⟩,
      ⟨"DD guard", 0.36, 0.80, none⟩,
      ⟨"Sector skew", 0.32, 0.76, none⟩ ]) s
  let s := onSnap (setSignals t .permSignals
    [ ⟨"Profit lock", 0.34, 0.78, none⟩,
      ⟨"Trail stops", 0.30, 0.76, none⟩,
      ⟨"TP ladder", 0.26, 0.72, none⟩ ]) s
  let s := onSnap (setSignals t .slofSignals
    [ ⟨"Overlay eligibility", 0.40, 0.78, none⟩,
      ⟨"Sizing envelope", 0.42, 0.76, none⟩,
      ⟨"Blocked reason", 0.22, 0.82, none⟩ ]) s
  let s := onSnap (setPillar .ARAS ⟨some .ACTIVE, none, none⟩) s
  let s := onSnap (setGates
    ⟨some (if 10 < age then .PASS else .WAIT), some .WAIT, some .WAIT⟩) s
  transitionIf (s0.scenarioId = none ∧ 20 < age) t .ARES_GATES s

def countPassGates (g : Option ARESGateStatus) : ℕ :=
  match g with
  | none => 0
  | some g =>
    ([g.gate1_stress, g.gate2_conviction, g.gate3_confirmation].filter
      (fun x => x = .PASS)).length

def caseARES_GATES (t age : ℚ) (rand : ℕ → ℚ) (s0 : EngineState) : EngineState :=
  let s := onSnap (setRegime .NEUTRAL
    (if s0.scenarioId = some .S3 then SPEC_CEILINGS .NEUTRAL else 0.6) .GENERAL) s0
  let s := onSnap (updateARASModules t aresGatesPatch) s
  let s := onSnap (setSignals t .macroSignals
    [ ⟨"Liquidity ROC", 0.30, 0.82, none⟩,
      ⟨"Vol regime", 0.26, 0.80, none⟩,
      ⟨"Rates impulse", 0.24, 0.76, none⟩,
      ⟨"Cross-asset corr", 0.28, 0.78, none⟩ ]) s
  let s := onSnap (setSignals t .masterSignals
    [ ⟨"Execution mode", 0.28, 0.84, none⟩,
      ⟨"Queue depth", 0.24, 0.80, none⟩,
      ⟨"Slippage est.", 0.28, 0.78, none⟩ ]) s
  let s := onSnap (setSignals t .kevlarSignals
    [ ⟨"Concentration caps", 0.30, 0.84, none⟩,
      ⟨"DD guard", 0.28, 0.82, none⟩,
      ⟨"Sector skew", 0.24, 0.78, none⟩ ]) s
  let s := onSnap (setSignals t .permSignals
    [ ⟨"Profit lock", 0.24, 0.78, none⟩,
      ⟨"Trail stops", 0.22, 0.76, none⟩,
      ⟨"TP ladder", 0.20, 0.74, none⟩ ]) s
  let s := onSnap (setSignals t .slofSignals
    [ ⟨"Overlay eligibility", 0.22, 0.84, none⟩,
      ⟨"Sizing envelope", 0.26, 0.78, none⟩,
      ⟨"Blocked reason", 0.05, 0.90, none⟩ ]) s
  let s := onSnap (setGates
    ⟨some .PASS,
     some (if 10 < age then .PASS else .WAIT),
     some (if 18 < age then .PASS else .WAIT)⟩) s
  let s := onSnap (fun snap =>
    setPillar .ARES
      ⟨some (if 3 ≤ countPassGates snap.aresGates then .TRIGGERED else .ACTIVE),
       none, none⟩ snap) s
  let s := alertIfE (s0.scenarioId = none ∧ rand 14 < 0.10) t .info s
  transitionIf (s0.scenarioId = none ∧ 25 < age) t .REENTRY s

def caseREENTRY (t age : ℚ) (rand : ℕ → ℚ) (s0 : EngineState) : EngineState :=
  let s :=
    if s0.scenarioId = some .S3 ∧ s0.pmReentryApproved = false then
      let s := onSnap (setRegime .NEUTRAL (SPEC_CEILINGS .NEUTRAL) .GENERAL) s0
      onSnap (setPillar .ARES ⟨some .TRIGGERED, none, none⟩) s
    else if s0.scenarioId = some .S3 ∧ s0.pmReentryApproved = true then
      let dt := match s0.pmReentryApprovedAt with
        | some ta => (t - ta) / 1000
        | none => 0
      let tranche := reentryTranche dt
      let ceiling := reentryTrancheCeiling tranche
      if tranche < 4 then
        let s := onSnap (setRegime .NEUTRAL ceiling .GENERAL) s0
        onSnap (setPillar .ARES ⟨some .ACTIVE, none, none⟩) s
      else
        let s := onSnap (setRegime .RISK_ON (SPEC_CEILINGS .RISK_ON) .GENERAL) s0
        onSnap (setPillar .ARES ⟨some .TRIGGERED, none, none⟩) s
    else
      onSnap (setRegime .RISK_ON
        (if s0.scenarioId = some .S3 then SPEC_CEILINGS .RISK_ON else 0.85)
        .GENERAL) s0
  let s := onSnap (setGates ⟨some .PASS, some .PASS, some .PASS⟩) s
  let s := onSnap (setSignals t .macroSignals
    [ ⟨"Liquidity ROC", 0.22, 0.84, none⟩,
      ⟨"Vol regime", 0.20, 0.82, none⟩,
      ⟨"Rates impulse", 0.18, 0.78, none⟩,
      ⟨"Cross-asset corr", 0.22, 0.80, none⟩ ]) s
  let s := onSnap (setSignals t .masterSignals
    [ ⟨"Execution mode", 0.26, 0.86, none⟩,
      ⟨"Queue depth", 0.22, 0.82, none⟩,
      ⟨"Slippage est.", 0.24, 0.80, none⟩ ]) s
  let s := onSnap (setSignals t .kevlarSignals
    [ ⟨"Concentration caps", 0.24, 0.86, none⟩,
      ⟨"DD guard", 0.22, 0.84, none⟩,
      ⟨"Sector skew", 0.20, 0.78, none⟩ ]) s
  let s := onSnap (setSignals t .permSignals
    [ ⟨"Profit lock", 0.20, 0.80, none⟩,
      ⟨"Trail stops", 0.18, 0.78, none⟩,
      ⟨"TP ladder", 0.16, 0.76, none⟩ ]) s
  let s := onSnap (setSignals t .slofSignals
    [ ⟨"Overlay eligibility", 0.18, 0.86, none⟩,
      ⟨"Sizing envelope", 0.22, 0.80, none⟩,
      ⟨"Blocked reason", 0.05, 0.90, none⟩ ]) s
  let s := if ¬(s0.scenarioId = some .S3) then
      onSnap (setPillar .ARES ⟨some .TRIGGERED, none, none⟩) s
    else s
  let s := alertIfE (s0.scenarioId = none ∧ rand 14 < 0.08) t .watch s
  transitionIf (s0.scenarioId = none ∧ 25 < age) t .CALM s

/-- The re-entry state attached to the portfolio snapshot at the end of each
tick (S3 only). -/
def deriveReentry (s : EngineState) : Option ReentryState :=
  if s.scenarioId = some .S3 then
    some
      { pmApproved := s.pmReentryApproved,
        tranche :=
          if s.pmReentryApproved then
            if s.snapshot.regime = .RISK_ON then 4
            else if s.snapshot.exposureCeilingGross ≤ 0.26 then 1
            else if s.snapshot.exposureCeilingGross ≤ 0.51 then 2
            else if s.snapshot.exposureCeilingGross ≤ 0.76 then 3
            else 4
          else 0,
        trancheCeiling :=
          if s.pmReentryApproved then
            min 1.0 (max 0.25 s.snapshot.exposureCeilingGross)
          else SPEC_EQCR_CEILINGS .NEUTRAL }
  else none

def portfolioBlock (s : EngineState) : EngineState :=
  onSnap (fun snap =>
    let p := buildPortfolioSnapshot snap.regime snap.stressSource (deriveReentry s)
    { snap with portfolio := some p }) s

def tsBlock (t : ℚ) (s : EngineState) : EngineState :=
  onSnap (fun snap => { snap with ts := t }) s

/-- The `switch (this.phase)` of the tick, with `age` the phase age computed
just before the switch.  A phase stored as an unrecognized string (modelled
`none`) matches no case. -/
def phaseBlock (t : ℚ) (rand : ℕ → ℚ) (s : EngineState) : EngineState :=
  let age := (t - s.phaseT0) / 1000
  match s.phase with
  | some .CALM => caseCALM t age s
  | some .BUILD_STRESS => caseBUILD_STRESS t age rand s
  | some .CIRCUIT_BREAK => caseCIRCUIT_BREAK t s
  | some .DELEVERAGE => caseDELEVERAGE t age rand s
  | some .STABILIZE => caseSTABILIZE t age s
  | some .ARES_GATES => caseARES_GATES t age rand s
  | some .REENTRY => caseREENTRY t age rand s
  | none => s

def tick (t : ℚ) (rand : ℕ → ℚ) (s : EngineState) : EngineState :=
  portfolioBlock (phaseBlock t rand (driftBlock rand (scenarioBlock t (tsBlock t s))))

/-! ## Control route (`POST /api/control`) -/

/-- The parsed JSON body of a control request (absent or non-string fields are
`none`; a malformed body parses to all-`none`). -/
structure ControlBody where
  action : Option String
  phase : Option String
  scenarioId : Option String
deriving DecidableEq

structure ControlResponse where
  ok : Bool
  error : Option String
  status : ℕ
deriving DecidableEq

def phaseFromString (x : String) : Option Phase :=
  if x = "CALM" then some .CALM
  else if x = "BUILD_STRESS" then some .BUILD_STRESS
  else if x = "CIRCUIT_BREAK" then some .CIRCUIT_BREAK
  else if x = "DELEVERAGE" then some .DELEVERAGE
  else if x = "STABILIZE" then some .STABILIZE
  else if x = "ARES_GATES" then some .ARES_GATES
  else if x = "REENTRY" then some .REENTRY
  else none

def scenarioFromString (x : String) : ScenarioId :=
  if x = "S1" then .S1 else if x = "S2" then .S2 else if x = "S3" then .S3
  else .OTHER

def recognizedControl (body : ControlBody) : Prop :=
  (body.action = some ("setPhase") ∧ body.phase.isSome) ∨
  (body.action = some ("setScenario") ∧ body.scenarioId.isSome) ∨
  body.action = some ("autoDemo") ∨
  body.action = some ("approveReentry")

instance (body : ControlBody) : Decidable (recognizedControl body) := by
  unfold recognizedControl
  infer_instance

def controlPOST (t : ℚ) (body : ControlBody) (s : EngineState) :
    ControlResponse × EngineState :=
  let s := start s
  if body.action = some ("setPhase") ∧ body.phase.isSome then
    (⟨true, none, 200⟩, setPhase t (phaseFromString (body.phase.getD (""))) s)
  else if body.action = some ("setScenario") ∧ body.scenarioId.isSome then
    (⟨true, none, 200⟩, setScenario t (scenarioFromString (body.scenarioId.getD (""))) s)
  else if body.action = some ("autoDemo") then
    (⟨true, none, 200⟩, autoDemo t s)
  else if body.action = some ("approveReentry") then
    (⟨true, none, 200⟩, approveReentry t s)
  else
    (⟨false, some ("Unknown action"), 400⟩, s)

/-- States reachable through the engine's public interface: construction, the
tick timer, the control route, and the start/stop calls made by the snapshot
and stream routes. -/
inductive Reachable : EngineState → Prop
  | init (t : ℚ) : Reachable (makeInitial t)
  | tick {s : EngineState} (t : ℚ) (rand : ℕ → ℚ) :
      Reachable s → Reachable (tick t rand s)
  | control {s : EngineState} (t : ℚ) (body : ControlBody) :
      Reachable s → Reachable (controlPOST t body s).2
  | startStep {s : EngineState} : Reachable s → Reachable (start s)
  | stopStep {s : EngineState} : Reachable s → Reachable (stop s)

/-! ## Definitions used to state the claims -/

/-- Reference stress-source classification, written from the spec's words
("If both averages exceed 0.5 and differ by ≤0.15 → CORRELATED. Else if
cryptoAvg − equityAvg > 0.15 → CRYPTO. Else if equityAvg − cryptoAvg > 0.15 →
EQUITY. Else → GENERAL"), to be compared with the classification inlined in
`updateARASModules`. -/
def stressSourceRef (cryptoAvg equityAvg : ℚ) : StressSource :=
  if 0.5 < cryptoAvg ∧ 0.5 < equityAvg ∧ |cryptoAvg - equityAvg| ≤ 0.15 then
    .CORRELATED
  else if 0.15 < cryptoAvg - equityAvg then .CRYPTO
  else if 0.15 < equityAvg - cryptoAvg then .EQUITY
  else .GENERAL

/-- The phase whose handler runs in a tick at time `t`: the scenario timeline
value when a scenario is active, the stored phase otherwise. -/
def effectivePhase (s : EngineState) (t : ℚ) : Option Phase :=
  match s.scenarioId with
  | some id => some (scenarioPhaseFor id ((t - s.scenarioT0) / 1000))
  | none => s.phase

def countStressFlags (s : EngineState) : ℕ :=
  ((s.snapshot.arasModules.getD []).filter (fun m => m.stress_flag)).length

def inUnit (x : ℚ) : Prop := 0 ≤ x ∧ x ≤ 1

def optInUnit (o : Option ℚ) : Prop := inUnit (o.getD 0)

def moduleOk (m : ARASModuleSignal) : Prop :=
  inUnit m.risk_score ∧ inUnit m.confidence

def signalOk (s : PillarSignal) : Prop := inUnit s.score ∧ inUnit s.confidence

def pillarOk (p : PillarSummary) : Prop := inUnit p.score ∧ inUnit p.confidence

def sigListOk (l : Option (List PillarSignal)) : Prop :=
  ∀ s ∈ l.getD [], signalOk s

/-- The snapshot-wide numeric invariant of spec §8: every stored score and
confidence (pillar summaries, pillar sub-signals, module signals) lies in
[0,1] and the exposure ceiling lies in [0,1.2]. -/
def snapInv (snap : SystemSnapshot) : Prop :=
  0 ≤ snap.exposureCeilingGross ∧ snap.exposureCeilingGross ≤ 1.2 ∧
  (∀ m ∈ snap.arasModules.getD [], moduleOk m) ∧
  sigListOk snap.macroSignals ∧ sigListOk snap.masterSignals ∧
  sigListOk snap.kevlarSignals ∧ sigListOk snap.permSignals ∧
  sigListOk snap.slofSignals ∧
  pillarOk snap.pillars.ARAS ∧ pillarOk snap.pillars.MACRO ∧
  pillarOk snap.pillars.MASTER ∧ pillarOk snap.pillars.KEVLAR ∧
  pillarOk snap.pillars.PERM ∧ pillarOk snap.pillars.SLOF ∧
  pillarOk snap.pillars.ARES

/-- A module patch whose present numeric fields lie in [0,1] (true of every
patch a phase handler passes). -/
def patchOk (patch : List ModulePatch) : Prop :=
  ∀ p ∈ patch, optInUnit p.risk_score ∧ optInUnit p.confidence

def constRand : ℕ → ℚ := fun _ => 1

/-- Engine forced into the CIRCUIT_BREAK phase (free-running, no scenario)
through the control route. -/
def circuitBreakState : EngineState :=
  (controlPOST 0 ⟨some ("setPhase"), some ("CIRCUIT_BREAK"), none⟩ (makeInitial 0)).2

/-- Engine forced into the BUILD_STRESS phase (free-running, no scenario)
through the control route. -/
def buildStressState : EngineState :=
  (controlPOST 0 ⟨some ("setPhase"), some ("BUILD_STRESS"), none⟩ (makeInitial 0)).2

/-- A module patch carrying an out-of-range risk score (1.5). -/
def oversizedPatch : List ModulePatch := [⟨some 1.5, some false, some 0.5⟩]

/-- Scenario S3 selected at time 0, PM approval not granted. -/
def s3Unapproved : EngineState := setScenario 0 .S3 (makeInitial 0)

/-- Scenario S3 selected at time 0, PM approval granted at t = 100000 ms. -/
def s3Approved : EngineState := approveReentry 100000 s3Unapproved

/-- A module patch giving crypto-subset average 0.6 and equity-subset average
0.58 (both > 0.5, difference ≤ 0.15). -/
def correlatedPatch : List ModulePatch :=
  [ ⟨some 0.2, none, none⟩, ⟨some 0.6, none, none⟩, ⟨some 0.58, none, none⟩,
    ⟨some 0.58, none, none⟩, ⟨some 0.58, none, none⟩, ⟨some 0.6, none, none⟩ ]

/-- A module patch giving crypto-subset average 0.7 and equity-subset average
0.4 (difference > 0.15). -/
def cryptoLedPatch : List ModulePatch :=
  [ ⟨some 0.2, none, none⟩, ⟨some 0.7, none, none⟩, ⟨some 0.4, none, none⟩,
    ⟨some 0.4, none, none⟩, ⟨some 0.4, none, none⟩, ⟨some 0.7, none, none⟩ ]

instance (x : ℚ) : Decidable (inUnit x) := by
  unfold inUnit; infer_instance

instance (o : Option ℚ) : Decidable (optInUnit o) := by
  unfold optInUnit; infer_instance

instance (m : ARASModuleSignal) : Decidable (moduleOk m) := by
  unfold moduleOk; infer_instance

instance (sg : PillarSignal) : Decidable (signalOk sg) := by
  unfold signalOk; infer_instance

instance (p : PillarSummary) : Decidable (pillarOk p) := by
  unfold pillarOk; infer_instance

instance (l : Option (List PillarSignal)) : Decidable (sigListOk l) := by
  unfold sigListOk; infer_instance

instance (patch : List ModulePatch) : Decidable (patchOk patch) := by
  unfold patchOk; infer_instance

instance (snap : SystemSnapshot) : Decidable (snapInv snap) := by
  unfold snapInv; infer_instance

/-! ## Generic lemmas -/

lemma foldlPreserve {α β : Type _} {f : β → α → β} {P : β → Prop}
    (h : ∀ b a, P b → P (f b a)) :
    ∀ (l : List α) (b : β), P b → P (l.foldl f b) := by
  intro l
  induction l with
  | nil => intro b hb; simpa using hb
  | cons a as ih => intro b hb; simpa using ih _ (h _ _ hb)

/-- `b` differs from `a` at most in its alert log. -/
def AlertsOnly (a b : SystemSnapshot) : Prop :=
  b = { a with alerts := b.alerts }

lemma alertsOnly_refl (a : SystemSnapshot) : AlertsOnly a a := rfl

lemma alertsOnly_push (a : SystemSnapshot) (t : ℚ) (sev : Severity) :
    AlertsOnly a (pushAlert t sev a) := rfl

lemma alertsOnly_trans {a b c : SystemSnapshot}
    (h1 : AlertsOnly a b) (h2 : AlertsOnly b c) : AlertsOnly a c := by
  unfold AlertsOnly at *
  rw [h2, h1]

lemma alertsOnly_ite {a b c : SystemSnapshot} (p : Prop) [Decidable p]
    (h1 : AlertsOnly a b) (h2 : AlertsOnly a c) :
    AlertsOnly a (if p then b else c) := by
  by_cases hp : p
  · simpa [hp] using h1
  · simpa [hp] using h2

lemma moduleAlertStep_alertsOnly (t : ℚ) (acc : SystemSnapshot)
    (pn : ARASModuleSignal × ARASModuleSignal) :
    AlertsOnly acc (moduleAlertStep t acc pn) := by
  unfold moduleAlertStep
  have hX : AlertsOnly acc
      (if pn.1.stress_flag ≠ pn.2.stress_flag then
        pushAlert t (if pn.2.stress_flag then .watch else .info) acc
      else acc) :=
    alertsOnly_ite _ (alertsOnly_push ..) (alertsOnly_refl _)
  exact alertsOnly_ite _ (alertsOnly_trans hX (alertsOnly_push ..)) hX

lemma signalAlertStep_alertsOnly (t : ℚ) (prev : List PillarSignal)
    (acc : SystemSnapshot) (s : PillarSignal) :
    AlertsOnly acc (signalAlertStep t prev acc s) := by
  unfold signalAlertStep
  cases prev.find? (fun x => x.name == s.name) with
  | none => exact alertsOnly_refl _
  | some p =>
    simp only []
    apply alertsOnly_ite
    · exact alertsOnly_refl _
    · exact alertsOnly_push ..

lemma foldl_moduleAlertStep_alertsOnly (t : ℚ) (snap : SystemSnapshot)
    (l : List (ARASModuleSignal × ARASModuleSignal)) :
    AlertsOnly snap (l.foldl (moduleAlertStep t) snap) := by
  apply foldlPreserve (P := fun b => AlertsOnly snap b)
  · intro b a hb
    exact alertsOnly_trans hb (moduleAlertStep_alertsOnly t b a)
  · exact alertsOnly_refl _

lemma foldl_signalAlertStep_alertsOnly (t : ℚ) (prev : List PillarSignal)
    (snap : SystemSnapshot) (l : List PillarSignal) :
    AlertsOnly snap (l.foldl (signalAlertStep t prev) snap) := by
  apply foldlPreserve (P := fun b => AlertsOnly snap b)
  · intro b a hb
    exact alertsOnly_trans hb (signalAlertStep_alertsOnly t prev b a)
  · exact alertsOnly_refl _

/-! ## Claims C7, C8, C9 -/

/-- C7: `setScenario` switches to the given scenario, resets the scenario
clock to the current instant (so elapsed time restarts at 0), resets the
PM-approval flag and its timestamp (so the derived re-entry tranche is 0
while unapproved), and emits exactly one info alert at the head of the log;
`clearScenario` performs the same approval reset. -/
theorem c7_set_scenario_resets (t : ℚ) (id : ScenarioId) (s : EngineState) :
    (setScenario t id s).scenarioId = some id ∧
    (setScenario t id s).scenarioT0 = t ∧
    (setScenario t id s).pmReentryApproved = false ∧
    (setScenario t id s).pmReentryApprovedAt = none ∧
    (setScenario t id s).snapshot.alerts =
      (({ ts := t, severity := .info } : AlertEvent) :: s.snapshot.alerts).take 200 ∧
    (clearScenario t s).pmReentryApproved = false ∧
    (clearScenario t s).pmReentryApprovedAt = none ∧
    (∀ s2 : EngineState, s2.pmReentryApproved = false →
      ∀ re, deriveReentry s2 = some re → re.tranche = 0 ∧ re.pmApproved = false) := by
  refine ⟨rfl, rfl, rfl, rfl, rfl, rfl, rfl, ?_⟩
  intro s2 h re hre
  unfold deriveReentry at hre
  by_cases hs : s2.scenarioId = some .S3
  · simp only [hs, h, if_true, if_false, Bool.false_eq_true, reduceIte,
      Option.some.injEq] at hre
    rw [← hre]
    exact ⟨rfl, rfl⟩
  · simp [hs] at hre

/-- C7 witness: concrete instantiation at scenario S3 from the initial
state. -/
theorem c7_witness :
    (setScenario 3 .S3 (makeInitial 0)).pmReentryApproved = false ∧
    (setScenario 3 .S3 (makeInitial 0)).scenarioT0 = 3 := by
  have h := c7_set_scenario_resets 3 .S3 (makeInitial 0)
  exact ⟨h.2.2.1, h.2.1⟩

/-- C8 counterexample: the claim says approve-re-entry "has no effect on
engine state unless a scenario with a re-entry phase is active", but with no
scenario active at all it still flips the PM-approval flag and appends an
alert. -/
theorem c8_counterexample :
    (makeInitial 0).scenarioId = none ∧
    (makeInitial 0).pmReentryApproved = false ∧
    (approveReentry 5 (makeInitial 0)).pmReentryApproved = true ∧
    (approveReentry 5 (makeInitial 0)).snapshot.alerts.length =
      (makeInitial 0).snapshot.alerts.length + 1 := by
  decide

/-- C8 (amended): the approve-re-entry operation unconditionally sets the
PM-approval flag and its timestamp and appends exactly one watch alert,
changing nothing else — also when no scenario with a re-entry phase is
active. -/
theorem c8_approve_reentry (t : ℚ) (s : EngineState) :
    approveReentry t s =
      { s with pmReentryApproved := true,
               pmReentryApprovedAt := some t,
               snapshot := pushAlert t .watch s.snapshot } ∧
    (approveReentry t s).snapshot.alerts =
      (({ ts := t, severity := .watch } : AlertEvent) ::
        s.snapshot.alerts).take 200 :=
  ⟨rfl, rfl⟩

/-- C9 counterexample: the claim says an unrecognized control action "causes
no state change in the engine", but the route calls `start()` before
dispatching, so a bogus action on a stopped engine starts the tick timer. -/
theorem c9_counterexample :
    (makeInitial 0).running = false ∧
    (controlPOST 0 ⟨some ("bogus"), none, none⟩ (makeInitial 0)).2.running = true ∧
    (controlPOST 0 ⟨some ("bogus"), none, none⟩ (makeInitial 0)).1.ok = false := by
  decide

/-- C9 (amended): every control request first starts the engine timer if it
is not already running; beyond that, a request whose action is not one of the
recognized operations causes no state change and is rejected with the
structured failure `{ok := false, error := "Unknown action"}` at HTTP status
400, while every recognized operation returns the plain acknowledgement
`{ok := true}` at status 200. -/
theorem c9_control_dispatch (t : ℚ) (body : ControlBody) (s : EngineState) :
    (recognizedControl body →
      (controlPOST t body s).1 = ⟨true, none, 200⟩) ∧
    (¬recognizedControl body →
      (controlPOST t body s).1 = ⟨false, some ("Unknown action"), 400⟩ ∧
      (controlPOST t body s).2 = start s) := by
  unfold recognizedControl controlPOST
  constructor
  · intro hrec
    split_ifs with h1 h2 h3 h4
    any_goals rfl
    exfalso
    rcases hrec with h | h | h | h
    exacts [h1 h, h2 h, h3 h, h4 h]
  · intro hrec
    split_ifs with h1 h2 h3 h4
    · exact absurd (Or.inl h1) hrec
    · exact absurd (Or.inr (Or.inl h2)) hrec
    · exact absurd (Or.inr (Or.inr (Or.inl h3))) hrec
    · exact absurd (Or.inr (Or.inr (Or.inr h4))) hrec
    · exact ⟨rfl, rfl⟩

/-- C9 witness: a recognized action is acknowledged with `{ok := true}`, and
an unrecognized one is rejected leaving only the started engine. -/
theorem c9_witness :
    recognizedControl ⟨some ("autoDemo"), none, none⟩ ∧
    (controlPOST 0 ⟨some ("autoDemo"), none, none⟩ (makeInitial 0)).1 =
      ⟨true, none, 200⟩ :=
  ⟨by decide,
   (c9_control_dispatch 0 ⟨some ("autoDemo"), none, none⟩ (makeInitial 0)).1 (by decide)⟩

/-! ## Effect of `updateARASModules` on modules, stress source, regime, ceiling -/

lemma updateARAS_effect (t : ℚ) (patch : List ModulePatch) (snap : SystemSnapshot)
    (prev : List ARASModuleSignal) (h : snap.arasModules = some prev) :
    (updateARASModules t patch snap).arasModules = some (mergedModules patch prev) ∧
    (updateARASModules t patch snap).stressSource =
      stressSourceRef (moduleAvg (mergedModules patch prev) [1, 5])
        (moduleAvg (mergedModules patch prev) [2, 3, 4]) ∧
    (updateARASModules t patch snap).regime =
      (if 3 ≤ ((mergedModules patch prev).filter (fun m => m.stress_flag)).length
       then .CRASH else snap.regime) ∧
    (updateARASModules t patch snap).exposureCeilingGross =
      (if 3 ≤ ((mergedModules patch prev).filter (fun m => m.stress_flag)).length
       then min snap.exposureCeilingGross 0.15
       else snap.exposureCeilingGross) := by
  have hB := foldl_moduleAlertStep_alertsOnly t snap
    (prev.zip (mergedModules patch prev))
  have hB' : (prev.zip (mergedModules patch prev)).foldl (moduleAlertStep t) snap =
      { snap with alerts :=
        ((prev.zip (mergedModules patch prev)).foldl (moduleAlertStep t) snap).alerts } := hB
  unfold updateARASModules
  simp only [h]
  rw [hB']
  simp only [stressSourceRef, pushAlert,
    apply_ite SystemSnapshot.arasModules, apply_ite SystemSnapshot.stressSource,
    apply_ite SystemSnapshot.regime, apply_ite SystemSnapshot.exposureCeilingGross,
    ite_self]
  exact ⟨trivial, trivial, trivial, trivial⟩

/-! ## Claim C2 -/

/-- C2: after every module-signal update the stored stress source equals the
reference classification `stressSourceRef` applied to the crypto-subset mean
(indices 1 and 5) and the equity-subset mean (indices 2, 3, 4) of the merged
modules; in particular crypto average 0.6 with equity average 0.58 yields
CORRELATED, and crypto average 0.7 with equity average 0.4 yields CRYPTO. -/
theorem c2_stress_source_classification (t : ℚ) (patch : List ModulePatch)
    (snap : SystemSnapshot) (prev : List ARASModuleSignal)
    (h : snap.arasModules = some prev) (_hlen : prev.length = 6) :
    ((updateARASModules t patch snap).arasModules = some (mergedModules patch prev) ∧
     (updateARASModules t patch snap).stressSource =
       stressSourceRef (moduleAvg (mergedModules patch prev) [1, 5])
         (moduleAvg (mergedModules patch prev) [2, 3, 4])) ∧
    (moduleAvg ((updateARASModules 0 correlatedPatch
        (makeInitialSnapshot 0)).arasModules.getD []) [1, 5] = 0.6 ∧
     moduleAvg ((updateARASModules 0 correlatedPatch
        (makeInitialSnapshot 0)).arasModules.getD []) [2, 3, 4] = 0.58 ∧
     (updateARASModules 0 correlatedPatch (makeInitialSnapshot 0)).stressSource =
       .CORRELATED) ∧
    (moduleAvg ((updateARASModules 0 cryptoLedPatch
        (makeInitialSnapshot 0)).arasModules.getD []) [1, 5] = 0.7 ∧
     moduleAvg ((updateARASModules 0 cryptoLedPatch
        (makeInitialSnapshot 0)).arasModules.getD []) [2, 3, 4] = 0.4 ∧
     (updateARASModules 0 cryptoLedPatch (makeInitialSnapshot 0)).stressSource =
       .CRYPTO) := by
  refine ⟨⟨(updateARAS_effect t patch snap prev h).1,
           (updateARAS_effect t patch snap prev h).2.1⟩, ?_, ?_⟩
  · exact ⟨by with_unfolding_all decide, by with_unfolding_all decide,
      by with_unfolding_all decide⟩
  · exact ⟨by with_unfolding_all decide, by with_unfolding_all decide,
      by with_unfolding_all decide⟩

/-- C2 witness: the refinement instantiated at the initial snapshot with the
correlated example patch. -/
theorem c2_witness :
    initialModules.length = 6 ∧
    (updateARASModules 7 correlatedPatch (makeInitialSnapshot 0)).stressSource =
      stressSourceRef
        (moduleAvg (mergedModules correlatedPatch initialModules) [1, 5])
        (moduleAvg (mergedModules correlatedPatch initialModules) [2, 3, 4]) :=
  ⟨by decide,
   ((c2_stress_source_classification 7 correlatedPatch (makeInitialSnapshot 0)
      initialModules rfl (by decide)).1).2⟩

/-! ## Clamp and worst-level lemmas -/

lemma clamp01_nonneg (x : ℚ) : 0 ≤ clamp01 x := le_max_left 0 _

lemma clamp01_le_one (x : ℚ) : clamp01 x ≤ 1 :=
  max_le (by norm_num) (min_le_left 1 x)

lemma clamp01_inUnit (x : ℚ) : inUnit (clamp01 x) :=
  ⟨clamp01_nonneg x, clamp01_le_one x⟩

lemma clamp01_eq_self {x : ℚ} (h0 : 0 ≤ x) (h1 : x ≤ 1) : clamp01 x = x := by
  unfold clamp01
  rw [min_eq_right h1, max_eq_right h0]

lemma clampCeiling_nonneg (x : ℚ) : 0 ≤ clampCeiling x := le_max_left 0 _

lemma clampCeiling_le (x : ℚ) : clampCeiling x ≤ 1.2 :=
  max_le (by norm_num) (min_le_left _ x)

lemma normalizeSignal_ok (s : SignalInput) : signalOk (normalizeSignal s) :=
  ⟨clamp01_inUnit s.score, clamp01_inUnit s.confidence⟩

lemma worstStep_risk_iff (acc : SignalLevel) (a : PillarSignal) :
    worstStep acc a = .RISK ↔ (acc = .RISK ∨ a.level = .RISK) := by
  unfold worstStep
  split_ifs with h1 h2 <;> simp_all

lemma worstStep_watch_iff (acc : SignalLevel) (a : PillarSignal) :
    worstStep acc a = .WATCH ↔
      (¬(acc = .RISK ∨ a.level = .RISK) ∧ (acc = .WATCH ∨ a.level = .WATCH)) := by
  unfold worstStep
  split_ifs with h1 h2 <;> simp_all

lemma worstFold_risk (l : List PillarSignal) : ∀ acc : SignalLevel,
    l.foldl worstStep acc = .RISK ↔ (acc = .RISK ∨ ∃ s ∈ l, s.level = .RISK) := by
  induction l with
  | nil => intro acc; simp
  | cons a as ih =>
    intro acc
    rw [List.foldl_cons, ih]
    have hx : (∃ s ∈ a :: as, s.level = .RISK) ↔
        (a.level = .RISK ∨ ∃ s ∈ as, s.level = .RISK) := by simp
    rw [hx, worstStep_risk_iff]
    tauto

lemma worstFold_watch (l : List PillarSignal) : ∀ acc : SignalLevel,
    l.foldl worstStep acc = .WATCH ↔
      (¬(acc = .RISK ∨ ∃ s ∈ l, s.level = .RISK) ∧
       (acc = .WATCH ∨ ∃ s ∈ l, s.level = .WATCH)) := by
  induction l with
  | nil => intro acc; cases acc <;> simp
  | cons a as ih =>
    intro acc
    rw [List.foldl_cons, ih]
    have hr : (∃ s ∈ a :: as, s.level = .RISK) ↔
        (a.level = .RISK ∨ ∃ s ∈ as, s.level = .RISK) := by simp
    have hw : (∃ s ∈ a :: as, s.level = .WATCH) ↔
        (a.level = .WATCH ∨ ∃ s ∈ as, s.level = .WATCH) := by simp
    rw [hr, hw, worstStep_risk_iff, worstStep_watch_iff]
    generalize (acc = SignalLevel.RISK) = A
    generalize (a.level = SignalLevel.RISK) = B
    generalize (∃ s ∈ as, s.level = SignalLevel.RISK) = C
    generalize (acc = SignalLevel.WATCH) = D
    generalize (a.level = SignalLevel.WATCH) = E
    generalize (∃ s ∈ as, s.level = SignalLevel.WATCH) = F
    tauto

lemma worstLevel_risk_iff (l : List PillarSignal) :
    worstLevel l = .RISK ↔ ∃ s ∈ l, s.level = .RISK := by
  unfold worstLevel
  rw [worstFold_risk]
  simp

lemma worstLevel_watch_iff (l : List PillarSignal) :
    worstLevel l = .WATCH ↔
      ((¬∃ s ∈ l, s.level = .RISK) ∧ ∃ s ∈ l, s.level = .WATCH) := by
  unfold worstLevel
  rw [worstFold_watch]
  simp

lemma worstLevel_ok_iff (l : List PillarSignal) :
    worstLevel l = .OK ↔
      ((¬∃ s ∈ l, s.level = .RISK) ∧ ¬∃ s ∈ l, s.level = .WATCH) := by
  constructor
  · intro h
    constructor
    · intro hx
      rw [← worstLevel_risk_iff] at hx
      rw [h] at hx
      cases hx
    · intro hx
      have hw : worstLevel l = .WATCH := by
        rw [worstLevel_watch_iff]
        refine ⟨?_, hx⟩
        intro hr
        rw [← worstLevel_risk_iff] at hr
        rw [h] at hr
        cases hr
      rw [h] at hw
      cases hw
  · intro ⟨hr, hw⟩
    cases h : worstLevel l with
    | OK => rfl
    | WATCH => exact absurd ((worstLevel_watch_iff l).1 h).2 hw
    | RISK => exact absurd ((worstLevel_risk_iff l).1 h) hr

/-! ## Sum lemmas for the roll-up means -/

lemma foldl_add_eq_sum {α : Type _} (f : α → ℚ) :
    ∀ (l : List α) (a : ℚ),
      l.foldl (fun acc s => acc + f s) a = a + (l.map f).sum := by
  intro l
  induction l with
  | nil => intro a; simp
  | cons x xs ih => intro a; simp [ih, add_assoc]

lemma sum_conf_nonneg {l : List PillarSignal} (h : ∀ s ∈ l, signalOk s) :
    0 ≤ (l.map (fun s => s.confidence)).sum := by
  apply List.sum_nonneg
  intro x hx
  obtain ⟨s, hs, rfl⟩ := List.mem_map.1 hx
  exact (h s hs).2.1

lemma sum_score_conf_nonneg {l : List PillarSignal} (h : ∀ s ∈ l, signalOk s) :
    0 ≤ (l.map (fun s => s.score * s.confidence)).sum := by
  apply List.sum_nonneg
  intro x hx
  obtain ⟨s, hs, rfl⟩ := List.mem_map.1 hx
  exact mul_nonneg (h s hs).1.1 (h s hs).2.1

lemma sum_score_conf_le_sum_conf {l : List PillarSignal} (h : ∀ s ∈ l, signalOk s) :
    (l.map (fun s => s.score * s.confidence)).sum ≤ (l.map (fun s => s.confidence)).sum := by
  apply List.sum_le_sum
  intro s hs
  calc s.score * s.confidence ≤ 1 * s.confidence :=
        mul_le_mul_of_nonneg_right (h s hs).1.2 (h s hs).2.1
    _ = s.confidence := one_mul _

lemma sum_conf_le_length {l : List PillarSignal} (h : ∀ s ∈ l, signalOk s) :
    (l.map (fun s => s.confidence)).sum ≤ (l.length : ℚ) := by
  have := List.sum_le_card_nsmul (l.map (fun s => s.confidence)) 1 (by
    intro x hx
    obtain ⟨s, hs, rfl⟩ := List.mem_map.1 hx
    exact (h s hs).2.2)
  simpa [List.length_map, nsmul_eq_mul] using this

/-! ## Structural projection lemmas -/

lemma getSignalList_setPillar (key : SignalKey) (id : PillarId)
    (patch : PillarPatch) (snap : SystemSnapshot) :
    getSignalList key (setPillar id patch snap) = getSignalList key snap := by
  cases key <;> rfl

lemma getSignalList_putSignalList (key : SignalKey)
    (v : Option (List PillarSignal)) (snap : SystemSnapshot) :
    getSignalList key (putSignalList key v snap) = v := by
  cases key <;> rfl

lemma pillars_putSignalList (key : SignalKey) (v : Option (List PillarSignal))
    (snap : SystemSnapshot) :
    (putSignalList key v snap).pillars = snap.pillars := by
  cases key <;> rfl

lemma getPillar_setPillar_full (id : PillarId) (st : PillarStatus) (sc cf : ℚ)
    (snap : SystemSnapshot) :
    getPillar id (setPillar id ⟨some st, some sc, some cf⟩ snap).pillars =
      ⟨st, sc, cf⟩ := by
  cases id <;> rfl

lemma alertsOnly_pillars {a b : SystemSnapshot} (h : AlertsOnly a b) :
    b.pillars = a.pillars := by
  rw [show b = { a with alerts := b.alerts } from h]

lemma alertsOnly_getSignalList (key : SignalKey) {a b : SystemSnapshot}
    (h : AlertsOnly a b) : getSignalList key b = getSignalList key a := by
  rw [show b = { a with alerts := b.alerts } from h]
  cases key <;> rfl

lemma statusOfLevel_triggered_iff (w : SignalLevel) :
    statusOfLevel w = .TRIGGERED ↔ w = .RISK := by
  cases w <;> simp [statusOfLevel]

lemma statusOfLevel_active_iff (w : SignalLevel) :
    statusOfLevel w = .ACTIVE ↔ w = .WATCH := by
  cases w <;> simp [statusOfLevel]

lemma statusOfLevel_ok_iff (w : SignalLevel) :
    statusOfLevel w = .OK ↔ w = .OK := by
  cases w <;> simp [statusOfLevel]

lemma setSignals_result (t : ℚ) (key : SignalKey) (signals : List SignalInput)
    (snap : SystemSnapshot) :
    setSignals t key signals snap =
      setPillar (pillarByKey key)
        ⟨some (statusOfLevel (worstLevel (signals.map normalizeSignal))),
         some (clamp01 (if (signals.map normalizeSignal).length ≠ 0 then
            ((signals.map normalizeSignal).foldl
              (fun a s => a + s.score * s.confidence) 0) /
            ((signals.map normalizeSignal).foldl
              (fun a s => a + s.confidence) 0) else 0)),
         some (clamp01 (if (signals.map normalizeSignal).length ≠ 0 then
            ((signals.map normalizeSignal).foldl
              (fun a s => a + s.confidence) 0) /
            (((signals.map normalizeSignal).length : ℕ) : ℚ) else 0))⟩
        (putSignalList key (some (signals.map normalizeSignal))
          ((signals.map normalizeSignal).foldl
            (signalAlertStep t ((getSignalList key snap).getD [])) snap)) := rfl

/-- C5: after a per-pillar sub-signal update the rolled-up status is TRIGGERED
iff some stored sub-signal is at RISK, ACTIVE iff none is RISK but some is
WATCH, and OK otherwise; the rolled-up score is the confidence-weighted mean
of the stored sub-signal scores and the rolled-up confidence the unweighted
mean of their confidences; an omitted level is derived from the (clamped)
score via the thresholds 0.70 → RISK, 0.45 → WATCH, else OK. -/
theorem c5_pillar_rollup (t : ℚ) (key : SignalKey) (signals : List SignalInput)
    (snap : SystemSnapshot) (hne : signals ≠ [])
    (hpos : 0 < ((signals.map normalizeSignal).map (fun s => s.confidence)).sum) :
    getSignalList key (setSignals t key signals snap) =
      some (signals.map normalizeSignal) ∧
    ((getPillar (pillarByKey key) (setSignals t key signals snap).pillars).status =
        .TRIGGERED ↔ ∃ s ∈ signals.map normalizeSignal, s.level = .RISK) ∧
    ((getPillar (pillarByKey key) (setSignals t key signals snap).pillars).status =
        .ACTIVE ↔ ((¬∃ s ∈ signals.map normalizeSignal, s.level = .RISK) ∧
          ∃ s ∈ signals.map normalizeSignal, s.level = .WATCH)) ∧
    ((getPillar (pillarByKey key) (setSignals t key signals snap).pillars).status =
        .OK ↔ ((¬∃ s ∈ signals.map normalizeSignal, s.level = .RISK) ∧
          ¬∃ s ∈ signals.map normalizeSignal, s.level = .WATCH)) ∧
    ((getPillar (pillarByKey key) (setSignals t key signals snap).pillars).score =
      ((signals.map normalizeSignal).map (fun s => s.score * s.confidence)).sum /
        ((signals.map normalizeSignal).map (fun s => s.confidence)).sum) ∧
    ((getPillar (pillarByKey key) (setSignals t key signals snap).pillars).confidence =
      ((signals.map normalizeSignal).map (fun s => s.confidence)).sum /
        (signals.length : ℚ)) ∧
    (∀ sIn : SignalInput, (normalizeSignal sIn).level =
      sIn.level.getD (levelFromScore (clamp01 sIn.score))) ∧
    (∀ x : ℚ, (0.7 ≤ x → levelFromScore x = .RISK) ∧
      (0.45 ≤ x → x < 0.7 → levelFromScore x = .WATCH) ∧
      (x < 0.45 → levelFromScore x = .OK)) := by
  have hsig : ∀ s ∈ signals.map normalizeSignal, signalOk s := by
    intro s hs
    obtain ⟨x, _, rfl⟩ := List.mem_map.1 hs
    exact normalizeSignal_ok x
  have hlen : (signals.map normalizeSignal).length ≠ 0 := by
    simpa [List.length_map] using fun h => hne (List.length_eq_zero.mp h)
  rw [setSignals_result]
  rw [getSignalList_setPillar, getSignalList_putSignalList]
  rw [getPillar_setPillar_full]
  refine ⟨rfl, ?_, ?_, ?_, ?_, ?_, fun _ => rfl, ?_⟩
  · rw [show (⟨statusOfLevel (worstLevel (signals.map normalizeSignal)), _, _⟩ :
      PillarSummary).status = statusOfLevel (worstLevel (signals.map normalizeSignal))
      from rfl]
    rw [statusOfLevel_triggered_iff, worstLevel_risk_iff]
  · rw [show (⟨statusOfLevel (worstLevel (signals.map normalizeSignal)), _, _⟩ :
      PillarSummary).status = statusOfLevel (worstLevel (signals.map normalizeSignal))
      from rfl]
    rw [statusOfLevel_active_iff, worstLevel_watch_iff]
  · rw [show (⟨statusOfLevel (worstLevel (signals.map normalizeSignal)), _, _⟩ :
      PillarSummary).status = statusOfLevel (worstLevel (signals.map normalizeSignal))
      from rfl]
    rw [statusOfLevel_ok_iff, worstLevel_ok_iff]
  · show clamp01 _ = _
    rw [if_pos hlen, foldl_add_eq_sum, foldl_add_eq_sum, zero_add, zero_add]
    exact clamp01_eq_self
      (div_nonneg (sum_score_conf_nonneg hsig) (le_of_lt hpos))
      ((div_le_one hpos).mpr (sum_score_conf_le_sum_conf hsig))
  · show clamp01 _ = _
    rw [if_pos hlen, foldl_add_eq_sum, zero_add, List.length_map]
    have hlpos : (0 : ℚ) < (signals.length : ℚ) := by
      have : 0 < signals.length := Nat.pos_of_ne_zero (by
        simpa [List.length_map] using hlen)
      exact_mod_cast this
    refine clamp01_eq_self (div_nonneg (sum_conf_nonneg hsig) (le_of_lt hlpos)) ?_
    refine (div_le_one hlpos).mpr ?_
    have := sum_conf_le_length hsig
    simpa [List.length_map] using this
  · intro x
    refine ⟨?_, ?_, ?_⟩
    · intro h
      unfold levelFromScore
      rw [if_pos h]
    · intro h1 h2
      unfold levelFromScore
      rw [if_neg (not_le.2 h2), if_pos h1]
    · intro h
      unfold levelFromScore
      rw [if_neg (not_le.2 (h.trans_le (by norm_num))), if_neg (not_le.2 h)]

/-- C5 witness: the roll-up at the CALM macro signal list on the initial
snapshot. -/
theorem c5_witness :
    ([ ⟨"Liquidity ROC", 0.22, 0.78, none⟩,
       ⟨"Vol regime", 0.18, 0.82, none⟩,
       ⟨"Rates impulse", 0.16, 0.74, none⟩ ] : List SignalInput) ≠ [] ∧
    (getPillar .MACRO (setSignals 0 .macroSignals
      [ ⟨"Liquidity ROC", 0.22, 0.78, none⟩,
        ⟨"Vol regime", 0.18, 0.82, none⟩,
        ⟨"Rates impulse", 0.16, 0.74, none⟩ ] (makeInitialSnapshot 0)).pillars).status =
      .OK := by
  refine ⟨by decide, ?_⟩
  have h := c5_pillar_rollup 0 .macroSignals
    [ ⟨"Liquidity ROC", 0.22, 0.78, none⟩,
      ⟨"Vol regime", 0.18, 0.82, none⟩,
      ⟨"Rates impulse", 0.16, 0.74, none⟩ ] (makeInitialSnapshot 0)
    (by decide) (by with_unfolding_all decide)
  exact (h.2.2.2.1).mpr (by with_unfolding_all decide)

/-! ## Projection lemmas for the tick building blocks -/

@[simp] lemma pushAlert_regime (t : ℚ) (sev : Severity) (snap : SystemSnapshot) :
    (pushAlert t sev snap).regime = snap.regime := rfl

@[simp] lemma pushAlert_ceiling (t : ℚ) (sev : Severity) (snap : SystemSnapshot) :
    (pushAlert t sev snap).exposureCeilingGross = snap.exposureCeilingGross := rfl

@[simp] lemma pushAlert_stressSource (t : ℚ) (sev : Severity) (snap : SystemSnapshot) :
    (pushAlert t sev snap).stressSource = snap.stressSource := rfl

@[simp] lemma pushAlert_arasModules (t : ℚ) (sev : Severity) (snap : SystemSnapshot) :
    (pushAlert t sev snap).arasModules = snap.arasModules := rfl

@[simp] lemma setPillar_regime (id : PillarId) (patch : PillarPatch) (snap : SystemSnapshot) :
    (setPillar id patch snap).regime = snap.regime := rfl

@[simp] lemma setPillar_ceiling (id : PillarId) (patch : PillarPatch) (snap : SystemSnapshot) :
    (setPillar id patch snap).exposureCeilingGross = snap.exposureCeilingGross := rfl

@[simp] lemma setPillar_stressSource (id : PillarId) (patch : PillarPatch) (snap : SystemSnapshot) :
    (setPillar id patch snap).stressSource = snap.stressSource := rfl

@[simp] lemma setPillar_arasModules (id : PillarId) (patch : PillarPatch) (snap : SystemSnapshot) :
    (setPillar id patch snap).arasModules = snap.arasModules := rfl

@[simp] lemma setGates_regime (g : GatePatch) (snap : SystemSnapshot) :
    (setGates g snap).regime = snap.regime := rfl

@[simp] lemma setGates_ceiling (g : GatePatch) (snap : SystemSnapshot) :
    (setGates g snap).exposureCeilingGross = snap.exposureCeilingGross := rfl

@[simp] lemma setGates_stressSource (g : GatePatch) (snap : SystemSnapshot) :
    (setGates g snap).stressSource = snap.stressSource := rfl

@[simp] lemma setGates_arasModules (g : GatePatch) (snap : SystemSnapshot) :
    (setGates g snap).arasModules = snap.arasModules := rfl

@[simp] lemma putSignalList_regime (key : SignalKey) (v : Option (List PillarSignal))
    (snap : SystemSnapshot) : (putSignalList key v snap).regime = snap.regime := by
  cases key <;> rfl

@[simp] lemma putSignalList_ceiling (key : SignalKey) (v : Option (List PillarSignal))
    (snap : SystemSnapshot) :
    (putSignalList key v snap).exposureCeilingGross = snap.exposureCeilingGross := by
  cases key <;> rfl

@[simp] lemma putSignalList_stressSource (key : SignalKey) (v : Option (List PillarSignal))
    (snap : SystemSnapshot) :
    (putSignalList key v snap).stressSource = snap.stressSource := by
  cases key <;> rfl

@[simp] lemma putSignalList_arasModules (key : SignalKey) (v : Option (List PillarSignal))
    (snap : SystemSnapshot) :
    (putSignalList key v snap).arasModules = snap.arasModules := by
  cases key <;> rfl

@[simp] lemma setRegime_regime (r : Regime) (c : ℚ) (src : StressSource)
    (snap : SystemSnapshot) : (setRegime r c src snap).regime = r := rfl

@[simp] lemma setRegime_ceiling (r : Regime) (c : ℚ) (src : StressSource)
    (snap : SystemSnapshot) :
    (setRegime r c src snap).exposureCeilingGross = clampCeiling c := rfl

@[simp] lemma setRegime_stressSource (r : Regime) (c : ℚ) (src : StressSource)
    (snap : SystemSnapshot) : (setRegime r c src snap).stressSource = src := rfl

@[simp] lemma setRegime_arasModules (r : Regime) (c : ℚ) (src : StressSource)
    (snap : SystemSnapshot) : (setRegime r c src snap).arasModules = snap.arasModules := rfl

lemma alertsOnly_regime {a b : SystemSnapshot} (h : AlertsOnly a b) :
    b.regime = a.regime := by
  rw [show b = { a with alerts := b.alerts } from h]

lemma alertsOnly_ceiling {a b : SystemSnapshot} (h : AlertsOnly a b) :
    b.exposureCeilingGross = a.exposureCeilingGross := by
  rw [show b = { a with alerts := b.alerts } from h]

lemma alertsOnly_stressSource {a b : SystemSnapshot} (h : AlertsOnly a b) :
    b.stressSource = a.stressSource := by
  rw [show b = { a with alerts := b.alerts } from h]

lemma alertsOnly_arasModules {a b : SystemSnapshot} (h : AlertsOnly a b) :
    b.arasModules = a.arasModules := by
  rw [show b = { a with alerts := b.alerts } from h]

@[simp] lemma setSignals_regime (t : ℚ) (key : SignalKey) (sigs : List SignalInput)
    (snap : SystemSnapshot) : (setSignals t key sigs snap).regime = snap.regime := by
  rw [setSignals_result, setPillar_regime, putSignalList_regime]
  exact alertsOnly_regime (foldl_signalAlertStep_alertsOnly ..)

@[simp] lemma setSignals_ceiling (t : ℚ) (key : SignalKey) (sigs : List SignalInput)
    (snap : SystemSnapshot) :
    (setSignals t key sigs snap).exposureCeilingGross = snap.exposureCeilingGross := by
  rw [setSignals_result, setPillar_ceiling, putSignalList_ceiling]
  exact alertsOnly_ceiling (foldl_signalAlertStep_alertsOnly ..)

@[simp] lemma setSignals_stressSource (t : ℚ) (key : SignalKey) (sigs : List SignalInput)
    (snap : SystemSnapshot) :
    (setSignals t key sigs snap).stressSource = snap.stressSource := by
  rw [setSignals_result, setPillar_stressSource, putSignalList_stressSource]
  exact alertsOnly_stressSource (foldl_signalAlertStep_alertsOnly ..)

@[simp] lemma setSignals_arasModules (t : ℚ) (key : SignalKey) (sigs : List SignalInput)
    (snap : SystemSnapshot) :
    (setSignals t key sigs snap).arasModules = snap.arasModules := by
  rw [setSignals_result, setPillar_arasModules, putSignalList_arasModules]
  exact alertsOnly_arasModules (foldl_signalAlertStep_alertsOnly ..)

@[simp] lemma onSnap_snapshot (f : SystemSnapshot → SystemSnapshot) (s : EngineState) :
    (onSnap f s).snapshot = f s.snapshot := rfl

@[simp] lemma onSnap_scenarioId (f : SystemSnapshot → SystemSnapshot) (s : EngineState) :
    (onSnap f s).scenarioId = s.scenarioId := rfl

@[simp] lemma onSnap_scenarioT0 (f : SystemSnapshot → SystemSnapshot) (s : EngineState) :
    (onSnap f s).scenarioT0 = s.scenarioT0 := rfl

@[simp] lemma onSnap_phase (f : SystemSnapshot → SystemSnapshot) (s : EngineState) :
    (onSnap f s).phase = s.phase := rfl

@[simp] lemma onSnap_phaseT0 (f : SystemSnapshot → SystemSnapshot) (s : EngineState) :
    (onSnap f s).phaseT0 = s.phaseT0 := rfl

@[simp] lemma onSnap_approved (f : SystemSnapshot → SystemSnapshot) (s : EngineState) :
    (onSnap f s).pmReentryApproved = s.pmReentryApproved := rfl

@[simp] lemma onSnap_approvedAt (f : SystemSnapshot → SystemSnapshot) (s : EngineState) :
    (onSnap f s).pmReentryApprovedAt = s.pmReentryApprovedAt := rfl

@[simp] lemma pushAlertE_scenarioId (t : ℚ) (sev : Severity) (s : EngineState) :
    (pushAlertE t sev s).scenarioId = s.scenarioId := rfl

@[simp] lemma pushAlertE_approved (t : ℚ) (sev : Severity) (s : EngineState) :
    (pushAlertE t sev s).pmReentryApproved = s.pmReentryApproved := rfl

@[simp] lemma pushAlertE_approvedAt (t : ℚ) (sev : Severity) (s : EngineState) :
    (pushAlertE t sev s).pmReentryApprovedAt = s.pmReentryApprovedAt := rfl

@[simp] lemma pushAlertE_phase (t : ℚ) (sev : Severity) (s : EngineState) :
    (pushAlertE t sev s).phase = s.phase := rfl

@[simp] lemma pushAlertE_snapshot (t : ℚ) (sev : Severity) (s : EngineState) :
    (pushAlertE t sev s).snapshot = pushAlert t sev s.snapshot := rfl

@[simp] lemma forcePhase_phase (t : ℚ) (p : Phase) (s : EngineState) :
    (forcePhase t p s).phase = some p := by
  unfold forcePhase
  split_ifs with h
  · exact h
  · rfl

@[simp] lemma forcePhase_scenarioId (t : ℚ) (p : Phase) (s : EngineState) :
    (forcePhase t p s).scenarioId = s.scenarioId := by
  unfold forcePhase
  split_ifs <;> rfl

@[simp] lemma forcePhase_approved (t : ℚ) (p : Phase) (s : EngineState) :
    (forcePhase t p s).pmReentryApproved = s.pmReentryApproved := by
  unfold forcePhase
  split_ifs <;> rfl

@[simp] lemma forcePhase_approvedAt (t : ℚ) (p : Phase) (s : EngineState) :
    (forcePhase t p s).pmReentryApprovedAt = s.pmReentryApprovedAt := by
  unfold forcePhase
  split_ifs <;> rfl

@[simp] lemma forcePhase_snapshot (t : ℚ) (p : Phase) (s : EngineState) :
    (forcePhase t p s).snapshot = s.snapshot := by
  unfold forcePhase
  split_ifs <;> rfl

@[simp] lemma forcePhase_scenarioT0 (t : ℚ) (p : Phase) (s : EngineState) :
    (forcePhase t p s).scenarioT0 = s.scenarioT0 := by
  unfold forcePhase
  split_ifs <;> rfl

lemma driftBlock_of_scenario (rand : ℕ → ℚ) (s : EngineState)
    (h : s.scenarioId.isSome) : driftBlock rand s = s := by
  unfold driftBlock
  rw [if_pos h]

lemma scenarioBlock_some (t : ℚ) (s : EngineState) (id : ScenarioId)
    (h : s.scenarioId = some id) :
    (scenarioBlock t s).scenarioId = some id ∧
    (scenarioBlock t s).scenarioT0 = s.scenarioT0 ∧
    (scenarioBlock t s).phase = some (scenarioPhaseFor id ((t - s.scenarioT0) / 1000)) ∧
    (scenarioBlock t s).pmReentryApproved = s.pmReentryApproved ∧
    (scenarioBlock t s).pmReentryApprovedAt = s.pmReentryApprovedAt ∧
    (scenarioBlock t s).snapshot.regime = s.snapshot.regime ∧
    (scenarioBlock t s).snapshot.exposureCeilingGross =
      s.snapshot.exposureCeilingGross ∧
    (scenarioBlock t s).snapshot.stressSource = s.snapshot.stressSource ∧
    (scenarioBlock t s).snapshot.arasModules = s.snapshot.arasModules := by
  unfold scenarioBlock
  simp only [h]
  refine ⟨?_, ?_, ?_, ?_, ?_, ?_, ?_, ?_, ?_⟩ <;>
    simp only [forcePhase_scenarioId, forcePhase_phase, forcePhase_approved,
      forcePhase_approvedAt, forcePhase_snapshot, forcePhase_scenarioT0] <;>
    split_ifs <;>
    first
      | rfl
      | exact h
      | (split <;> first | rfl | exact h)

@[simp] lemma setPhase_snap_regime (t : ℚ) (p : Option Phase) (s : EngineState) :
    (setPhase t p s).snapshot.regime = s.snapshot.regime := rfl

@[simp] lemma setPhase_snap_ceiling (t : ℚ) (p : Option Phase) (s : EngineState) :
    (setPhase t p s).snapshot.exposureCeilingGross =
      s.snapshot.exposureCeilingGross := rfl

@[simp] lemma setPhase_snap_stressSource (t : ℚ) (p : Option Phase) (s : EngineState) :
    (setPhase t p s).snapshot.stressSource = s.snapshot.stressSource := rfl

@[simp] lemma setPhase_snap_arasModules (t : ℚ) (p : Option Phase) (s : EngineState) :
    (setPhase t p s).snapshot.arasModules = s.snapshot.arasModules := rfl

@[simp] lemma pushAlertE_snap_regime (t : ℚ) (sev : Severity) (s : EngineState) :
    (pushAlertE t sev s).snapshot.regime = s.snapshot.regime := rfl

@[simp] lemma pushAlertE_snap_ceiling (t : ℚ) (sev : Severity) (s : EngineState) :
    (pushAlertE t sev s).snapshot.exposureCeilingGross =
      s.snapshot.exposureCeilingGross := rfl

@[simp] lemma pushAlertE_snap_stressSource (t : ℚ) (sev : Severity) (s : EngineState) :
    (pushAlertE t sev s).snapshot.stressSource = s.snapshot.stressSource := rfl

@[simp] lemma pushAlertE_snap_arasModules (t : ℚ) (sev : Severity) (s : EngineState) :
    (pushAlertE t sev s).snapshot.arasModules = s.snapshot.arasModules := rfl

@[simp] lemma setPhase_scenarioId (t : ℚ) (p : Option Phase) (s : EngineState) :
    (setPhase t p s).scenarioId = s.scenarioId := rfl

@[simp] lemma alertIfE_snap_regime (c : Prop) [Decidable c] (t : ℚ) (sev : Severity)
    (s : EngineState) : (alertIfE c t sev s).snapshot.regime = s.snapshot.regime := by
  unfold alertIfE; split_ifs <;> rfl

@[simp] lemma alertIfE_snap_ceiling (c : Prop) [Decidable c] (t : ℚ) (sev : Severity)
    (s : EngineState) :
    (alertIfE c t sev s).snapshot.exposureCeilingGross =
      s.snapshot.exposureCeilingGross := by
  unfold alertIfE; split_ifs <;> rfl

@[simp] lemma alertIfE_snap_stressSource (c : Prop) [Decidable c] (t : ℚ) (sev : Severity)
    (s : EngineState) :
    (alertIfE c t sev s).snapshot.stressSource = s.snapshot.stressSource := by
  unfold alertIfE; split_ifs <;> rfl

@[simp] lemma alertIfE_snap_arasModules (c : Prop) [Decidable c] (t : ℚ) (sev : Severity)
    (s : EngineState) :
    (alertIfE c t sev s).snapshot.arasModules = s.snapshot.arasModules := by
  unfold alertIfE; split_ifs <;> rfl

@[simp] lemma transitionIf_snap_regime (c : Prop) [Decidable c] (t : ℚ) (p : Phase)
    (s : EngineState) :
    (transitionIf c t p s).snapshot.regime = s.snapshot.regime := by
  unfold transitionIf; split_ifs <;> rfl

@[simp] lemma transitionIf_snap_ceiling (c : Prop) [Decidable c] (t : ℚ) (p : Phase)
    (s : EngineState) :
    (transitionIf c t p s).snapshot.exposureCeilingGross =
      s.snapshot.exposureCeilingGross := by
  unfold transitionIf; split_ifs <;> rfl

@[simp] lemma transitionIf_snap_stressSource (c : Prop) [Decidable c] (t : ℚ) (p : Phase)
    (s : EngineState) :
    (transitionIf c t p s).snapshot.stressSource = s.snapshot.stressSource := by
  unfold transitionIf; split_ifs <;> rfl

@[simp] lemma transitionIf_snap_arasModules (c : Prop) [Decidable c] (t : ℚ) (p : Phase)
    (s : EngineState) :
    (transitionIf c t p s).snapshot.arasModules = s.snapshot.arasModules := by
  unfold transitionIf; split_ifs <;> rfl

@[simp] lemma advanceIf_snap_regime (c : Prop) [Decidable c] (t : ℚ) (p : Phase)
    (s : EngineState) :
    (advanceIf c t p s).snapshot.regime = s.snapshot.regime := by
  unfold advanceIf; split_ifs <;> simp [forcePhase_snapshot]

@[simp] lemma advanceIf_snap_ceiling (c : Prop) [Decidable c] (t : ℚ) (p : Phase)
    (s : EngineState) :
    (advanceIf c t p s).snapshot.exposureCeilingGross =
      s.snapshot.exposureCeilingGross := by
  unfold advanceIf; split_ifs <;> simp [forcePhase_snapshot]

@[simp] lemma advanceIf_snap_stressSource (c : Prop) [Decidable c] (t : ℚ) (p : Phase)
    (s : EngineState) :
    (advanceIf c t p s).snapshot.stressSource = s.snapshot.stressSource := by
  unfold advanceIf; split_ifs <;> simp [forcePhase_snapshot]

@[simp] lemma advanceIf_snap_arasModules (c : Prop) [Decidable c] (t : ℚ) (p : Phase)
    (s : EngineState) :
    (advanceIf c t p s).snapshot.arasModules = s.snapshot.arasModules := by
  unfold advanceIf; split_ifs <;> simp [forcePhase_snapshot]

lemma phaseBlock_of_phase (t : ℚ) (rand : ℕ → ℚ) (s : EngineState)
    (h : s.phase = some .REENTRY) :
    phaseBlock t rand s = caseREENTRY t ((t - s.phaseT0) / 1000) rand s := by
  unfold phaseBlock
  simp only [h]

lemma caseREENTRY_s3_approved (t age : ℚ) (rand : ℕ → ℚ) (s : EngineState) (ta : ℚ)
    (hs : s.scenarioId = some .S3) (happ : s.pmReentryApproved = true)
    (hat : s.pmReentryApprovedAt = some ta) :
    (caseREENTRY t age rand s).snapshot.regime =
      (if reentryTranche ((t - ta) / 1000) < 4 then .NEUTRAL else .RISK_ON) ∧
    (caseREENTRY t age rand s).snapshot.exposureCeilingGross =
      (if reentryTranche ((t - ta) / 1000) < 4 then
        clampCeiling (reentryTrancheCeiling (reentryTranche ((t - ta) / 1000)))
       else clampCeiling (SPEC_CEILINGS .RISK_ON)) := by
  unfold caseREENTRY
  by_cases ht : reentryTranche ((t - ta) / 1000) < 4 <;>
    simp [hs, happ, hat, ht]

@[simp] lemma portfolioBlock_regime (s : EngineState) :
    (portfolioBlock s).snapshot.regime = s.snapshot.regime := rfl

@[simp] lemma portfolioBlock_ceiling (s : EngineState) :
    (portfolioBlock s).snapshot.exposureCeilingGross =
      s.snapshot.exposureCeilingGross := rfl

lemma clampCeiling_trancheCeiling (k : ℕ) :
    clampCeiling (reentryTrancheCeiling k) = reentryTrancheCeiling k := by
  unfold reentryTrancheCeiling clampCeiling
  split_ifs <;> norm_num

lemma clampCeiling_riskOn : clampCeiling (SPEC_CEILINGS .RISK_ON) = SPEC_CEILINGS .RISK_ON := by
  show clampCeiling 1.10 = 1.10
  unfold clampCeiling
  norm_num

lemma tick_reentry_s3_approved (s : EngineState) (t ta : ℚ) (rand : ℕ → ℚ)
    (hs : s.scenarioId = some .S3)
    (hph : scenarioPhaseFor .S3 ((t - s.scenarioT0) / 1000) = .REENTRY)
    (happ : s.pmReentryApproved = true)
    (hat : s.pmReentryApprovedAt = some ta) :
    (tick t rand s).snapshot.regime =
      (if reentryTranche ((t - ta) / 1000) < 4 then .NEUTRAL else .RISK_ON) ∧
    (tick t rand s).snapshot.exposureCeilingGross =
      (if reentryTranche ((t - ta) / 1000) < 4 then
        reentryTrancheCeiling (reentryTranche ((t - ta) / 1000))
       else SPEC_CEILINGS .RISK_ON) := by
  have h0 : (tsBlock t s).scenarioId = some .S3 := hs
  obtain ⟨hb1, hb2, hb3, hb4, hb5, _⟩ := scenarioBlock_some t (tsBlock t s) .S3 h0
  have hb3' : (scenarioBlock t (tsBlock t s)).phase = some .REENTRY := by
    rw [hb3]
    show some (scenarioPhaseFor .S3 ((t - s.scenarioT0) / 1000)) = _
    rw [hph]
  unfold tick
  rw [driftBlock_of_scenario rand _ (by rw [hb1]; rfl)]
  rw [phaseBlock_of_phase t rand _ hb3']
  have happ2 : (scenarioBlock t (tsBlock t s)).pmReentryApproved = true := by
    rw [hb4]; exact happ
  have hat2 : (scenarioBlock t (tsBlock t s)).pmReentryApprovedAt = some ta := by
    rw [hb5]; exact hat
  obtain ⟨hr, hc⟩ := caseREENTRY_s3_approved t
    ((t - (scenarioBlock t (tsBlock t s)).phaseT0) / 1000) rand
    (scenarioBlock t (tsBlock t s)) ta hb1 happ2 hat2
  rw [portfolioBlock_regime, portfolioBlock_ceiling, hr, hc]
  refine ⟨rfl, ?_⟩
  by_cases ht : reentryTranche ((t - ta) / 1000) < 4
  · rw [if_pos ht, if_pos ht, clampCeiling_trancheCeiling]
  · rw [if_neg ht, if_neg ht, clampCeiling_riskOn]

/-- C6: once PM approval has been granted during S3 re-entry, the tranche is
the non-decreasing map of elapsed seconds since approval via the breakpoints
<10s → 1, <20s → 2, <30s → 3, else 4, with tranche ceilings
0.25/0.5/0.75/1.0; tranche 4 is reached no earlier than 30 s after approval,
and a tick that reaches tranche 4 promotes the regime back to RISK_ON at its
nominal ceiling, while earlier tranches run NEUTRAL at the tranche ceiling. -/
theorem c6_reentry_tranches :
    (∀ d e : ℚ, d ≤ e → reentryTranche d ≤ reentryTranche e) ∧
    (∀ d : ℚ, reentryTranche d = 4 → 30 ≤ d) ∧
    (reentryTrancheCeiling 1 = 0.25 ∧ reentryTrancheCeiling 2 = 0.5 ∧
      reentryTrancheCeiling 3 = 0.75 ∧ reentryTrancheCeiling 4 = 1.0) ∧
    (∀ (s : EngineState) (t ta : ℚ) (rand : ℕ → ℚ),
      s.scenarioId = some .S3 →
      scenarioPhaseFor .S3 ((t - s.scenarioT0) / 1000) = .REENTRY →
      s.pmReentryApproved = true →
      s.pmReentryApprovedAt = some ta →
      ((reentryTranche ((t - ta) / 1000) < 4 →
        (tick t rand s).snapshot.regime = .NEUTRAL ∧
        (tick t rand s).snapshot.exposureCeilingGross =
          reentryTrancheCeiling (reentryTranche ((t - ta) / 1000))) ∧
       (reentryTranche ((t - ta) / 1000) = 4 →
        (tick t rand s).snapshot.regime = .RISK_ON ∧
        (tick t rand s).snapshot.exposureCeilingGross = SPEC_CEILINGS .RISK_ON))) := by
  refine ⟨?_, ?_, ⟨rfl, rfl, rfl, rfl⟩, ?_⟩
  · intro d e hde
    unfold reentryTranche
    split_ifs <;> first | omega | linarith
  · intro d h
    unfold reentryTranche at h
    split_ifs at h with h1 h2 h3
    · exact absurd h (by norm_num)
    · exact absurd h (by norm_num)
    · exact absurd h (by norm_num)
    · exact not_lt.1 h3
  · intro s t ta rand hs hph happ hat
    obtain ⟨hr, hc⟩ := tick_reentry_s3_approved s t ta rand hs hph happ hat
    constructor
    · intro ht
      rw [hr, hc, if_pos ht, if_pos ht]
      exact ⟨rfl, rfl⟩
    · intro ht
      have ht' : ¬reentryTranche ((t - ta) / 1000) < 4 := by omega
      rw [hr, hc, if_neg ht', if_neg ht']
      exact ⟨rfl, rfl⟩

/-- C6 witness: with approval at t = 100000 ms and a tick at t = 110000 ms
(10 s elapsed, tranche 2) the regime is NEUTRAL at ceiling 0.5. -/
theorem c6_witness :
    reentryTranche ((110000 - 100000) / 1000) = 2 ∧
    (tick 110000 constRand s3Approved).snapshot.regime = .NEUTRAL ∧
    (tick 110000 constRand s3Approved).snapshot.exposureCeilingGross = 0.5 := by
  have h := ((c6_reentry_tranches).2.2.2 s3Approved 110000 100000 constRand
    rfl (by with_unfolding_all decide) rfl rfl).1 (by with_unfolding_all decide)
  refine ⟨by with_unfolding_all decide, h.1, ?_⟩
  rw [h.2]
  with_unfolding_all decide



lemma caseCALM_effect (t age : ℚ) (s : EngineState) (prev : List ARASModuleSignal)
    (hm : s.snapshot.arasModules = some prev) :
    (caseCALM t age s).snapshot.arasModules = some (mergedModules calmPatch prev) ∧
    (caseCALM t age s).snapshot.regime =
      (if 3 ≤ ((mergedModules calmPatch prev).filter (fun m => m.stress_flag)).length
       then .CRASH else .RISK_ON) ∧
    (caseCALM t age s).snapshot.exposureCeilingGross =
      (if 3 ≤ ((mergedModules calmPatch prev).filter (fun m => m.stress_flag)).length
       then min (clampCeiling (SPEC_CEILINGS .RISK_ON)) 0.15
       else clampCeiling (SPEC_CEILINGS .RISK_ON)) := by
  have hm1 : (setRegime .RISK_ON (SPEC_CEILINGS .RISK_ON) .GENERAL
      s.snapshot).arasModules = some prev := by
    rw [setRegime_arasModules]; exact hm
  obtain ⟨hEm, _, hEr, hEc⟩ := updateARAS_effect t calmPatch _ prev hm1
  unfold caseCALM
  simp only [onSnap_snapshot, alertIfE_snap_regime, alertIfE_snap_ceiling,
    alertIfE_snap_stressSource, alertIfE_snap_arasModules, transitionIf_snap_regime,
    transitionIf_snap_ceiling, transitionIf_snap_stressSource,
    transitionIf_snap_arasModules, advanceIf_snap_regime, advanceIf_snap_ceiling,
    advanceIf_snap_stressSource, advanceIf_snap_arasModules,
    setSignals_regime, setSignals_ceiling, setSignals_arasModules, setSignals_stressSource,
    setGates_regime, setGates_ceiling, setGates_arasModules, setGates_stressSource,
    setPillar_regime, setPillar_ceiling, setPillar_arasModules, setPillar_stressSource,
    hEm, hEr, hEc, setRegime_regime, setRegime_ceiling, setRegime_arasModules,
    setRegime_stressSource]
  refine ⟨?_, ?_, ?_⟩ <;> first | rfl | trivial

lemma caseBUILD_STRESS_effect (t age : ℚ) (rand : ℕ → ℚ) (s : EngineState)
    (prev : List ARASModuleSignal) (hm : s.snapshot.arasModules = some prev) :
    (caseBUILD_STRESS t age rand s).snapshot.arasModules =
      some (mergedModules buildStressPatch prev) ∧
    (caseBUILD_STRESS t age rand s).snapshot.regime =
      (if 3 ≤ ((mergedModules buildStressPatch prev).filter
          (fun m => m.stress_flag)).length
       then .CRASH else .NEUTRAL) ∧
    (caseBUILD_STRESS t age rand s).snapshot.exposureCeilingGross =
      (if 3 ≤ ((mergedModules buildStressPatch prev).filter
          (fun m => m.stress_flag)).length
       then min (clampCeiling (SPEC_CEILINGS .NEUTRAL)) 0.15
       else clampCeiling (SPEC_CEILINGS .NEUTRAL)) := by
  have hm1 : (setRegime .NEUTRAL (SPEC_CEILINGS .NEUTRAL) .CORRELATED
      s.snapshot).arasModules = some prev := by
    rw [setRegime_arasModules]; exact hm
  obtain ⟨hEm, _, hEr, hEc⟩ := updateARAS_effect t buildStressPatch _ prev hm1
  unfold caseBUILD_STRESS
  simp only [onSnap_snapshot, alertIfE_snap_regime, alertIfE_snap_ceiling,
    alertIfE_snap_stressSource, alertIfE_snap_arasModules, transitionIf_snap_regime,
    transitionIf_snap_ceiling, transitionIf_snap_stressSource,
    transitionIf_snap_arasModules, advanceIf_snap_regime, advanceIf_snap_ceiling,
    advanceIf_snap_stressSource, advanceIf_snap_arasModules,
    setSignals_regime, setSignals_ceiling, setSignals_arasModules, setSignals_stressSource,
    setGates_regime, setGates_ceiling, setGates_arasModules, setGates_stressSource,
    setPillar_regime, setPillar_ceiling, setPillar_arasModules, setPillar_stressSource,
    hEm, hEr, hEc, setRegime_regime, setRegime_ceiling, setRegime_arasModules,
    setRegime_stressSource]
  refine ⟨?_, ?_, ?_⟩ <;> first | rfl | trivial

lemma caseDELEVERAGE_effect (t age : ℚ) (rand : ℕ → ℚ) (s : EngineState)
    (prev : List ARASModuleSignal) (hm : s.snapshot.arasModules = some prev) :
    (caseDELEVERAGE t age rand s).snapshot.arasModules =
      some (mergedModules deleveragePatch prev) ∧
    (caseDELEVERAGE t age rand s).snapshot.regime =
      (if 3 ≤ ((mergedModules deleveragePatch prev).filter
          (fun m => m.stress_flag)).length
       then .CRASH
       else if s.scenarioId = some .S3 then .CRASH else .DEFENSIVE) ∧
    (caseDELEVERAGE t age rand s).snapshot.exposureCeilingGross =
      (if 3 ≤ ((mergedModules deleveragePatch prev).filter
          (fun m => m.stress_flag)).length
       then min (clampCeiling (if s.scenarioId = some .S3 then
          SPEC_CEILINGS .CRASH else 0.35)) 0.15
       else clampCeiling (if s.scenarioId = some .S3 then
          SPEC_CEILINGS .CRASH else 0.35)) := by
  have hm1 : (setRegime (if s.scenarioId = some .S3 then .CRASH else .DEFENSIVE)
      (if s.scenarioId = some .S3 then SPEC_CEILINGS .CRASH else 0.35)
      s.snapshot.stressSource s.snapshot).arasModules = some prev := by
    rw [setRegime_arasModules]; exact hm
  obtain ⟨hEm, _, hEr, hEc⟩ := updateARAS_effect t deleveragePatch _ prev hm1
  unfold caseDELEVERAGE
  simp only [onSnap_snapshot, alertIfE_snap_regime, alertIfE_snap_ceiling,
    alertIfE_snap_stressSource, alertIfE_snap_arasModules, transitionIf_snap_regime,
    transitionIf_snap_ceiling, transitionIf_snap_stressSource,
    transitionIf_snap_arasModules, advanceIf_snap_regime, advanceIf_snap_ceiling,
    advanceIf_snap_stressSource, advanceIf_snap_arasModules,
    setSignals_regime, setSignals_ceiling, setSignals_arasModules, setSignals_stressSource,
    setGates_regime, setGates_ceiling, setGates_arasModules, setGates_stressSource,
    setPillar_regime, setPillar_ceiling, setPillar_arasModules, setPillar_stressSource,
    hEm, hEr, hEc, setRegime_regime, setRegime_ceiling, setRegime_arasModules,
    setRegime_stressSource]
  refine ⟨?_, ?_, ?_⟩ <;> first | rfl | trivial

lemma caseSTABILIZE_effect (t age : ℚ) (s : EngineState)
    (prev : List ARASModuleSignal) (hm : s.snapshot.arasModules = some prev) :
    (caseSTABILIZE t age s).snapshot.arasModules =
      some (mergedModules stabilizePatch prev) ∧
    (caseSTABILIZE t age s).snapshot.regime =
      (if 3 ≤ ((mergedModules stabilizePatch prev).filter
          (fun m => m.stress_flag)).length
       then .CRASH
       else if s.scenarioId = some .S3 then .DEFENSIVE else .NEUTRAL) ∧
    (caseSTABILIZE t age s).snapshot.exposureCeilingGross =
      (if 3 ≤ ((mergedModules stabilizePatch prev).filter
          (fun m => m.stress_flag)).length
       then min (clampCeiling (if s.scenarioId = some .S3 then
          SPEC_CEILINGS .DEFENSIVE else 0.55)) 0.15
       else clampCeiling (if s.scenarioId = some .S3 then
          SPEC_CEILINGS .DEFENSIVE else 0.55)) := by
  have hm1 : (setRegime (if s.scenarioId = some .S3 then .DEFENSIVE else .NEUTRAL)
      (if s.scenarioId = some .S3 then SPEC_CEILINGS .DEFENSIVE else 0.55)
      .GENERAL s.snapshot).arasModules = some prev := by
    rw [setRegime_arasModules]; exact hm
  obtain ⟨hEm, _, hEr, hEc⟩ := updateARAS_effect t stabilizePatch _ prev hm1
  unfold caseSTABILIZE
  simp only [onSnap_snapshot, alertIfE_snap_regime, alertIfE_snap_ceiling,
    alertIfE_snap_stressSource, alertIfE_snap_arasModules, transitionIf_snap_regime,
    transitionIf_snap_ceiling, transitionIf_snap_stressSource,
    transitionIf_snap_arasModules, advanceIf_snap_regime, advanceIf_snap_ceiling,
    advanceIf_snap_stressSource, advanceIf_snap_arasModules,
    setSignals_regime, setSignals_ceiling, setSignals_arasModules, setSignals_stressSource,
    setGates_regime, setGates_ceiling, setGates_arasModules, setGates_stressSource,
    setPillar_regime, setPillar_ceiling, setPillar_arasModules, setPillar_stressSource,
    hEm, hEr, hEc, setRegime_regime, setRegime_ceiling, setRegime_arasModules,
    setRegime_stressSource]
  refine ⟨?_, ?_, ?_⟩ <;> first | rfl | trivial

lemma caseARES_GATES_effect (t age : ℚ) (rand : ℕ → ℚ) (s : EngineState)
    (prev : List ARASModuleSignal) (hm : s.snapshot.arasModules = some prev) :
    (caseARES_GATES t age rand s).snapshot.arasModules =
      some (mergedModules aresGatesPatch prev) ∧
    (caseARES_GATES t age rand s).snapshot.regime =
      (if 3 ≤ ((mergedModules aresGatesPatch prev).filter
          (fun m => m.stress_flag)).length
       then .CRASH else .NEUTRAL) ∧
    (caseARES_GATES t age rand s).snapshot.exposureCeilingGross =
      (if 3 ≤ ((mergedModules aresGatesPatch prev).filter
          (fun m => m.stress_flag)).length
       then min (clampCeiling (if s.scenarioId = some .S3 then
          SPEC_CEILINGS .NEUTRAL else 0.6)) 0.15
       else clampCeiling (if s.scenarioId = some .S3 then
          SPEC_CEILINGS .NEUTRAL else 0.6)) := by
  have hm1 : (setRegime .NEUTRAL
      (if s.scenarioId = some .S3 then SPEC_CEILINGS .NEUTRAL else 0.6)
      .GENERAL s.snapshot).arasModules = some prev := by
    rw [setRegime_arasModules]; exact hm
  obtain ⟨hEm, _, hEr, hEc⟩ := updateARAS_effect t aresGatesPatch _ prev hm1
  unfold caseARES_GATES
  simp only [onSnap_snapshot, alertIfE_snap_regime, alertIfE_snap_ceiling,
    alertIfE_snap_stressSource, alertIfE_snap_arasModules, transitionIf_snap_regime,
    transitionIf_snap_ceiling, transitionIf_snap_stressSource,
    transitionIf_snap_arasModules, advanceIf_snap_regime, advanceIf_snap_ceiling,
    advanceIf_snap_stressSource, advanceIf_snap_arasModules,
    setSignals_regime, setSignals_ceiling, setSignals_arasModules, setSignals_stressSource,
    setGates_regime, setGates_ceiling, setGates_arasModules, setGates_stressSource,
    setPillar_regime, setPillar_ceiling, setPillar_arasModules, setPillar_stressSource,
    hEm, hEr, hEc, setRegime_regime, setRegime_ceiling, setRegime_arasModules,
    setRegime_stressSource]
  refine ⟨?_, ?_, ?_⟩ <;> first | rfl | trivial

/-! ## Claim C1 -/

@[simp] lemma portfolioBlock_arasModules (s : EngineState) :
    (portfolioBlock s).snapshot.arasModules = s.snapshot.arasModules := rfl

lemma clampCeiling_le_of_le {x c : ℚ} (h : x ≤ c) (hc : 0 ≤ c) :
    clampCeiling x ≤ c :=
  max_le hc ((min_le_right 1.2 x).trans h)

lemma scenarioBlock_none (t : ℚ) (s : EngineState) (h : s.scenarioId = none) :
    (scenarioBlock t s).phase = s.phase ∧
    (scenarioBlock t s).scenarioId = s.scenarioId ∧
    (scenarioBlock t s).snapshot.arasModules = s.snapshot.arasModules := by
  unfold scenarioBlock
  simp only [h]
  exact ⟨rfl, h, rfl⟩

lemma driftBlock_fields (rand : ℕ → ℚ) (s : EngineState) :
    (driftBlock rand s).phase = s.phase ∧
    (driftBlock rand s).scenarioId = s.scenarioId ∧
    (driftBlock rand s).snapshot.arasModules = s.snapshot.arasModules := by
  unfold driftBlock
  split_ifs with h
  · exact ⟨rfl, rfl, rfl⟩
  · refine ⟨rfl, rfl, ?_⟩
    have hgen : ∀ (l : List PillarId) (acc : SystemSnapshot × ℕ),
        acc.1.arasModules = s.snapshot.arasModules →
        ((l.foldl (fun (acc : SystemSnapshot × ℕ) pid =>
          let snapc := acc.1
          let i := acc.2
          let cur := getPillar pid snapc.pillars
          let drift := (rand (2 * i) - 0.5) * 0.01
          (setPillar pid
            ⟨none,
             some (clamp01 (cur.score + drift)),
             some (clamp01 (cur.confidence + (rand (2 * i + 1) - 0.5) * 0.01))⟩ snapc,
           i + 1)) acc).1).arasModules = s.snapshot.arasModules := by
      intro l
      induction l with
      | nil => intro acc hacc; exact hacc
      | cons a as ih =>
          intro acc hacc
          rw [List.foldl_cons]
          exact ih _ (by simpa using hacc)
    exact hgen PILLARS (s.snapshot, 0) rfl

/-- The inner state on which the phase switch of a tick runs: it carries the
effective phase, the unchanged scenario id and the unchanged module list. -/
lemma tick_inner (t : ℚ) (rand : ℕ → ℚ) (s : EngineState) :
    ∃ s3 : EngineState,
      tick t rand s = portfolioBlock (phaseBlock t rand s3) ∧
      s3.phase = effectivePhase s t ∧
      s3.scenarioId = s.scenarioId ∧
      s3.snapshot.arasModules = s.snapshot.arasModules := by
  refine ⟨driftBlock rand (scenarioBlock t (tsBlock t s)), rfl, ?_⟩
  cases hsc : s.scenarioId with
  | some id =>
      have h1 : (tsBlock t s).scenarioId = some id := hsc
      obtain ⟨hsid, hT0, hph, _, _, _, _, _, hmods⟩ :=
        scenarioBlock_some t (tsBlock t s) id h1
      have hds := driftBlock_of_scenario rand (scenarioBlock t (tsBlock t s))
        (by rw [hsid]; rfl)
      rw [hds]
      refine ⟨?_, ?_, ?_⟩
      · simp only [effectivePhase, hsc]
        exact hph
      · exact hsid
      · exact hmods
  | none =>
      have h1 : (tsBlock t s).scenarioId = none := hsc
      obtain ⟨hph, hsid, hmods⟩ := scenarioBlock_none t (tsBlock t s) h1
      obtain ⟨hdph, hdsid, hdmods⟩ := driftBlock_fields rand (scenarioBlock t (tsBlock t s))
      refine ⟨?_, ?_, ?_⟩
      · rw [hdph, hph]
        simp only [effectivePhase, hsc]
        rfl
      · rw [hdsid, hsid]; exact h1
      · rw [hdmods, hmods]; rfl

lemma caseCIRCUIT_BREAK_effect (t : ℚ) (s : EngineState)
    (prev : List ARASModuleSignal) (hm : s.snapshot.arasModules = some prev) :
    (caseCIRCUIT_BREAK t s).snapshot.arasModules =
      some (mergedModules circuitBreakPatch prev) ∧
    (caseCIRCUIT_BREAK t s).snapshot.regime =
      (if s.scenarioId = some .S3 then .CRASH else .DEFENSIVE) ∧
    (caseCIRCUIT_BREAK t s).snapshot.exposureCeilingGross =
      (if s.scenarioId = some .S3 then clampCeiling (SPEC_CEILINGS .CRASH)
       else clampCeiling (min
         (if 3 ≤ ((mergedModules circuitBreakPatch prev).filter
             (fun m => m.stress_flag)).length
          then min s.snapshot.exposureCeilingGross 0.15
          else s.snapshot.exposureCeilingGross)
         (SPEC_CEILINGS .DEFENSIVE))) := by
  obtain ⟨hEm, _, hEr, hEc⟩ := updateARAS_effect t circuitBreakPatch s.snapshot prev hm
  unfold caseCIRCUIT_BREAK
  by_cases hs3 : s.scenarioId = some ScenarioId.S3
  · simp only [if_pos hs3, onSnap_snapshot, alertIfE_snap_regime, alertIfE_snap_ceiling,
      alertIfE_snap_stressSource, alertIfE_snap_arasModules, transitionIf_snap_regime,
      transitionIf_snap_ceiling, transitionIf_snap_stressSource,
      transitionIf_snap_arasModules, advanceIf_snap_regime, advanceIf_snap_ceiling,
      advanceIf_snap_stressSource, advanceIf_snap_arasModules,
      setSignals_regime, setSignals_ceiling, setSignals_arasModules,
      setSignals_stressSource, setGates_regime, setGates_ceiling, setGates_arasModules,
      setGates_stressSource, setPillar_regime, setPillar_ceiling, setPillar_arasModules,
      setPillar_stressSource, hEm, hEr, hEc, setRegime_regime, setRegime_ceiling,
      setRegime_arasModules, setRegime_stressSource]
    refine ⟨?_, ?_, ?_⟩ <;> first | rfl | trivial
  · simp only [if_neg hs3, onSnap_snapshot, alertIfE_snap_regime, alertIfE_snap_ceiling,
      alertIfE_snap_stressSource, alertIfE_snap_arasModules, transitionIf_snap_regime,
      transitionIf_snap_ceiling, transitionIf_snap_stressSource,
      transitionIf_snap_arasModules, advanceIf_snap_regime, advanceIf_snap_ceiling,
      advanceIf_snap_stressSource, advanceIf_snap_arasModules,
      setSignals_regime, setSignals_ceiling, setSignals_arasModules,
      setSignals_stressSource, setGates_regime, setGates_ceiling, setGates_arasModules,
      setGates_stressSource, setPillar_regime, setPillar_ceiling, setPillar_arasModules,
      setPillar_stressSource, hEm, hEr, hEc, setRegime_regime, setRegime_ceiling,
      setRegime_arasModules, setRegime_stressSource]
    refine ⟨?_, ?_, ?_⟩ <;> first | rfl | trivial

/-- C1 (corrected): on any tick whose effective phase `p` is not REENTRY,
if at least 3 stress flags are set after the module update then the final
exposure ceiling is at most 0.15; the final regime is CRASH except in the
free-running (non-S3) CIRCUIT_BREAK phase, where the handler's own
`setRegime('DEFENSIVE', ...)` runs AFTER `updateARASModules` and overwrites
the CRASH regime with DEFENSIVE — so the spec's claim that the override runs
after the phase's regime assignment fails exactly there. -/
theorem c1_crash_override (s : EngineState) (t : ℚ) (rand : ℕ → ℚ) (p : Phase)
    (prev : List ARASModuleSignal)
    (hp : effectivePhase s t = some p) (hnr : p ≠ .REENTRY)
    (hm : s.snapshot.arasModules = some prev)
    (hflags : 3 ≤ countStressFlags (tick t rand s)) :
    (tick t rand s).snapshot.exposureCeilingGross ≤ 0.15 ∧
    ((tick t rand s).snapshot.regime = .CRASH ∨
     (p = .CIRCUIT_BREAK ∧ ¬s.scenarioId = some .S3 ∧
      (tick t rand s).snapshot.regime = .DEFENSIVE)) := by
  obtain ⟨s3, htick, hph, hsc, hmod⟩ := tick_inner t rand s
  rw [hp] at hph
  have hmod' : s3.snapshot.arasModules = some prev := hmod.trans hm
  rw [htick] at hflags ⊢
  cases p with
  | CALM =>
      have hd : phaseBlock t rand s3 = caseCALM t ((t - s3.phaseT0) / 1000) s3 := by
        unfold phaseBlock; simp only [hph]
      obtain ⟨hEm, hEr, hEc⟩ := caseCALM_effect t ((t - s3.phaseT0) / 1000) s3 prev hmod'
      rw [hd] at hflags ⊢
      have hcnt : 3 ≤ ((mergedModules calmPatch prev).filter
          (fun m => m.stress_flag)).length := by
        unfold countStressFlags at hflags
        rw [portfolioBlock_arasModules, hEm] at hflags
        simpa using hflags
      refine ⟨?_, Or.inl ?_⟩
      · rw [portfolioBlock_ceiling, hEc, if_pos hcnt]
        exact min_le_right _ _
      · rw [portfolioBlock_regime, hEr, if_pos hcnt]
  | BUILD_STRESS =>
      have hd : phaseBlock t rand s3 =
          caseBUILD_STRESS t ((t - s3.phaseT0) / 1000) rand s3 := by
        unfold phaseBlock; simp only [hph]
      obtain ⟨hEm, hEr, hEc⟩ :=
        caseBUILD_STRESS_effect t ((t - s3.phaseT0) / 1000) rand s3 prev hmod'
      rw [hd] at hflags ⊢
      have hcnt : 3 ≤ ((mergedModules buildStressPatch prev).filter
          (fun m => m.stress_flag)).length := by
        unfold countStressFlags at hflags
        rw [portfolioBlock_arasModules, hEm] at hflags
        simpa using hflags
      refine ⟨?_, Or.inl ?_⟩
      · rw [portfolioBlock_ceiling, hEc, if_pos hcnt]
        exact min_le_right _ _
      · rw [portfolioBlock_regime, hEr, if_pos hcnt]
  | CIRCUIT_BREAK =>
      have hd : phaseBlock t rand s3 = caseCIRCUIT_BREAK t s3 := by
        unfold phaseBlock; simp only [hph]
      obtain ⟨hEm, hEr, hEc⟩ := caseCIRCUIT_BREAK_effect t s3 prev hmod'
      rw [hd] at hflags ⊢
      have hcnt : 3 ≤ ((mergedModules circuitBreakPatch prev).filter
          (fun m => m.stress_flag)).length := by
        unfold countStressFlags at hflags
        rw [portfolioBlock_arasModules, hEm] at hflags
        simpa using hflags
      by_cases hs3 : s3.scenarioId = some ScenarioId.S3
      · refine ⟨?_, Or.inl ?_⟩
        · rw [portfolioBlock_ceiling, hEc, if_pos hs3]
          with_unfolding_all decide
        · rw [portfolioBlock_regime, hEr, if_pos hs3]
      · refine ⟨?_, Or.inr ⟨rfl, fun hq => hs3 (hsc.trans hq), ?_⟩⟩
        · rw [portfolioBlock_ceiling, hEc, if_neg hs3, if_pos hcnt]
          refine clampCeiling_le_of_le ?_ (by norm_num)
          exact (min_le_left _ _).trans (min_le_right _ _)
        · rw [portfolioBlock_regime, hEr, if_neg hs3]
  | DELEVERAGE =>
      have hd : phaseBlock t rand s3 =
          caseDELEVERAGE t ((t - s3.phaseT0) / 1000) rand s3 := by
        unfold phaseBlock; simp only [hph]
      obtain ⟨hEm, hEr, hEc⟩ :=
        caseDELEVERAGE_effect t ((t - s3.phaseT0) / 1000) rand s3 prev hmod'
      rw [hd] at hflags ⊢
      have hcnt : 3 ≤ ((mergedModules deleveragePatch prev).filter
          (fun m => m.stress_flag)).length := by
        unfold countStressFlags at hflags
        rw [portfolioBlock_arasModules, hEm] at hflags
        simpa using hflags
      refine ⟨?_, Or.inl ?_⟩
      · rw [portfolioBlock_ceiling, hEc, if_pos hcnt]
        exact min_le_right _ _
      · rw [portfolioBlock_regime, hEr, if_pos hcnt]
  | STABILIZE =>
      have hd : phaseBlock t rand s3 = caseSTABILIZE t ((t - s3.phaseT0) / 1000) s3 := by
        unfold phaseBlock; simp only [hph]
      obtain ⟨hEm, hEr, hEc⟩ :=
        caseSTABILIZE_effect t ((t - s3.phaseT0) / 1000) s3 prev hmod'
      rw [hd] at hflags ⊢
      have hcnt : 3 ≤ ((mergedModules stabilizePatch prev).filter
          (fun m => m.stress_flag)).length := by
        unfold countStressFlags at hflags
        rw [portfolioBlock_arasModules, hEm] at hflags
        simpa using hflags
      refine ⟨?_, Or.inl ?_⟩
      · rw [portfolioBlock_ceiling, hEc, if_pos hcnt]
        exact min_le_right _ _
      · rw [portfolioBlock_regime, hEr, if_pos hcnt]
  | ARES_GATES =>
      have hd : phaseBlock t rand s3 =
          caseARES_GATES t ((t - s3.phaseT0) / 1000) rand s3 := by
        unfold phaseBlock; simp only [hph]
      obtain ⟨hEm, hEr, hEc⟩ :=
        caseARES_GATES_effect t ((t - s3.phaseT0) / 1000) rand s3 prev hmod'
      rw [hd] at hflags ⊢
      have hcnt : 3 ≤ ((mergedModules aresGatesPatch prev).filter
          (fun m => m.stress_flag)).length := by
        unfold countStressFlags at hflags
        rw [portfolioBlock_arasModules, hEm] at hflags
        simpa using hflags
      refine ⟨?_, Or.inl ?_⟩
      · rw [portfolioBlock_ceiling, hEc, if_pos hcnt]
        exact min_le_right _ _
      · rw [portfolioBlock_regime, hEr, if_pos hcnt]
  | REENTRY => exact absurd rfl hnr

/-- C1 counterexample: with CIRCUIT_BREAK forced through the control route and
no scenario active, the tick leaves all 6 stress flags set, yet the final
regime is DEFENSIVE rather than CRASH — the handler's own regime assignment
runs after the crash override and loosens it. -/
theorem c1_counterexample :
    effectivePhase circuitBreakState 1000 = some .CIRCUIT_BREAK ∧
    countStressFlags (tick 1000 constRand circuitBreakState) = 6 ∧
    (tick 1000 constRand circuitBreakState).snapshot.regime = .DEFENSIVE ∧
    ¬(tick 1000 constRand circuitBreakState).snapshot.regime = .CRASH := by
  with_unfolding_all decide

/-- C1 witness: in the BUILD_STRESS phase the module patch sets 4 stress
flags, and the tick indeed ends in regime CRASH with ceiling at most 0.15. -/
theorem c1_witness :
    effectivePhase buildStressState 1000 = some .BUILD_STRESS ∧
    3 ≤ countStressFlags (tick 1000 constRand buildStressState) ∧
    (tick 1000 constRand buildStressState).snapshot.exposureCeilingGross ≤ 0.15 ∧
    (tick 1000 constRand buildStressState).snapshot.regime = .CRASH := by
  have h := c1_crash_override buildStressState 1000 constRand .BUILD_STRESS
    initialModules (by with_unfolding_all decide) (by decide)
    (by with_unfolding_all decide) (by with_unfolding_all decide)
  refine ⟨by with_unfolding_all decide, by with_unfolding_all decide, h.1, ?_⟩
  rcases h.2 with hr | ⟨hcb, _, _⟩
  · exact hr
  · exact absurd hcb (by decide)

/-! ## Claim C3 -/

@[simp] lemma pushAlert_alerts (t : ℚ) (sev : Severity) (snap : SystemSnapshot) :
    (pushAlert t sev snap).alerts =
      (({ ts := t, severity := sev } : AlertEvent) :: snap.alerts).take 200 := rfl

@[simp] lemma setRegime_alerts (r : Regime) (c : ℚ) (src : StressSource)
    (snap : SystemSnapshot) : (setRegime r c src snap).alerts = snap.alerts := rfl

@[simp] lemma setPillar_alerts (id : PillarId) (patch : PillarPatch)
    (snap : SystemSnapshot) : (setPillar id patch snap).alerts = snap.alerts := rfl

@[simp] lemma setGates_alerts (g : GatePatch) (snap : SystemSnapshot) :
    (setGates g snap).alerts = snap.alerts := rfl

@[simp] lemma putSignalList_alerts (key : SignalKey) (v : Option (List PillarSignal))
    (snap : SystemSnapshot) : (putSignalList key v snap).alerts = snap.alerts := by
  cases key <;> rfl

lemma alertsLe_pushAlert (t : ℚ) (sev : Severity) (snap : SystemSnapshot) :
    (pushAlert t sev snap).alerts.length ≤ 200 := by
  rw [pushAlert_alerts, List.length_take]
  exact min_le_left _ _

lemma alertsLe_ite (p : Prop) [Decidable p] {a b : SystemSnapshot}
    (h1 : a.alerts.length ≤ 200) (h2 : b.alerts.length ≤ 200) :
    (if p then a else b).alerts.length ≤ 200 := by
  split_ifs <;> assumption

lemma alertsLeE_ite (p : Prop) [Decidable p] {a b : EngineState}
    (h1 : a.snapshot.alerts.length ≤ 200) (h2 : b.snapshot.alerts.length ≤ 200) :
    (if p then a else b).snapshot.alerts.length ≤ 200 := by
  split_ifs <;> assumption

lemma alertsLe_moduleAlertStep (t : ℚ) (acc : SystemSnapshot)
    (pn : ARASModuleSignal × ARASModuleSignal) (h : acc.alerts.length ≤ 200) :
    (moduleAlertStep t acc pn).alerts.length ≤ 200 := by
  unfold moduleAlertStep
  exact alertsLe_ite _ (alertsLe_pushAlert _ _ _)
    (alertsLe_ite _ (alertsLe_pushAlert _ _ _) h)

lemma alertsLe_signalAlertStep (t : ℚ) (prev : List PillarSignal)
    (acc : SystemSnapshot) (s : PillarSignal) (h : acc.alerts.length ≤ 200) :
    (signalAlertStep t prev acc s).alerts.length ≤ 200 := by
  unfold signalAlertStep
  cases prev.find? (fun x => x.name == s.name) with
  | none => exact h
  | some p =>
      simp only []
      exact alertsLe_ite _ h (alertsLe_pushAlert _ _ _)

lemma alertsLe_updateARAS (t : ℚ) (patch : List ModulePatch) (snap : SystemSnapshot)
    (h : snap.alerts.length ≤ 200) :
    (updateARASModules t patch snap).alerts.length ≤ 200 := by
  unfold updateARASModules
  cases hm : snap.arasModules with
  | none => exact h
  | some prev =>
      have hfold : ((prev.zip (mergedModules patch prev)).foldl (moduleAlertStep t)
          snap).alerts.length ≤ 200 := by
        apply foldlPreserve (P := fun (b : SystemSnapshot) => b.alerts.length ≤ 200)
        · intro b a hb
          exact alertsLe_moduleAlertStep t b a hb
        · exact h
      exact alertsLe_ite _ (alertsLe_pushAlert _ _ _)
        (alertsLe_ite _
          (alertsLe_ite _ (alertsLe_pushAlert _ _ _) hfold)
          (alertsLe_ite _ (alertsLe_pushAlert _ _ _) hfold))

lemma alertsLe_setSignals (t : ℚ) (key : SignalKey) (signals : List SignalInput)
    (snap : SystemSnapshot) (h : snap.alerts.length ≤ 200) :
    (setSignals t key signals snap).alerts.length ≤ 200 := by
  rw [setSignals_result, setPillar_alerts, putSignalList_alerts]
  apply foldlPreserve (P := fun (b : SystemSnapshot) => b.alerts.length ≤ 200)
  · intro b a hb
    exact alertsLe_signalAlertStep t _ b a hb
  · exact h

lemma alertsLe_alertIfE (c : Prop) [Decidable c] (t : ℚ) (sev : Severity)
    (s : EngineState) (h : s.snapshot.alerts.length ≤ 200) :
    (alertIfE c t sev s).snapshot.alerts.length ≤ 200 := by
  unfold alertIfE
  split_ifs
  · exact alertsLe_pushAlert _ _ _
  · exact h

lemma alertsLe_transitionIf (c : Prop) [Decidable c] (t : ℚ) (p : Phase)
    (s : EngineState) (h : s.snapshot.alerts.length ≤ 200) :
    (transitionIf c t p s).snapshot.alerts.length ≤ 200 := by
  unfold transitionIf
  split_ifs
  · exact alertsLe_pushAlert _ _ _
  · exact h

lemma alertsLe_advanceIf (c : Prop) [Decidable c] (t : ℚ) (p : Phase)
    (s : EngineState) (h : s.snapshot.alerts.length ≤ 200) :
    (advanceIf c t p s).snapshot.alerts.length ≤ 200 := by
  unfold advanceIf
  split_ifs
  · rw [forcePhase_snapshot]; exact h
  · exact alertsLe_pushAlert _ _ _

lemma alertsLe_caseCALM (t age : ℚ) (s0 : EngineState)
    (h : s0.snapshot.alerts.length ≤ 200) :
    (caseCALM t age s0).snapshot.alerts.length ≤ 200 := by
  simp only [caseCALM]
  apply alertsLe_transitionIf
  simp only [onSnap_snapshot, setPillar_alerts]
  apply alertsLe_setSignals
  apply alertsLe_setSignals
  apply alertsLe_setSignals
  apply alertsLe_setSignals
  apply alertsLe_setSignals
  rw [setGates_alerts]
  apply alertsLe_updateARAS
  rw [setRegime_alerts]
  exact h

lemma alertsLe_caseBUILD_STRESS (t age : ℚ) (rand : ℕ → ℚ) (s0 : EngineState)
    (h : s0.snapshot.alerts.length ≤ 200) :
    (caseBUILD_STRESS t age rand s0).snapshot.alerts.length ≤ 200 := by
  simp only [caseBUILD_STRESS]
  apply alertsLe_transitionIf
  apply alertsLe_alertIfE
  apply alertsLe_alertIfE
  simp only [onSnap_snapshot, setPillar_alerts, setGates_alerts]
  apply alertsLe_setSignals
  apply alertsLe_setSignals
  apply alertsLe_setSignals
  apply alertsLe_setSignals
  apply alertsLe_setSignals
  apply alertsLe_updateARAS
  rw [setRegime_alerts]
  exact h

lemma alertsLe_caseCIRCUIT_BREAK (t : ℚ) (s0 : EngineState)
    (h : s0.snapshot.alerts.length ≤ 200) :
    (caseCIRCUIT_BREAK t s0).snapshot.alerts.length ≤ 200 := by
  simp only [caseCIRCUIT_BREAK]
  apply alertsLe_advanceIf
  apply alertsLe_alertIfE
  simp only [onSnap_snapshot, setPillar_alerts]
  apply alertsLeE_ite <;>
    (simp only [onSnap_snapshot, setRegime_alerts]
     apply alertsLe_setSignals
     apply alertsLe_setSignals
     apply alertsLe_setSignals
     apply alertsLe_setSignals
     apply alertsLe_setSignals
     apply alertsLe_updateARAS
     exact h)

lemma alertsLe_caseDELEVERAGE (t age : ℚ) (rand : ℕ → ℚ) (s0 : EngineState)
    (h : s0.snapshot.alerts.length ≤ 200) :
    (caseDELEVERAGE t age rand s0).snapshot.alerts.length ≤ 200 := by
  simp only [caseDELEVERAGE]
  apply alertsLe_transitionIf
  apply alertsLe_alertIfE
  simp only [onSnap_snapshot]
  apply alertsLe_setSignals
  apply alertsLe_setSignals
  apply alertsLe_setSignals
  apply alertsLe_setSignals
  apply alertsLe_setSignals
  apply alertsLe_updateARAS
  rw [setRegime_alerts]
  exact h

lemma alertsLe_caseSTABILIZE (t age : ℚ) (s0 : EngineState)
    (h : s0.snapshot.alerts.length ≤ 200) :
    (caseSTABILIZE t age s0).snapshot.alerts.length ≤ 200 := by
  simp only [caseSTABILIZE]
  apply alertsLe_transitionIf
  simp only [onSnap_snapshot, setGates_alerts, setPillar_alerts]
  apply alertsLe_setSignals
  apply alertsLe_setSignals
  apply alertsLe_setSignals
  apply alertsLe_setSignals
  apply alertsLe_setSignals
  apply alertsLe_updateARAS
  rw [setRegime_alerts]
  exact h

lemma alertsLe_caseARES_GATES (t age : ℚ) (rand : ℕ → ℚ) (s0 : EngineState)
    (h : s0.snapshot.alerts.length ≤ 200) :
    (caseARES_GATES t age rand s0).snapshot.alerts.length ≤ 200 := by
  simp only [caseARES_GATES]
  apply alertsLe_transitionIf
  apply alertsLe_alertIfE
  simp only [onSnap_snapshot, setPillar_alerts, setGates_alerts]
  apply alertsLe_setSignals
  apply alertsLe_setSignals
  apply alertsLe_setSignals
  apply alertsLe_setSignals
  apply alertsLe_setSignals
  apply alertsLe_updateARAS
  rw [setRegime_alerts]
  exact h

lemma alertsLe_caseREENTRY (t age : ℚ) (rand : ℕ → ℚ) (s0 : EngineState)
    (h : s0.snapshot.alerts.length ≤ 200) :
    (caseREENTRY t age rand s0).snapshot.alerts.length ≤ 200 := by
  simp only [caseREENTRY]
  apply alertsLe_transitionIf
  apply alertsLe_alertIfE
  apply alertsLeE_ite
  · simp only [onSnap_snapshot, setPillar_alerts]
    apply alertsLe_setSignals
    apply alertsLe_setSignals
    apply alertsLe_setSignals
    apply alertsLe_setSignals
    apply alertsLe_setSignals
    rw [setGates_alerts]
    apply alertsLeE_ite
    · simp only [onSnap_snapshot, setPillar_alerts, setRegime_alerts]
      exact h
    · apply alertsLeE_ite
      · apply alertsLeE_ite
        · simp only [onSnap_snapshot, setPillar_alerts, setRegime_alerts]
          exact h
        · simp only [onSnap_snapshot, setPillar_alerts, setRegime_alerts]
          exact h
      · simp only [onSnap_snapshot, setRegime_alerts]
        exact h
  · simp only [onSnap_snapshot, setPillar_alerts]
    apply alertsLe_setSignals
    apply alertsLe_setSignals
    apply alertsLe_setSignals
    apply alertsLe_setSignals
    apply alertsLe_setSignals
    rw [setGates_alerts]
    apply alertsLeE_ite
    · simp only [onSnap_snapshot, setPillar_alerts, setRegime_alerts]
      exact h
    · apply alertsLeE_ite
      · apply alertsLeE_ite
        · simp only [onSnap_snapshot, setPillar_alerts, setRegime_alerts]
          exact h
        · simp only [onSnap_snapshot, setPillar_alerts, setRegime_alerts]
          exact h
      · simp only [onSnap_snapshot, setRegime_alerts]
        exact h

lemma alertsLe_phaseBlock (t : ℚ) (rand : ℕ → ℚ) (s : EngineState)
    (h : s.snapshot.alerts.length ≤ 200) :
    (phaseBlock t rand s).snapshot.alerts.length ≤ 200 := by
  cases hp : s.phase with
  | none =>
      have hred : phaseBlock t rand s = s := by
        unfold phaseBlock; simp only [hp]
      rw [hred]; exact h
  | some p =>
      cases p with
      | CALM =>
          have hred : phaseBlock t rand s = caseCALM t ((t - s.phaseT0) / 1000) s := by
            unfold phaseBlock; simp only [hp]
          rw [hred]; exact alertsLe_caseCALM _ _ _ h
      | BUILD_STRESS =>
          have hred : phaseBlock t rand s =
              caseBUILD_STRESS t ((t - s.phaseT0) / 1000) rand s := by
            unfold phaseBlock; simp only [hp]
          rw [hred]; exact alertsLe_caseBUILD_STRESS _ _ _ _ h
      | CIRCUIT_BREAK =>
          have hred : phaseBlock t rand s = caseCIRCUIT_BREAK t s := by
            unfold phaseBlock; simp only [hp]
          rw [hred]; exact alertsLe_caseCIRCUIT_BREAK _ _ h
      | DELEVERAGE =>
          have hred : phaseBlock t rand s =
              caseDELEVERAGE t ((t - s.phaseT0) / 1000) rand s := by
            unfold phaseBlock; simp only [hp]
          rw [hred]; exact alertsLe_caseDELEVERAGE _ _ _ _ h
      | STABILIZE =>
          have hred : phaseBlock t rand s =
              caseSTABILIZE t ((t - s.phaseT0) / 1000) s := by
            unfold phaseBlock; simp only [hp]
          rw [hred]; exact alertsLe_caseSTABILIZE _ _ _ h
      | ARES_GATES =>
          have hred : phaseBlock t rand s =
              caseARES_GATES t ((t - s.phaseT0) / 1000) rand s := by
            unfold phaseBlock; simp only [hp]
          rw [hred]; exact alertsLe_caseARES_GATES _ _ _ _ h
      | REENTRY =>
          have hred : phaseBlock t rand s =
              caseREENTRY t ((t - s.phaseT0) / 1000) rand s := by
            unfold phaseBlock; simp only [hp]
          rw [hred]; exact alertsLe_caseREENTRY _ _ _ _ h

lemma alertsLe_scenarioBlock_some (t : ℚ) (s : EngineState) (id : ScenarioId)
    (hsc : s.scenarioId = some id) (h : s.snapshot.alerts.length ≤ 200) :
    (scenarioBlock t s).snapshot.alerts.length ≤ 200 := by
  unfold scenarioBlock
  simp only [hsc]
  rw [forcePhase_snapshot]
  apply alertsLeE_ite
  · apply alertsLeE_ite
    · cases scenarioPhaseFor id ((t - s.scenarioT0) / 1000) <;>
        exact alertsLe_pushAlert _ _ _
    · exact alertsLe_pushAlert _ _ _
  · exact h

lemma alertsLe_scenarioBlock (t : ℚ) (s : EngineState)
    (h : s.snapshot.alerts.length ≤ 200) :
    (scenarioBlock t s).snapshot.alerts.length ≤ 200 := by
  cases hsc : s.scenarioId with
  | none =>
      have hred : scenarioBlock t s = onSnap (fun snap =>
          { snap with scenarioId := none, scenarioT := none, scenarioStep := none }) s := by
        unfold scenarioBlock; simp only [hsc]
      rw [hred]; exact h
  | some id => exact alertsLe_scenarioBlock_some t s id hsc h

lemma driftBlock_alerts (rand : ℕ → ℚ) (s : EngineState) :
    (driftBlock rand s).snapshot.alerts = s.snapshot.alerts := by
  unfold driftBlock
  split_ifs with h
  · rfl
  · have hgen : ∀ (l : List PillarId) (acc : SystemSnapshot × ℕ),
        acc.1.alerts = s.snapshot.alerts →
        ((l.foldl (fun (acc : SystemSnapshot × ℕ) pid =>
          let snapc := acc.1
          let i := acc.2
          let cur := getPillar pid snapc.pillars
          let drift := (rand (2 * i) - 0.5) * 0.01
          (setPillar pid
            ⟨none,
             some (clamp01 (cur.score + drift)),
             some (clamp01 (cur.confidence + (rand (2 * i + 1) - 0.5) * 0.01))⟩ snapc,
           i + 1)) acc).1).alerts = s.snapshot.alerts := by
      intro l
      induction l with
      | nil => intro acc hacc; exact hacc
      | cons a as ih =>
          intro acc hacc
          rw [List.foldl_cons]
          exact ih _ (by simpa using hacc)
    exact hgen PILLARS (s.snapshot, 0) rfl

lemma alertsLe_tick (t : ℚ) (rand : ℕ → ℚ) (s : EngineState)
    (h : s.snapshot.alerts.length ≤ 200) :
    (tick t rand s).snapshot.alerts.length ≤ 200 := by
  have h1 : (scenarioBlock t (tsBlock t s)).snapshot.alerts.length ≤ 200 :=
    alertsLe_scenarioBlock t (tsBlock t s) h
  have h2 : (driftBlock rand (scenarioBlock t (tsBlock t s))).snapshot.alerts.length
      ≤ 200 := by
    rw [driftBlock_alerts]; exact h1
  exact alertsLe_phaseBlock t rand _ h2

lemma alertsLe_control (t : ℚ) (body : ControlBody) (s : EngineState)
    (h : s.snapshot.alerts.length ≤ 200) :
    ((controlPOST t body s).2).snapshot.alerts.length ≤ 200 := by
  simp only [controlPOST]
  split_ifs
  · exact alertsLe_pushAlert _ _ _
  · exact alertsLe_pushAlert _ _ _
  · exact alertsLe_pushAlert _ _ _
  · exact alertsLe_pushAlert _ _ _
  · exact h

/-- C3: the alert log is bounded: an append always places the new alert at the
head with the prior entries shifted back and truncates to the 200 most recent
entries, and every state reachable through the engine's interface (initial
state, ticks, control requests, start/stop) carries at most 200 alerts. -/
theorem c3_alert_log_bound :
    (∀ (t : ℚ) (sev : Severity) (snap : SystemSnapshot),
      (pushAlert t sev snap).alerts =
        (({ ts := t, severity := sev } : AlertEvent) :: snap.alerts).take 200) ∧
    ∀ s : EngineState, Reachable s → s.snapshot.alerts.length ≤ 200 := by
  refine ⟨fun t sev snap => rfl, ?_⟩
  intro s hs
  induction hs with
  | init t => show (1 : ℕ) ≤ 200; decide
  | tick t rand _ ih => exact alertsLe_tick _ _ _ ih
  | control t body _ ih => exact alertsLe_control _ _ _ ih
  | startStep _ ih => exact ih
  | stopStep _ ih => exact ih

/-- C3 witness: the truncating head-append evaluated at a concrete alert, and
the bound at the (reachable) initial state. -/
theorem c3_witness :
    (pushAlert 5 .watch (makeInitialSnapshot 0)).alerts =
      (({ ts := 5, severity := .watch } : AlertEvent) ::
        (makeInitialSnapshot 0).alerts).take 200 ∧
    (makeInitial 0).snapshot.alerts.length ≤ 200 :=
  ⟨c3_alert_log_bound.1 5 .watch (makeInitialSnapshot 0),
   c3_alert_log_bound.2 (makeInitial 0) (Reachable.init 0)⟩

/-! ## Claim C4 -/

lemma optInUnit_getD {o : Option ℚ} (ho : optInUnit o) {d : ℚ} (hd : inUnit d) :
    inUnit (o.getD d) := by
  cases o with
  | none => exact hd
  | some x => exact ho

lemma snapInv_alertsOnly {a b : SystemSnapshot} (hab : AlertsOnly a b)
    (h : snapInv a) : snapInv b := by
  rw [hab]
  obtain ⟨h1, h2, h3, h4, h5, h6, h7, h8, h9, h10, h11, h12, h13, h14, h15⟩ := h
  exact ⟨h1, h2, h3, h4, h5, h6, h7, h8, h9, h10, h11, h12, h13, h14, h15⟩

lemma snapInv_pushAlert (t : ℚ) (sev : Severity) {snap : SystemSnapshot}
    (h : snapInv snap) : snapInv (pushAlert t sev snap) :=
  snapInv_alertsOnly (alertsOnly_push ..) h

lemma snapInv_ite (p : Prop) [Decidable p] {a b : SystemSnapshot}
    (h1 : snapInv a) (h2 : snapInv b) : snapInv (if p then a else b) := by
  split_ifs <;> assumption

lemma snapInvE_ite (p : Prop) [Decidable p] {a b : EngineState}
    (h1 : snapInv a.snapshot) (h2 : snapInv b.snapshot) :
    snapInv (if p then a else b).snapshot := by
  split_ifs <;> assumption

lemma snapInv_setRegime {r : Regime} {c : ℚ} {src : StressSource}
    {snap : SystemSnapshot} (h : snapInv snap) : snapInv (setRegime r c src snap) := by
  obtain ⟨_, _, h3, h4, h5, h6, h7, h8, h9, h10, h11, h12, h13, h14, h15⟩ := h
  exact ⟨clampCeiling_nonneg c, clampCeiling_le c,
    h3, h4, h5, h6, h7, h8, h9, h10, h11, h12, h13, h14, h15⟩

lemma snapInv_setGates {g : GatePatch} {snap : SystemSnapshot} (h : snapInv snap) :
    snapInv (setGates g snap) := by
  obtain ⟨h1, h2, h3, h4, h5, h6, h7, h8, h9, h10, h11, h12, h13, h14, h15⟩ := h
  exact ⟨h1, h2, h3, h4, h5, h6, h7, h8, h9, h10, h11, h12, h13, h14, h15⟩

lemma snapInv_portfolioBlock {s : EngineState} (h : snapInv s.snapshot) :
    snapInv (portfolioBlock s).snapshot := by
  obtain ⟨h1, h2, h3, h4, h5, h6, h7, h8, h9, h10, h11, h12, h13, h14, h15⟩ := h
  exact ⟨h1, h2, h3, h4, h5, h6, h7, h8, h9, h10, h11, h12, h13, h14, h15⟩

lemma snapInv_setPillar {id : PillarId} {patch : PillarPatch} {snap : SystemSnapshot}
    (h : snapInv snap) (hs : optInUnit patch.score)
    (hc : optInUnit patch.confidence) : snapInv (setPillar id patch snap) := by
  obtain ⟨h1, h2, h3, h4, h5, h6, h7, h8, h9, h10, h11, h12, h13, h14, h15⟩ := h
  cases id with
  | ARAS => exact ⟨h1, h2, h3, h4, h5, h6, h7, h8,
      ⟨optInUnit_getD hs h9.1, optInUnit_getD hc h9.2⟩,
      h10, h11, h12, h13, h14, h15⟩
  | MACRO => exact ⟨h1, h2, h3, h4, h5, h6, h7, h8, h9,
      ⟨optInUnit_getD hs h10.1, optInUnit_getD hc h10.2⟩,
      h11, h12, h13, h14, h15⟩
  | MASTER => exact ⟨h1, h2, h3, h4, h5, h6, h7, h8, h9, h10,
      ⟨optInUnit_getD hs h11.1, optInUnit_getD hc h11.2⟩,
      h12, h13, h14, h15⟩
  | KEVLAR => exact ⟨h1, h2, h3, h4, h5, h6, h7, h8, h9, h10, h11,
      ⟨optInUnit_getD hs h12.1, optInUnit_getD hc h12.2⟩,
      h13, h14, h15⟩
  | PERM => exact ⟨h1, h2, h3, h4, h5, h6, h7, h8, h9, h10, h11, h12,
      ⟨optInUnit_getD hs h13.1, optInUnit_getD hc h13.2⟩,
      h14, h15⟩
  | SLOF => exact ⟨h1, h2, h3, h4, h5, h6, h7, h8, h9, h10, h11, h12, h13,
      ⟨optInUnit_getD hs h14.1, optInUnit_getD hc h14.2⟩,
      h15⟩
  | ARES => exact ⟨h1, h2, h3, h4, h5, h6, h7, h8, h9, h10, h11, h12, h13, h14,
      ⟨optInUnit_getD hs h15.1, optInUnit_getD hc h15.2⟩⟩

lemma snapInv_putSignalList {key : SignalKey} {v : Option (List PillarSignal)}
    {snap : SystemSnapshot} (h : snapInv snap) (hv : sigListOk v) :
    snapInv (putSignalList key v snap) := by
  obtain ⟨h1, h2, h3, h4, h5, h6, h7, h8, h9, h10, h11, h12, h13, h14, h15⟩ := h
  cases key with
  | macroSignals => exact ⟨h1, h2, h3, hv, h5, h6, h7, h8,
      h9, h10, h11, h12, h13, h14, h15⟩
  | masterSignals => exact ⟨h1, h2, h3, h4, hv, h6, h7, h8,
      h9, h10, h11, h12, h13, h14, h15⟩
  | kevlarSignals => exact ⟨h1, h2, h3, h4, h5, hv, h7, h8,
      h9, h10, h11, h12, h13, h14, h15⟩
  | permSignals => exact ⟨h1, h2, h3, h4, h5, h6, hv, h8,
      h9, h10, h11, h12, h13, h14, h15⟩
  | slofSignals => exact ⟨h1, h2, h3, h4, h5, h6, h7, hv,
      h9, h10, h11, h12, h13, h14, h15⟩

lemma snapInv_setSignals {t : ℚ} {key : SignalKey} {signals : List SignalInput}
    {snap : SystemSnapshot} (h : snapInv snap) :
    snapInv (setSignals t key signals snap) := by
  rw [setSignals_result]
  apply snapInv_setPillar
  · apply snapInv_putSignalList
    · exact snapInv_alertsOnly (foldl_signalAlertStep_alertsOnly _ _ _ _) h
    · intro x hx
      obtain ⟨y, _, rfl⟩ := List.mem_map.1 hx
      exact normalizeSignal_ok y
  · exact clamp01_inUnit _
  · exact clamp01_inUnit _

lemma patchOk_getD : ∀ (patch : List ModulePatch), patchOk patch → ∀ i : ℕ,
    optInUnit ((patch.getD i emptyModulePatch)).risk_score ∧
    optInUnit ((patch.getD i emptyModulePatch)).confidence := by
  intro patch
  induction patch with
  | nil =>
      intro _ i
      exact ⟨⟨le_refl 0, by norm_num [emptyModulePatch]⟩,
        ⟨le_refl 0, by norm_num [emptyModulePatch]⟩⟩
  | cons a as ih =>
      intro hp i
      cases i with
      | zero => exact hp a (List.mem_cons_self a as)
      | succ j => exact ih (fun p hmem => hp p (List.mem_cons_of_mem a hmem)) j

lemma moduleOk_apply {m : ARASModuleSignal} (hm : moduleOk m) {p : ModulePatch}
    (hr : optInUnit p.risk_score) (hc : optInUnit p.confidence) :
    moduleOk (applyModulePatch m p) :=
  ⟨optInUnit_getD hr hm.1, optInUnit_getD hc hm.2⟩

lemma mergedModules_ok {patch : List ModulePatch} (hp : patchOk patch) :
    ∀ (prev : List ARASModuleSignal), (∀ m ∈ prev, moduleOk m) →
    ∀ i : ℕ, ∀ m' ∈ mapIdxFrom
      (fun j m => applyModulePatch m (patch.getD j emptyModulePatch)) i prev,
      moduleOk m' := by
  intro prev
  induction prev with
  | nil => intro _ i m' hm'; simp [mapIdxFrom] at hm'
  | cons a as ih =>
      intro hprev i m' hm'
      simp only [mapIdxFrom] at hm'
      rcases List.mem_cons.1 hm' with hEq | hMem
      · rw [hEq]
        exact moduleOk_apply (hprev a (List.mem_cons_self a as))
          (patchOk_getD patch hp i).1 (patchOk_getD patch hp i).2
      · exact ih (fun m hm => hprev m (List.mem_cons_of_mem a hm)) (i + 1) m' hMem

lemma snapInv_modules {snap : SystemSnapshot} (h : snapInv snap)
    {next : List ARASModuleSignal} (hnext : ∀ m ∈ next, moduleOk m) :
    snapInv { snap with arasModules := some next } := by
  obtain ⟨h1, h2, _, h4, h5, h6, h7, h8, h9, h10, h11, h12, h13, h14, h15⟩ := h
  exact ⟨h1, h2, hnext, h4, h5, h6, h7, h8, h9, h10, h11, h12, h13, h14, h15⟩

lemma snapInv_crashOverride {snap : SystemSnapshot} (h : snapInv snap) :
    snapInv { snap with regime := .CRASH, exposureCeilingGross := min snap.exposureCeilingGross 0.15 } := by
  obtain ⟨h1, _, h3, h4, h5, h6, h7, h8, h9, h10, h11, h12, h13, h14, h15⟩ := h
  exact ⟨le_min h1 (by norm_num), (min_le_right _ _).trans (by norm_num),
    h3, h4, h5, h6, h7, h8, h9, h10, h11, h12, h13, h14, h15⟩

lemma snapInv_arasPillarWrite (a b : ℚ) {snap : SystemSnapshot} (h : snapInv snap) :
    snapInv { snap with pillars := { snap.pillars with ARAS := { snap.pillars.ARAS with score := clamp01 a, confidence := clamp01 b } } } := by
  obtain ⟨h1, h2, h3, h4, h5, h6, h7, h8, _, h10, h11, h12, h13, h14, h15⟩ := h
  exact ⟨h1, h2, h3, h4, h5, h6, h7, h8,
    ⟨clamp01_inUnit a, clamp01_inUnit b⟩, h10, h11, h12, h13, h14, h15⟩

lemma snapInv_updateARAS {t : ℚ} {patch : List ModulePatch} {snap : SystemSnapshot}
    (h : snapInv snap) (hp : patchOk patch) :
    snapInv (updateARASModules t patch snap) := by
  unfold updateARASModules
  cases hm : snap.arasModules with
  | none => exact h
  | some prev =>
      have hprev : ∀ m ∈ prev, moduleOk m := by
        have h3 := h.2.2.1
        rw [hm] at h3
        simpa using h3
      have hnext : ∀ m ∈ mergedModules patch prev, moduleOk m :=
        fun m hm2 => mergedModules_ok hp prev hprev 0 m hm2
      have hE0 : snapInv ((prev.zip (mergedModules patch prev)).foldl
          (moduleAlertStep t) snap) :=
        snapInv_alertsOnly (foldl_moduleAlertStep_alertsOnly t snap _) h
      exact snapInv_arasPillarWrite _ _
        (snapInv_ite _
          (snapInv_pushAlert _ _
            (snapInv_ite _
              (snapInv_crashOverride
                (snapInv_ite _ (snapInv_pushAlert _ _ (snapInv_modules hE0 hnext))
                  (snapInv_modules hE0 hnext)))
              (snapInv_ite _ (snapInv_pushAlert _ _ (snapInv_modules hE0 hnext))
                (snapInv_modules hE0 hnext))))
          (snapInv_ite _
            (snapInv_crashOverride
              (snapInv_ite _ (snapInv_pushAlert _ _ (snapInv_modules hE0 hnext))
                (snapInv_modules hE0 hnext)))
            (snapInv_ite _ (snapInv_pushAlert _ _ (snapInv_modules hE0 hnext))
              (snapInv_modules hE0 hnext))))

lemma snapInvE_pushAlertE (t : ℚ) (sev : Severity) {s : EngineState}
    (h : snapInv s.snapshot) : snapInv (pushAlertE t sev s).snapshot :=
  snapInv_pushAlert t sev h

lemma snapInvE_alertIfE (c : Prop) [Decidable c] (t : ℚ) (sev : Severity)
    (s : EngineState) (h : snapInv s.snapshot) :
    snapInv (alertIfE c t sev s).snapshot := by
  unfold alertIfE
  split_ifs
  · exact snapInvE_pushAlertE _ _ h
  · exact h

lemma snapInvE_transitionIf (c : Prop) [Decidable c] (t : ℚ) (p : Phase)
    (s : EngineState) (h : snapInv s.snapshot) :
    snapInv (transitionIf c t p s).snapshot := by
  unfold transitionIf
  split_ifs
  · exact snapInv_pushAlert _ _ h
  · exact h

lemma snapInvE_advanceIf (c : Prop) [Decidable c] (t : ℚ) (p : Phase)
    (s : EngineState) (h : snapInv s.snapshot) :
    snapInv (advanceIf c t p s).snapshot := by
  unfold advanceIf
  split_ifs
  · rw [forcePhase_snapshot]; exact h
  · exact snapInv_pushAlert _ _ h

lemma snapInv_caseCALM (t age : ℚ) (s0 : EngineState) (h : snapInv s0.snapshot) :
    snapInv (caseCALM t age s0).snapshot := by
  simp only [caseCALM]
  apply snapInvE_transitionIf
  simp only [onSnap_snapshot]
  apply snapInv_setPillar
  apply snapInv_setPillar
  apply snapInv_setSignals
  apply snapInv_setSignals
  apply snapInv_setSignals
  apply snapInv_setSignals
  apply snapInv_setSignals
  apply snapInv_setGates
  apply snapInv_updateARAS
  apply snapInv_setRegime
  exact h
  all_goals with_unfolding_all decide

lemma snapInv_caseBUILD_STRESS (t age : ℚ) (rand : ℕ → ℚ) (s0 : EngineState)
    (h : snapInv s0.snapshot) :
    snapInv (caseBUILD_STRESS t age rand s0).snapshot := by
  simp only [caseBUILD_STRESS]
  apply snapInvE_transitionIf
  apply snapInvE_alertIfE
  apply snapInvE_alertIfE
  simp only [onSnap_snapshot]
  apply snapInv_setPillar
  apply snapInv_setGates
  apply snapInv_setSignals
  apply snapInv_setSignals
  apply snapInv_setSignals
  apply snapInv_setSignals
  apply snapInv_setSignals
  apply snapInv_updateARAS
  apply snapInv_setRegime
  exact h
  all_goals with_unfolding_all decide

lemma snapInv_caseCIRCUIT_BREAK (t : ℚ) (s0 : EngineState)
    (h : snapInv s0.snapshot) :
    snapInv (caseCIRCUIT_BREAK t s0).snapshot := by
  simp only [caseCIRCUIT_BREAK]
  apply snapInvE_advanceIf
  apply snapInvE_alertIfE
  simp only [onSnap_snapshot]
  apply snapInv_setPillar
  apply snapInvE_ite <;>
    (simp only [onSnap_snapshot]
     apply snapInv_setRegime
     apply snapInv_setSignals
     apply snapInv_setSignals
     apply snapInv_setSignals
     apply snapInv_setSignals
     apply snapInv_setSignals
     apply snapInv_updateARAS
     exact h)
  all_goals with_unfolding_all decide

lemma snapInv_caseDELEVERAGE (t age : ℚ) (rand : ℕ → ℚ) (s0 : EngineState)
    (h : snapInv s0.snapshot) :
    snapInv (caseDELEVERAGE t age rand s0).snapshot := by
  simp only [caseDELEVERAGE]
  apply snapInvE_transitionIf
  apply snapInvE_alertIfE
  simp only [onSnap_snapshot]
  apply snapInv_setSignals
  apply snapInv_setSignals
  apply snapInv_setSignals
  apply snapInv_setSignals
  apply snapInv_setSignals
  apply snapInv_updateARAS
  apply snapInv_setRegime
  exact h
  all_goals with_unfolding_all decide

lemma snapInv_caseSTABILIZE (t age : ℚ) (s0 : EngineState)
    (h : snapInv s0.snapshot) :
    snapInv (caseSTABILIZE t age s0).snapshot := by
  simp only [caseSTABILIZE]
  apply snapInvE_transitionIf
  simp only [onSnap_snapshot]
  apply snapInv_setGates
  apply snapInv_setPillar
  apply snapInv_setSignals
  apply snapInv_setSignals
  apply snapInv_setSignals
  apply snapInv_setSignals
  apply snapInv_setSignals
  apply snapInv_updateARAS
  apply snapInv_setRegime
  exact h
  all_goals with_unfolding_all decide

lemma snapInv_caseARES_GATES (t age : ℚ) (rand : ℕ → ℚ) (s0 : EngineState)
    (h : snapInv s0.snapshot) :
    snapInv (caseARES_GATES t age rand s0).snapshot := by
  simp only [caseARES_GATES]
  apply snapInvE_transitionIf
  apply snapInvE_alertIfE
  simp only [onSnap_snapshot]
  apply snapInv_setPillar
  apply snapInv_setGates
  apply snapInv_setSignals
  apply snapInv_setSignals
  apply snapInv_setSignals
  apply snapInv_setSignals
  apply snapInv_setSignals
  apply snapInv_updateARAS
  apply snapInv_setRegime
  exact h
  all_goals first
    | with_unfolding_all decide
    | norm_num [optInUnit, inUnit, Option.getD]

lemma snapInv_caseREENTRY (t age : ℚ) (rand : ℕ → ℚ) (s0 : EngineState)
    (h : snapInv s0.snapshot) :
    snapInv (caseREENTRY t age rand s0).snapshot := by
  simp only [caseREENTRY]
  apply snapInvE_transitionIf
  apply snapInvE_alertIfE
  apply snapInvE_ite
  · simp only [onSnap_snapshot]
    apply snapInv_setPillar
    apply snapInv_setSignals
    apply snapInv_setSignals
    apply snapInv_setSignals
    apply snapInv_setSignals
    apply snapInv_setSignals
    apply snapInv_setGates
    apply snapInvE_ite
    · simp only [onSnap_snapshot]
      apply snapInv_setPillar
      apply snapInv_setRegime
      exact h
      all_goals with_unfolding_all decide
    · apply snapInvE_ite
      · apply snapInvE_ite
        · simp only [onSnap_snapshot]
          apply snapInv_setPillar
          apply snapInv_setRegime
          exact h
          all_goals with_unfolding_all decide
        · simp only [onSnap_snapshot]
          apply snapInv_setPillar
          apply snapInv_setRegime
          exact h
          all_goals with_unfolding_all decide
      · simp only [onSnap_snapshot]
        apply snapInv_setRegime
        exact h
    all_goals with_unfolding_all decide
  · simp only [onSnap_snapshot]
    apply snapInv_setSignals
    apply snapInv_setSignals
    apply snapInv_setSignals
    apply snapInv_setSignals
    apply snapInv_setSignals
    apply snapInv_setGates
    apply snapInvE_ite
    · simp only [onSnap_snapshot]
      apply snapInv_setPillar
      apply snapInv_setRegime
      exact h
      all_goals with_unfolding_all decide
    · apply snapInvE_ite
      · apply snapInvE_ite
        · simp only [onSnap_snapshot]
          apply snapInv_setPillar
          apply snapInv_setRegime
          exact h
          all_goals with_unfolding_all decide
        · simp only [onSnap_snapshot]
          apply snapInv_setPillar
          apply snapInv_setRegime
          exact h
          all_goals with_unfolding_all decide
      · simp only [onSnap_snapshot]
        apply snapInv_setRegime
        exact h

lemma snapInv_driftBlock (rand : ℕ → ℚ) (s : EngineState)
    (h : snapInv s.snapshot) : snapInv (driftBlock rand s).snapshot := by
  unfold driftBlock
  split_ifs with hcond
  · exact h
  · have hgen : ∀ (l : List PillarId) (acc : SystemSnapshot × ℕ),
        snapInv acc.1 →
        snapInv ((l.foldl (fun (acc : SystemSnapshot × ℕ) pid =>
          let snapc := acc.1
          let i := acc.2
          let cur := getPillar pid snapc.pillars
          let drift := (rand (2 * i) - 0.5) * 0.01
          (setPillar pid
            ⟨none,
             some (clamp01 (cur.score + drift)),
             some (clamp01 (cur.confidence + (rand (2 * i + 1) - 0.5) * 0.01))⟩ snapc,
           i + 1)) acc).1) := by
      intro l
      induction l with
      | nil => intro acc hacc; exact hacc
      | cons a as ih =>
          intro acc hacc
          rw [List.foldl_cons]
          exact ih _ (snapInv_setPillar hacc (clamp01_inUnit _) (clamp01_inUnit _))
    exact hgen PILLARS (s.snapshot, 0) h

lemma snapInv_phaseBlock (t : ℚ) (rand : ℕ → ℚ) (s : EngineState)
    (h : snapInv s.snapshot) : snapInv (phaseBlock t rand s).snapshot := by
  cases hp : s.phase with
  | none =>
      have hred : phaseBlock t rand s = s := by
        unfold phaseBlock; simp only [hp]
      rw [hred]; exact h
  | some p =>
      cases p with
      | CALM =>
          have hred : phaseBlock t rand s = caseCALM t ((t - s.phaseT0) / 1000) s := by
            unfold phaseBlock; simp only [hp]
          rw [hred]; exact snapInv_caseCALM _ _ _ h
      | BUILD_STRESS =>
          have hred : phaseBlock t rand s =
              caseBUILD_STRESS t ((t - s.phaseT0) / 1000) rand s := by
            unfold phaseBlock; simp only [hp]
          rw [hred]; exact snapInv_caseBUILD_STRESS _ _ _ _ h
      | CIRCUIT_BREAK =>
          have hred : phaseBlock t rand s = caseCIRCUIT_BREAK t s := by
            unfold phaseBlock; simp only [hp]
          rw [hred]; exact snapInv_caseCIRCUIT_BREAK _ _ h
      | DELEVERAGE =>
          have hred : phaseBlock t rand s =
              caseDELEVERAGE t ((t - s.phaseT0) / 1000) rand s := by
            unfold phaseBlock; simp only [hp]
          rw [hred]; exact snapInv_caseDELEVERAGE _ _ _ _ h
      | STABILIZE =>
          have hred : phaseBlock t rand s =
              caseSTABILIZE t ((t - s.phaseT0) / 1000) s := by
            unfold phaseBlock; simp only [hp]
          rw [hred]; exact snapInv_caseSTABILIZE _ _ _ h
      | ARES_GATES =>
          have hred : phaseBlock t rand s =
              caseARES_GATES t ((t - s.phaseT0) / 1000) rand s := by
            unfold phaseBlock; simp only [hp]
          rw [hred]; exact snapInv_caseARES_GATES _ _ _ _ h
      | REENTRY =>
          have hred : phaseBlock t rand s =
              caseREENTRY t ((t - s.phaseT0) / 1000) rand s := by
            unfold phaseBlock; simp only [hp]
          rw [hred]; exact snapInv_caseREENTRY _ _ _ _ h

lemma snapInvE_scenarioBlock_some (t : ℚ) (s : EngineState) (id : ScenarioId)
    (hsc : s.scenarioId = some id) (h : snapInv s.snapshot) :
    snapInv (scenarioBlock t s).snapshot := by
  unfold scenarioBlock
  simp only [hsc]
  rw [forcePhase_snapshot]
  apply snapInvE_ite
  · apply snapInvE_ite
    · cases scenarioPhaseFor id ((t - s.scenarioT0) / 1000) <;>
        first
        | exact snapInvE_pushAlertE _ _ (snapInvE_pushAlertE _ _ h)
        | exact snapInvE_pushAlertE _ _ h
    · exact snapInvE_pushAlertE _ _ h
  · exact h

lemma snapInvE_scenarioBlock (t : ℚ) (s : EngineState) (h : snapInv s.snapshot) :
    snapInv (scenarioBlock t s).snapshot := by
  cases hsc : s.scenarioId with
  | none =>
      have hred : scenarioBlock t s = onSnap (fun snap =>
          { snap with scenarioId := none, scenarioT := none, scenarioStep := none }) s := by
        unfold scenarioBlock; simp only [hsc]
      rw [hred]
      obtain ⟨h1, h2, h3, h4, h5, h6, h7, h8, h9, h10, h11, h12, h13, h14, h15⟩ := h
      exact ⟨h1, h2, h3, h4, h5, h6, h7, h8, h9, h10, h11, h12, h13, h14, h15⟩
  | some id => exact snapInvE_scenarioBlock_some t s id hsc h

lemma snapInv_tick (t : ℚ) (rand : ℕ → ℚ) (s : EngineState)
    (h : snapInv s.snapshot) : snapInv (tick t rand s).snapshot := by
  have h1 : snapInv (scenarioBlock t (tsBlock t s)).snapshot :=
    snapInvE_scenarioBlock t (tsBlock t s) h
  have h2 : snapInv (driftBlock rand (scenarioBlock t (tsBlock t s))).snapshot :=
    snapInv_driftBlock _ _ h1
  have h3 : snapInv (phaseBlock t rand
      (driftBlock rand (scenarioBlock t (tsBlock t s)))).snapshot :=
    snapInv_phaseBlock _ _ _ h2
  exact snapInv_portfolioBlock h3

lemma snapInvE_control (t : ℚ) (body : ControlBody) (s : EngineState)
    (h : snapInv s.snapshot) : snapInv ((controlPOST t body s).2).snapshot := by
  simp only [controlPOST]
  split_ifs <;>
    first
    | exact snapInv_pushAlert _ _ (snapInv_pushAlert _ _ h)
    | exact snapInv_pushAlert _ _ h
    | exact h

lemma snapInv_makeInitial (t : ℚ) : snapInv (makeInitial t).snapshot := by
  have h0 : snapInv (makeInitialSnapshot 0) := by with_unfolding_all decide
  obtain ⟨h1, h2, h3, h4, h5, h6, h7, h8, h9, h10, h11, h12, h13, h14, h15⟩ := h0
  exact ⟨h1, h2, h3, h4, h5, h6, h7, h8, h9, h10, h11, h12, h13, h14, h15⟩

/-- C4 (corrected): every reachable snapshot satisfies the range invariant —
all stored scores and confidences lie in [0,1] and the exposure ceiling in
[0,1.2].  The spec's reason ("every write point clamps") is not what makes it
hold: the module merge stores patch values unclamped (see the counterexample);
the invariant holds because every module patch the engine actually passes is
itself in range. -/
theorem c4_range_invariant : ∀ s : EngineState, Reachable s → snapInv s.snapshot := by
  intro s hs
  induction hs with
  | init t => exact snapInv_makeInitial t
  | tick t rand _ ih => exact snapInv_tick _ _ _ ih
  | control t body _ ih => exact snapInvE_control _ _ _ ih
  | startStep _ ih => exact ih
  | stopStep _ ih => exact ih

/-- C4 counterexample: the module-merge write point does not clamp — merging a
patch with risk score 1.5 into an in-range snapshot stores an out-of-range
module signal. -/
theorem c4_counterexample :
    snapInv (makeInitialSnapshot 0) ∧
    ¬(∀ m ∈ (updateARASModules 0 oversizedPatch
        (makeInitialSnapshot 0)).arasModules.getD [], moduleOk m) := by
  constructor
  · with_unfolding_all decide
  · with_unfolding_all decide

/-- C4 witness: the invariant at the reachable initial state. -/
theorem c4_witness : snapInv (makeInitial 0).snapshot :=
  c4_range_invariant (makeInitial 0) (Reachable.init 0)

/-! ## Claim C10 -/

@[simp] lemma setPhase_approved (t : ℚ) (p : Option Phase) (s : EngineState) :
    (setPhase t p s).pmReentryApproved = s.pmReentryApproved := rfl

@[simp] lemma alertIfE_scenarioId (c : Prop) [Decidable c] (t : ℚ) (sev : Severity)
    (s : EngineState) : (alertIfE c t sev s).scenarioId = s.scenarioId := by
  unfold alertIfE; split_ifs <;> rfl

@[simp] lemma alertIfE_approved (c : Prop) [Decidable c] (t : ℚ) (sev : Severity)
    (s : EngineState) : (alertIfE c t sev s).pmReentryApproved = s.pmReentryApproved := by
  unfold alertIfE; split_ifs <;> rfl

@[simp] lemma transitionIf_scenarioId (c : Prop) [Decidable c] (t : ℚ) (p : Phase)
    (s : EngineState) : (transitionIf c t p s).scenarioId = s.scenarioId := by
  unfold transitionIf; split_ifs <;> rfl

@[simp] lemma transitionIf_approved (c : Prop) [Decidable c] (t : ℚ) (p : Phase)
    (s : EngineState) :
    (transitionIf c t p s).pmReentryApproved = s.pmReentryApproved := by
  unfold transitionIf; split_ifs <;> rfl

@[simp] lemma advanceIf_scenarioId (c : Prop) [Decidable c] (t : ℚ) (p : Phase)
    (s : EngineState) : (advanceIf c t p s).scenarioId = s.scenarioId := by
  unfold advanceIf; split_ifs <;> simp [forcePhase_scenarioId]

@[simp] lemma advanceIf_approved (c : Prop) [Decidable c] (t : ℚ) (p : Phase)
    (s : EngineState) :
    (advanceIf c t p s).pmReentryApproved = s.pmReentryApproved := by
  unfold advanceIf; split_ifs <;> simp [forcePhase_approved]

lemma caseCALM_ids (t age : ℚ) (s0 : EngineState) :
    (caseCALM t age s0).scenarioId = s0.scenarioId ∧
    (caseCALM t age s0).pmReentryApproved = s0.pmReentryApproved := by
  unfold caseCALM
  constructor <;>
    simp only [onSnap_scenarioId, onSnap_approved, alertIfE_scenarioId, alertIfE_approved,
      transitionIf_scenarioId, transitionIf_approved, advanceIf_scenarioId,
      advanceIf_approved, apply_ite EngineState.scenarioId,
      apply_ite EngineState.pmReentryApproved, ite_self]

lemma caseBUILD_STRESS_ids (t age : ℚ) (rand : ℕ → ℚ) (s0 : EngineState) :
    (caseBUILD_STRESS t age rand s0).scenarioId = s0.scenarioId ∧
    (caseBUILD_STRESS t age rand s0).pmReentryApproved = s0.pmReentryApproved := by
  unfold caseBUILD_STRESS
  constructor <;>
    simp only [onSnap_scenarioId, onSnap_approved, alertIfE_scenarioId, alertIfE_approved,
      transitionIf_scenarioId, transitionIf_approved, advanceIf_scenarioId,
      advanceIf_approved, apply_ite EngineState.scenarioId,
      apply_ite EngineState.pmReentryApproved, ite_self]

lemma caseCIRCUIT_BREAK_ids (t : ℚ) (s0 : EngineState) :
    (caseCIRCUIT_BREAK t s0).scenarioId = s0.scenarioId ∧
    (caseCIRCUIT_BREAK t s0).pmReentryApproved = s0.pmReentryApproved := by
  unfold caseCIRCUIT_BREAK
  constructor <;>
    simp only [onSnap_scenarioId, onSnap_approved, alertIfE_scenarioId, alertIfE_approved,
      transitionIf_scenarioId, transitionIf_approved, advanceIf_scenarioId,
      advanceIf_approved, apply_ite EngineState.scenarioId,
      apply_ite EngineState.pmReentryApproved, ite_self]

lemma caseDELEVERAGE_ids (t age : ℚ) (rand : ℕ → ℚ) (s0 : EngineState) :
    (caseDELEVERAGE t age rand s0).scenarioId = s0.scenarioId ∧
    (caseDELEVERAGE t age rand s0).pmReentryApproved = s0.pmReentryApproved := by
  unfold caseDELEVERAGE
  constructor <;>
    simp only [onSnap_scenarioId, onSnap_approved, alertIfE_scenarioId, alertIfE_approved,
      transitionIf_scenarioId, transitionIf_approved, advanceIf_scenarioId,
      advanceIf_approved, apply_ite EngineState.scenarioId,
      apply_ite EngineState.pmReentryApproved, ite_self]

lemma caseSTABILIZE_ids (t age : ℚ) (s0 : EngineState) :
    (caseSTABILIZE t age s0).scenarioId = s0.scenarioId ∧
    (caseSTABILIZE t age s0).pmReentryApproved = s0.pmReentryApproved := by
  unfold caseSTABILIZE
  constructor <;>
    simp only [onSnap_scenarioId, onSnap_approved, alertIfE_scenarioId, alertIfE_approved,
      transitionIf_scenarioId, transitionIf_approved, advanceIf_scenarioId,
      advanceIf_approved, apply_ite EngineState.scenarioId,
      apply_ite EngineState.pmReentryApproved, ite_self]

lemma caseARES_GATES_ids (t age : ℚ) (rand : ℕ → ℚ) (s0 : EngineState) :
    (caseARES_GATES t age rand s0).scenarioId = s0.scenarioId ∧
    (caseARES_GATES t age rand s0).pmReentryApproved = s0.pmReentryApproved := by
  unfold caseARES_GATES
  constructor <;>
    simp only [onSnap_scenarioId, onSnap_approved, alertIfE_scenarioId, alertIfE_approved,
      transitionIf_scenarioId, transitionIf_approved, advanceIf_scenarioId,
      advanceIf_approved, apply_ite EngineState.scenarioId,
      apply_ite EngineState.pmReentryApproved, ite_self]

lemma caseREENTRY_ids (t age : ℚ) (rand : ℕ → ℚ) (s0 : EngineState) :
    (caseREENTRY t age rand s0).scenarioId = s0.scenarioId ∧
    (caseREENTRY t age rand s0).pmReentryApproved = s0.pmReentryApproved := by
  unfold caseREENTRY
  constructor <;>
    simp only [onSnap_scenarioId, onSnap_approved, alertIfE_scenarioId, alertIfE_approved,
      transitionIf_scenarioId, transitionIf_approved, advanceIf_scenarioId,
      advanceIf_approved, apply_ite EngineState.scenarioId,
      apply_ite EngineState.pmReentryApproved, ite_self]

lemma driftBlock_ids (rand : ℕ → ℚ) (s : EngineState) :
    (driftBlock rand s).scenarioId = s.scenarioId ∧
    (driftBlock rand s).pmReentryApproved = s.pmReentryApproved := by
  unfold driftBlock
  split_ifs <;> exact ⟨rfl, rfl⟩

lemma phaseBlock_ids (t : ℚ) (rand : ℕ → ℚ) (s : EngineState) :
    (phaseBlock t rand s).scenarioId = s.scenarioId ∧
    (phaseBlock t rand s).pmReentryApproved = s.pmReentryApproved := by
  cases hp : s.phase with
  | none =>
      have hred : phaseBlock t rand s = s := by
        unfold phaseBlock; simp only [hp]
      rw [hred]; exact ⟨rfl, rfl⟩
  | some p =>
      cases p with
      | CALM =>
          have hred : phaseBlock t rand s = caseCALM t ((t - s.phaseT0) / 1000) s := by
            unfold phaseBlock; simp only [hp]
          rw [hred]; exact caseCALM_ids _ _ _
      | BUILD_STRESS =>
          have hred : phaseBlock t rand s =
              caseBUILD_STRESS t ((t - s.phaseT0) / 1000) rand s := by
            unfold phaseBlock; simp only [hp]
          rw [hred]; exact caseBUILD_STRESS_ids _ _ _ _
      | CIRCUIT_BREAK =>
          have hred : phaseBlock t rand s = caseCIRCUIT_BREAK t s := by
            unfold phaseBlock; simp only [hp]
          rw [hred]; exact caseCIRCUIT_BREAK_ids _ _
      | DELEVERAGE =>
          have hred : phaseBlock t rand s =
              caseDELEVERAGE t ((t - s.phaseT0) / 1000) rand s := by
            unfold phaseBlock; simp only [hp]
          rw [hred]; exact caseDELEVERAGE_ids _ _ _ _
      | STABILIZE =>
          have hred : phaseBlock t rand s =
              caseSTABILIZE t ((t - s.phaseT0) / 1000) s := by
            unfold phaseBlock; simp only [hp]
          rw [hred]; exact caseSTABILIZE_ids _ _ _
      | ARES_GATES =>
          have hred : phaseBlock t rand s =
              caseARES_GATES t ((t - s.phaseT0) / 1000) rand s := by
            unfold phaseBlock; simp only [hp]
          rw [hred]; exact caseARES_GATES_ids _ _ _ _
      | REENTRY =>
          have hred : phaseBlock t rand s =
              caseREENTRY t ((t - s.phaseT0) / 1000) rand s := by
            unfold phaseBlock; simp only [hp]
          rw [hred]; exact caseREENTRY_ids _ _ _ _

@[simp] lemma portfolioBlock_stressSource (s : EngineState) :
    (portfolioBlock s).snapshot.stressSource = s.snapshot.stressSource := rfl

lemma portfolioBlock_portfolio (s : EngineState) :
    (portfolioBlock s).snapshot.portfolio =
      some (buildPortfolioSnapshot s.snapshot.regime s.snapshot.stressSource
        (deriveReentry s)) := rfl

lemma mem_insertPosDesc {x y : PortfolioPosition} :
    ∀ {l : List PortfolioPosition}, x ∈ insertPosDesc y l ↔ x = y ∨ x ∈ l := by
  intro l
  induction l with
  | nil => simp [insertPosDesc]
  | cons a as ih =>
      unfold insertPosDesc
      split_ifs
      · simp only [List.mem_cons, ih]
        tauto
      · simp only [List.mem_cons]

lemma mem_sortFold (x : PortfolioPosition) :
    ∀ (l acc : List PortfolioPosition),
      x ∈ l.foldl (fun acc p => insertPosDesc p acc) acc ↔ x ∈ l ∨ x ∈ acc := by
  intro l
  induction l with
  | nil => intro acc; simp
  | cons a as ih =>
      intro acc
      rw [List.foldl_cons, ih]
      simp only [mem_insertPosDesc, List.mem_cons]
      tauto

lemma mem_sortPositionsDesc {x : PortfolioPosition} {l : List PortfolioPosition} :
    x ∈ sortPositionsDesc l ↔ x ∈ l := by
  unfold sortPositionsDesc
  rw [mem_sortFold]
  simp

lemma applyCut_pos (src : StressSource) (regime : Regime) (sleeve : Sleeve)
    {base : ℚ} (hb : 0 < base) : 0 < applyCut src regime sleeve base := by
  cases sleeve <;> cases src <;>
    simp only [applyCut, SPEC_SOURCE_TARGETED_CUTS] <;>
    first
    | exact hb
    | (split_ifs <;> exact mul_pos hb (by norm_num))

/-- Per-position gating in `buildPositions` with a re-entry state attached:
a tranche-tagged position is zeroed exactly when approval is missing or its
tranche exceeds the reached tranche; untagged positions keep their
allocations (defense at its table weight, cash at the sleeve remainder). -/
lemma buildPositions_gating (regime : Regime) (src : StressSource) (ceil : ℚ)
    (re : ReentryState) (h0 : 0 < re.trancheCeiling) (pos : PortfolioPosition)
    (hmem : pos ∈ buildPositions regime src ceil (some re)) :
    (∀ pt : ℕ, pos.tranche = some pt →
      (pos.currentPct = 0 ↔ (re.pmApproved = false ∨ re.tranche < pt))) ∧
    (pos.tranche = none →
      (pos.sleeve = .DEFENSE → pos.currentPct = pos.targetPct ∧ 0 < pos.currentPct) ∧
      (pos.sleeve = .CASH_OPTIONS → pos.currentPct =
        max 0 (1 - (re.trancheCeiling + ARCH_AB_TARGET_SLEEVES.defense)))) := by
  have hshareE : (0:ℚ) < ARCH_AB_TARGET_SLEEVES.equity /
      (ARCH_AB_TARGET_SLEEVES.equity + ARCH_AB_TARGET_SLEEVES.crypto) := by
    with_unfolding_all decide
  have hshareC : (0:ℚ) < 1 - ARCH_AB_TARGET_SLEEVES.equity /
      (ARCH_AB_TARGET_SLEEVES.equity + ARCH_AB_TARGET_SLEEVES.crypto) := by
    with_unfolding_all decide
  have hTE : 0 < (bySleeveWeights regime re.trancheCeiling).equity :=
    mul_pos h0 hshareE
  have hTC : 0 < (bySleeveWeights regime re.trancheCeiling).crypto :=
    mul_pos h0 hshareC
  have hsE : (0:ℚ) < (if sumPct TARGET_EQUITY = 0 then 1 else sumPct TARGET_EQUITY) := by
    with_unfolding_all decide
  have hsC : (0:ℚ) < (if sumPct TARGET_CRYPTO = 0 then 1 else sumPct TARGET_CRYPTO) := by
    with_unfolding_all decide
  have hfE : ∀ x ∈ TARGET_EQUITY, 0 < x.pct ∧ x.tranche ≠ none := by
    with_unfolding_all decide
  have hfC : ∀ x ∈ TARGET_CRYPTO, 0 < x.pct ∧ x.tranche ≠ none := by
    with_unfolding_all decide
  have hfD : ∀ x ∈ TARGET_DEFENSE, 0 < x.pct := by with_unfolding_all decide
  simp only [buildPositions] at hmem
  rw [mem_sortPositionsDesc] at hmem
  simp only [List.mem_append] at hmem
  rcases hmem with ((hEq | hCr) | hDef) | hCash
  · rw [List.mem_map] at hEq
    obtain ⟨y, hy, rfl⟩ := hEq
    simp only [normalizeTo] at hy
    rw [List.mem_map] at hy
    obtain ⟨x, hx, rfl⟩ := hy
    have hxf := hfE x hx
    have hscaled : 0 < x.pct /
        (if sumPct TARGET_EQUITY = 0 then 1 else sumPct TARGET_EQUITY) *
        (bySleeveWeights regime re.trancheCeiling).equity :=
      mul_pos (div_pos hxf.1 hsE) hTE
    refine ⟨?_, ?_⟩
    · intro pt hpt
      have hxt : x.tranche = some pt := hpt
      cases happ : re.pmApproved with
      | false => simp [trancheAllows, hxt, happ]
      | true =>
          by_cases hle : pt ≤ re.tranche
          · have hne : applyCut src regime Sleeve.EQUITY (x.pct /
                (if sumPct TARGET_EQUITY = 0 then 1 else sumPct TARGET_EQUITY) *
                (bySleeveWeights regime re.trancheCeiling).equity) ≠ 0 :=
              ne_of_gt (applyCut_pos src regime .EQUITY hscaled)
            have hnlt : ¬ re.tranche < pt := not_lt.2 hle
            simp [trancheAllows, hxt, happ, hle, hne, hnlt]
          · have hlt : re.tranche < pt := not_le.1 hle
            simp [trancheAllows, hxt, happ, hle, hlt]
    · intro hnone
      exact absurd hnone hxf.2
  · rw [List.mem_map] at hCr
    obtain ⟨y, hy, rfl⟩ := hCr
    simp only [normalizeTo] at hy
    rw [List.mem_map] at hy
    obtain ⟨x, hx, rfl⟩ := hy
    have hxf := hfC x hx
    have hscaled : 0 < x.pct /
        (if sumPct TARGET_CRYPTO = 0 then 1 else sumPct TARGET_CRYPTO) *
        (bySleeveWeights regime re.trancheCeiling).crypto :=
      mul_pos (div_pos hxf.1 hsC) hTC
    refine ⟨?_, ?_⟩
    · intro pt hpt
      have hxt : x.tranche = some pt := hpt
      cases happ : re.pmApproved with
      | false => simp [trancheAllows, hxt, happ]
      | true =>
          by_cases hle : pt ≤ re.tranche
          · have hne : applyCut src regime Sleeve.CRYPTO (x.pct /
                (if sumPct TARGET_CRYPTO = 0 then 1 else sumPct TARGET_CRYPTO) *
                (bySleeveWeights regime re.trancheCeiling).crypto) ≠ 0 :=
              ne_of_gt (applyCut_pos src regime .CRYPTO hscaled)
            have hnlt : ¬ re.tranche < pt := not_lt.2 hle
            simp [trancheAllows, hxt, happ, hle, hne, hnlt]
          · have hlt : re.tranche < pt := not_le.1 hle
            simp [trancheAllows, hxt, happ, hle, hlt]
    · intro hnone
      exact absurd hnone hxf.2
  · rw [List.mem_map] at hDef
    obtain ⟨x, hx, rfl⟩ := hDef
    refine ⟨?_, ?_⟩
    · intro pt hpt
      simp at hpt
    · intro _
      refine ⟨fun _ => ⟨rfl, hfD x hx⟩, fun hcs => ?_⟩
      simp at hcs
  · have hps := List.mem_singleton.1 hCash
    refine ⟨?_, ?_⟩
    · intro pt hpt
      rw [hps] at hpt
      simp at hpt
    · intro _
      refine ⟨fun hds => ?_, fun _ => ?_⟩
      · rw [hps] at hds
        simp at hds
      · rw [hps]
        rfl

lemma deriveReentry_s3 (s4 : EngineState) (hsc : s4.scenarioId = some .S3) :
    ∃ re : ReentryState, deriveReentry s4 = some re ∧
      re.pmApproved = s4.pmReentryApproved ∧ 0 < re.trancheCeiling ∧
      (s4.pmReentryApproved = false →
        re.trancheCeiling = SPEC_EQCR_CEILINGS .NEUTRAL) := by
  unfold deriveReentry
  rw [if_pos hsc]
  cases hb : s4.pmReentryApproved with
  | false =>
      refine ⟨⟨false, 0, SPEC_EQCR_CEILINGS .NEUTRAL⟩, by simp, rfl, ?_, fun _ => rfl⟩
      with_unfolding_all decide
  | true =>
      refine ⟨⟨true,
        if s4.snapshot.regime = .RISK_ON then 4
        else if s4.snapshot.exposureCeilingGross ≤ 0.26 then 1
        else if s4.snapshot.exposureCeilingGross ≤ 0.51 then 2
        else if s4.snapshot.exposureCeilingGross ≤ 0.76 then 3 else 4,
        min 1.0 (max 0.25 s4.snapshot.exposureCeilingGross)⟩,
        by simp, rfl, ?_, fun hf => absurd hf (by decide)⟩
      exact lt_min (by norm_num) (lt_of_lt_of_le (by norm_num) (le_max_left _ _))

/-- C10: every tick of scenario S3 attaches a portfolio built with a present
re-entry state mirroring the PM-approval flag (ceiling 0.70 when unapproved,
positive in every case), and in `buildPositions` with re-entry present a
tranche-tagged position has current weight exactly 0 precisely when approval
is missing or its tranche exceeds the reached tranche, while untagged
positions keep their allocations: defense at its table weight and cash at the
sleeve remainder, which is positive at the unapproved 0.70 ceiling. -/
theorem c10_reentry_gating :
    (∀ (s : EngineState) (t : ℚ) (rand : ℕ → ℚ), s.scenarioId = some .S3 →
      ∃ re : ReentryState,
        (tick t rand s).snapshot.portfolio =
          some (buildPortfolioSnapshot (tick t rand s).snapshot.regime
            (tick t rand s).snapshot.stressSource (some re)) ∧
        re.pmApproved = s.pmReentryApproved ∧ 0 < re.trancheCeiling ∧
        (s.pmReentryApproved = false →
          re.trancheCeiling = SPEC_EQCR_CEILINGS .NEUTRAL)) ∧
    (∀ (regime : Regime) (src : StressSource) (ceil : ℚ) (re : ReentryState),
      0 < re.trancheCeiling →
      ∀ pos ∈ buildPositions regime src ceil (some re),
        (∀ pt : ℕ, pos.tranche = some pt →
          (pos.currentPct = 0 ↔ (re.pmApproved = false ∨ re.tranche < pt))) ∧
        (pos.tranche = none →
          (pos.sleeve = .DEFENSE →
            pos.currentPct = pos.targetPct ∧ 0 < pos.currentPct) ∧
          (pos.sleeve = .CASH_OPTIONS → pos.currentPct =
            max 0 (1 - (re.trancheCeiling + ARCH_AB_TARGET_SLEEVES.defense))))) ∧
    (0:ℚ) < max 0 (1 - (SPEC_EQCR_CEILINGS .NEUTRAL + ARCH_AB_TARGET_SLEEVES.defense)) := by
  refine ⟨?_, ?_, ?_⟩
  · intro s t rand hsc
    have hts_sc : (tsBlock t s).scenarioId = some .S3 := hsc
    obtain ⟨hsb_sc, _, _, hsb_pm, _, _, _, _, _⟩ :=
      scenarioBlock_some t (tsBlock t s) .S3 hts_sc
    obtain ⟨hdb_sc, hdb_pm⟩ := driftBlock_ids rand (scenarioBlock t (tsBlock t s))
    obtain ⟨hpb_sc, hpb_pm⟩ :=
      phaseBlock_ids t rand (driftBlock rand (scenarioBlock t (tsBlock t s)))
    have hs4sc : (phaseBlock t rand (driftBlock rand (scenarioBlock t
        (tsBlock t s)))).scenarioId = some .S3 := by
      rw [hpb_sc, hdb_sc, hsb_sc]
    have hs4pm : (phaseBlock t rand (driftBlock rand (scenarioBlock t
        (tsBlock t s)))).pmReentryApproved = s.pmReentryApproved := by
      rw [hpb_pm, hdb_pm, hsb_pm]
      rfl
    obtain ⟨re, hre, hrepm, hrepos, hreceil⟩ :=
      deriveReentry_s3 (phaseBlock t rand (driftBlock rand (scenarioBlock t
        (tsBlock t s)))) hs4sc
    refine ⟨re, ?_, hrepm.trans hs4pm, hrepos, fun hf => hreceil (hs4pm.trans hf)⟩
    have htick : tick t rand s = portfolioBlock (phaseBlock t rand
        (driftBlock rand (scenarioBlock t (tsBlock t s)))) := rfl
    rw [htick, portfolioBlock_portfolio, portfolioBlock_regime,
      portfolioBlock_stressSource, hre]
  · intro regime src ceil re h0 pos hmem
    exact buildPositions_gating regime src ceil re h0 pos hmem
  · with_unfolding_all decide

/-- C10 witness: with the unapproved S3 re-entry state (ceiling 0.70), the
TLT defense position is in the built book at its full table weight. -/
theorem c10_witness :
    (0:ℚ) < (⟨false, 0, 0.70⟩ : ReentryState).trancheCeiling ∧
    ((⟨"TLT", .DEFENSE, none, none, none, 0.07, 0.07⟩ : PortfolioPosition) ∈
      buildPositions .NEUTRAL .GENERAL 0.70 (some ⟨false, 0, 0.70⟩)) ∧
    ((⟨"TLT", .DEFENSE, none, none, none, 0.07, 0.07⟩ : PortfolioPosition).currentPct =
        (⟨"TLT", .DEFENSE, none, none, none, 0.07, 0.07⟩ : PortfolioPosition).targetPct ∧
      0 < (⟨"TLT", .DEFENSE, none, none, none, 0.07, 0.07⟩ :
        PortfolioPosition).currentPct) := by
  refine ⟨by with_unfolding_all decide, by with_unfolding_all decide, ?_⟩
  exact ((c10_reentry_gating.2.1 .NEUTRAL .GENERAL 0.70 ⟨false, 0, 0.70⟩
      (by with_unfolding_all decide)
      ⟨"TLT", .DEFENSE, none, none, none, 0.07, 0.07⟩
      (by with_unfolding_all decide)).2 rfl).1 rfl
